import Mathlib

/-!
Verification of the transport and packet-cipher core of jtxiaozhi-client.

Shallow embedding of
* `src/audio/AudioEncryptor.cpp` (per-packet AES-128-CTR framing),
* `src/network/DeviceSession.cpp`, `src/network/OtaManager.cpp` (protocol selection),
* `src/network/WebSocketManager.cpp` (versioned binary framing),
* `src/network/MqttManager.cpp`, `src/utils/Config.cpp` (port/encryption negotiation).

Conventions: a `QByteArray` is a list of byte values, a `QString` a list of
characters; unsigned machine integers are naturals, reduced modulo `2 ^ w` where
the C++ arithmetic can wrap.  Object state is passed explicitly, signals and calls
to collaborators are recorded as lists of events.
-/

set_option autoImplicit false

namespace xiaozhi

/-- Qt `QByteArray`: a sequence of byte values (each in `0..255` on the wire). -/
abbrev QByteArray := List Nat

/-- Qt `QString`. -/
abbrev QString := List Char

/-- C `memcpy(dst + off, src, n)` on byte buffers (in-bounds use). -/
def memcpy (dst : QByteArray) (off : Nat) (src : QByteArray) (n : Nat) : QByteArray :=
  dst.take off ++ src.take n ++ dst.drop (off + n)

/-- Object representation of a `uint16_t` on the little-endian host. -/
def bytesOfU16 (x : Nat) : QByteArray := [x % 256, x / 2 ^ 8 % 256]

/-- Object representation of a `uint32_t` on the little-endian host. -/
def bytesOfU32 (x : Nat) : QByteArray :=
  [x % 256, x / 2 ^ 8 % 256, x / 2 ^ 16 % 256, x / 2 ^ 24 % 256]

/-- Load of a `uint32_t` from four bytes at offset `off` (little-endian host). -/
def loadU32 (buf : QByteArray) (off : Nat) : Nat :=
  buf.getD off 0 + buf.getD (off + 1) 0 * 2 ^ 8 + buf.getD (off + 2) 0 * 2 ^ 16
    + buf.getD (off + 3) 0 * 2 ^ 24

/-- `QByteArray::mid(pos, len)`. -/
def QByteArray.mid (data : QByteArray) (pos len : Nat) : QByteArray :=
  (data.drop pos).take len

/-- `QString::contains(QChar)`. -/
def QString.contains (s : QString) (c : Char) : Bool := s.elem c

/-- `QString::startsWith`. -/
def QString.startsWith (s pre : QString) : Bool := pre.isPrefixOf s

/-- `QString::split(QChar)` (empty parts are kept). -/
def QString.split (sep : Char) : QString → List QString
  | [] => [[]]
  | c :: cs =>
    if c = sep then [] :: QString.split sep cs
    else
      match QString.split sep cs with
      | [] => [[c]]
      | part :: parts => (c :: part) :: parts

/-- Value of a run of decimal digits, `none` when a character is not a digit. -/
def decimalValue : Nat → List Char → Option Nat
  | acc, [] => some acc
  | acc, c :: cs =>
    if c.isDigit then decimalValue (acc * 10 + (c.toNat - 48)) cs else none

/-- `QString::toInt()`: base 10, surrounding white space ignored, an optional sign;
`0` when the text is not a number or does not fit an `int`. -/
def QString.toInt (s : QString) : Int :=
  let t := ((s.dropWhile Char.isWhitespace).reverse.dropWhile Char.isWhitespace).reverse
  let signed : Option Int :=
    match t with
    | [] => none
    | '-' :: ds => if ds.isEmpty then none else (decimalValue 0 ds).map (fun n => -(n : Int))
    | '+' :: ds => if ds.isEmpty then none else (decimalValue 0 ds).map (fun n => (n : Int))
    | ds => (decimalValue 0 ds).map (fun n => (n : Int))
  match signed with
  | some v => if -(2 : Int) ^ 31 ≤ v ∧ v < (2 : Int) ^ 31 then v else 0
  | none => 0

namespace audio

/-! ## AudioEncryptor -/

/-- `AudioEncryptor::htons_custom` (the `Q_LITTLE_ENDIAN` branch). -/
def htons_custom (value : Nat) : Nat :=
  ((value &&& 0xFF00) >>> 8) ||| ((value &&& 0x00FF) <<< 8)

/-- `AudioEncryptor::htonl_custom` (the `Q_LITTLE_ENDIAN` branch). -/
def htonl_custom (value : Nat) : Nat :=
  ((value &&& 0xFF000000) >>> 24) |||
  ((value &&& 0x00FF0000) >>> 8) |||
  ((value &&& 0x0000FF00) <<< 8) |||
  ((value &&& 0x000000FF) <<< 24)

/-- `AudioEncryptor::ntohs_custom`. -/
def ntohs_custom (value : Nat) : Nat := htons_custom value

/-- `AudioEncryptor::ntohl_custom`. -/
def ntohl_custom (value : Nat) : Nat := htonl_custom value

/-- The AES-128-CTR keystream of OpenSSL: byte `i` of the stream generated from a
key and a 16-byte IV. -/
abbrev Keystream := QByteArray → QByteArray → Nat → Nat

/-- XOR of a buffer with a keystream, starting at stream position `i`. -/
def ctrXor (stream : Nat → Nat) : Nat → QByteArray → QByteArray
  | _, [] => []
  | i, b :: bs => (b ^^^ stream i) :: ctrXor stream (i + 1) bs

/-- `EVP_EncryptInit_ex(ctx, nullptr, nullptr, nullptr, iv)` followed by
`EVP_EncryptUpdate` (and the `Decrypt` pair, which is the same operation in CTR
mode): the data XORed with the keystream restarted at the given IV. -/
def evpCtr (ks : Keystream) (key iv data : QByteArray) : QByteArray :=
  ctrXor (ks key iv) 0 data

/-- Data members of `AudioEncryptor`. -/
structure AudioEncryptor where
  m_key : QByteArray
  m_nonce : QByteArray
  m_localSequence : Nat
  m_remoteSequence : Nat
  m_ssrc : Nat
  m_initialized : Bool
  deriving Repr, DecidableEq

/-- State after the constructor. -/
def AudioEncryptor.new : AudioEncryptor :=
  { m_key := [], m_nonce := [], m_localSequence := 0, m_remoteSequence := 0,
    m_ssrc := 0, m_initialized := false }

/-- `AudioEncryptor::initialize`, on the bytes that `hexToBytes` yields for the key
and nonce strings.  Returns the new state and the boolean result.  The OpenSSL
context allocation and cipher set-up are taken to succeed. -/
def AudioEncryptor.initialize (self : AudioEncryptor) (key nonce : QByteArray) :
    AudioEncryptor × Bool :=
  let s1 := { self with m_key := key, m_nonce := nonce }
  if key.length ≠ 16 ∨ nonce.length ≠ 16 then
    (s1, false)
  else
    ({ s1 with
        m_initialized := true
        m_localSequence := 0
        m_remoteSequence := 0
        m_ssrc := ntohl_custom (loadU32 nonce 4) }, true)

/-- `AudioEncryptor::encrypt`: returns the packet and the new state.  The two OpenSSL
calls are taken to succeed; `++m_localSequence` is a `uint32_t` increment. -/
def AudioEncryptor.encrypt (ks : Keystream) (self : AudioEncryptor)
    (audioData : QByteArray) (timestamp : Nat) : QByteArray × AudioEncryptor :=
  if !self.m_initialized then
    ([], self)
  else if audioData.isEmpty then
    ([], self)
  else
    let sequence := (self.m_localSequence + 1) % 2 ^ 32
    let self1 := { self with m_localSequence := sequence }
    let nonce := self.m_nonce
    let payloadLen := htons_custom (audioData.length % 2 ^ 16)
    let ts := htonl_custom timestamp
    let seq := htonl_custom sequence
    let nonce := memcpy nonce 2 (bytesOfU16 payloadLen) 2
    let nonce := memcpy nonce 8 (bytesOfU32 ts) 4
    let nonce := memcpy nonce 12 (bytesOfU32 seq) 4
    let encrypted := evpCtr ks self.m_key nonce audioData
    let packet := List.replicate (16 + encrypted.length) 0
    let packet := memcpy packet 0 nonce 16
    let packet := memcpy packet 16 encrypted encrypted.length
    (packet, self1)

/-- Result of `AudioEncryptor::decrypt`: the returned bytes, the values left in the
reference parameters `timestamp` and `sequence`, and the new state. -/
structure DecryptResult where
  data : QByteArray
  timestamp : Nat
  sequence : Nat
  self : AudioEncryptor
  deriving Repr, DecidableEq

/-- `AudioEncryptor::decrypt`; `timestamp` and `sequence` are the values the
caller's variables hold on entry.  The `payload_len` and `ssrc` fields and the
sequence-gap test only feed log messages and are left out; the two OpenSSL calls are
taken to succeed. -/
def AudioEncryptor.decrypt (ks : Keystream) (self : AudioEncryptor)
    (encryptedPacket : QByteArray) (timestamp sequence : Nat) : DecryptResult :=
  if !self.m_initialized then
    { data := [], timestamp := timestamp, sequence := sequence, self := self }
  else if encryptedPacket.length < 16 then
    { data := [], timestamp := timestamp, sequence := sequence, self := self }
  else
    let type := encryptedPacket.getD 0 0
    let timestamp := ntohl_custom (loadU32 encryptedPacket 8)
    let sequence := ntohl_custom (loadU32 encryptedPacket 12)
    if type ≠ 0x01 then
      { data := [], timestamp := timestamp, sequence := sequence, self := self }
    else
      let self1 := { self with m_remoteSequence := sequence }
      let payloadSize := encryptedPacket.length - 16
      let nonce := encryptedPacket.take 16
      let decrypted :=
        evpCtr ks self.m_key nonce ((encryptedPacket.drop 16).take payloadSize)
      { data := decrypted, timestamp := timestamp, sequence := sequence, self := self1 }

/-- `AudioEncryptor::resetSequence`. -/
def AudioEncryptor.resetSequence (self : AudioEncryptor) : AudioEncryptor :=
  { self with m_localSequence := 0, m_remoteSequence := 0 }

/-- A stand-in keystream for evaluating the model on concrete inputs. -/
def sampleKeystream : Keystream :=
  fun key iv i => (key.getD (i % 16) 0 + iv.getD (i % 16) 0 + 7 * i + 1) % 256

/-- An initialised encryptor: `initialize` has succeeded, so the key and the nonce
are 16 bytes long. -/
def AudioEncryptor.Ready (e : AudioEncryptor) : Prop :=
  e.m_initialized = true ∧ e.m_key.length = 16 ∧ e.m_nonce.length = 16

instance (e : AudioEncryptor) : Decidable e.Ready := by
  unfold AudioEncryptor.Ready
  exact inferInstance

/-- Big-endian (network order) bytes of a 16-bit value. -/
def beBytes16 (v : Nat) : QByteArray := [v / 2 ^ 8 % 256, v % 256]

/-- Big-endian (network order) bytes of a 32-bit value. -/
def beBytes32 (v : Nat) : QByteArray :=
  [v / 2 ^ 24 % 256, v / 2 ^ 16 % 256, v / 2 ^ 8 % 256, v % 256]

/-- The 16-byte header laid out field by field: type and flags and the stream id
taken from the server nonce, payload length, timestamp and sequence in network
order. -/
def sendHeader (nonce : QByteArray) (len ts seq : Nat) : QByteArray :=
  [nonce.getD 0 0, nonce.getD 1 0, len / 2 ^ 8 % 256, len % 256,
   nonce.getD 4 0, nonce.getD 5 0, nonce.getD 6 0, nonce.getD 7 0,
   ts / 2 ^ 24 % 256, ts / 2 ^ 16 % 256, ts / 2 ^ 8 % 256, ts % 256,
   seq / 2 ^ 24 % 256, seq / 2 ^ 16 % 256, seq / 2 ^ 8 % 256, seq % 256]

/-- Sample key for concrete evaluations: sixteen zero bytes. -/
def sampleKey : QByteArray := List.replicate 16 0

/-- Sample server nonce `01 00 00 00 AA BB CC DD 00000000 00000000`. -/
def sampleNonce : QByteArray := [1, 0, 0, 0, 0xAA, 0xBB, 0xCC, 0xDD, 0, 0, 0, 0, 0, 0, 0, 0]

/-- A 16-byte nonce whose type byte is not `0x01`. -/
def zeroTypeNonce : QByteArray := [0, 0, 0, 0, 0xAA, 0xBB, 0xCC, 0xDD, 0, 0, 0, 0, 0, 0, 0, 0]

end audio

namespace utils

/-! ## Config: the MQTT port/protocol cache -/

/-- The `MqttPortCache/<port>` entries of the settings store behind `Config`. -/
structure Config where
  mqttPortCache : Int → Option Bool

/-- `Config::getMqttPortProtocol` (`true` = TLS; the default value is `true`). -/
def Config.getMqttPortProtocol (c : Config) (port : Int) : Bool :=
  (c.mqttPortCache port).getD true

/-- `Config::setMqttPortProtocol`. -/
def Config.setMqttPortProtocol (c : Config) (port : Int) (useTLS : Bool) : Config :=
  { mqttPortCache := fun p => if p = port then some useTLS else c.mqttPortCache p }

/-- `Config::hasMqttPortProtocol`. -/
def Config.hasMqttPortProtocol (c : Config) (port : Int) : Bool :=
  (c.mqttPortCache port).isSome

/-- A settings store without cache entries. -/
def Config.empty : Config := { mqttPortCache := fun _ => none }

end utils

namespace network

/-! ## NetworkTypes -/

/-- `ActivationInfo`. -/
structure ActivationInfo where
  code : QString := []
  message : QString := []
  challenge : QString := []
  timeout_ms : Int := 0
  deriving Repr, DecidableEq

/-- `MqttConfig`. -/
structure MqttConfig where
  endpoint : QString := []
  client_id : QString := []
  username : QString := []
  password : QString := []
  publish_topic : QString := []
  subscribe_topic : QString := []
  deriving Repr, DecidableEq

/-- `MqttConfig::isValid`. -/
def MqttConfig.isValid (c : MqttConfig) : Bool :=
  !c.endpoint.isEmpty && !c.client_id.isEmpty

/-- `UdpConfig`. -/
structure UdpConfig where
  server : QString := []
  port : Int := 8080
  key : QString := []
  nonce : QString := []
  serverSampleRate : Int := 24000
  serverChannels : Int := 1
  serverFrameDuration : Int := 60
  deriving Repr, DecidableEq

/-- `WebSocketConfig`. -/
structure WebSocketConfig where
  url : QString := []
  token : QString := []
  version : Int := 1
  serverSampleRate : Int := 24000
  serverChannels : Int := 1
  serverFrameDuration : Int := 60
  deriving Repr, DecidableEq

/-- `WebSocketConfig::isValid`. -/
def WebSocketConfig.isValid (c : WebSocketConfig) : Bool := !c.url.isEmpty

/-- `OtaConfig`; `bind_instructions` holds the string members of the JSON object. -/
structure OtaConfig where
  activation : ActivationInfo := {}
  mqtt : MqttConfig := {}
  udp : UdpConfig := {}
  websocket : WebSocketConfig := {}
  hasMqtt : Bool := false
  hasWebSocket : Bool := false
  protocol_type : String := "mqtt"
  transport_type : String := "udp"
  bind_instructions : List (String × QString) := []
  deriving Repr, DecidableEq

/-- The bootstrap response as `OtaConfig::fromJson` sees it: which top-level
members are present, each with the value its own `fromJson` builds from it. -/
structure OtaJson where
  activation : Option ActivationInfo := none
  mqtt : Option MqttConfig := none
  websocket : Option WebSocketConfig := none
  udp : Option UdpConfig := none
  bind_instructions : Option (List (String × QString)) := none
  deriving Repr, DecidableEq

/-- `OtaConfig::fromJson`. -/
def OtaConfig.fromJson (json : OtaJson) : OtaConfig :=
  let config : OtaConfig := {}
  let config :=
    match json.activation with
    | some a => { config with activation := a }
    | none => config
  let config :=
    match json.mqtt with
    | some m =>
      let config := { config with mqtt := m, hasMqtt := m.isValid }
      if config.hasMqtt then
        { config with protocol_type := "mqtt", transport_type := "udp" }
      else config
    | none => config
  let config :=
    match json.websocket with
    | some w =>
      let config := { config with websocket := w, hasWebSocket := w.isValid }
      if config.hasWebSocket then
        if !config.hasMqtt then
          { config with protocol_type := "websocket", transport_type := "websocket" }
        else config
      else config
    | none => config
  let config :=
    match json.udp with
    | some u => { config with udp := u }
    | none => config
  match json.bind_instructions with
  | some b => { config with bind_instructions := b }
  | none => config

/-! ## WebSocketManager -/

/-- Signals of `WebSocketManager` and its calls on the socket and the hello timer. -/
inductive WsEvent where
  | errorOccurred (error : String)
  | socketDeleteLater
  | socketClose
  | socketOpen (url : QString) (sslVerifyNone : Bool) (headers : List (String × QString))
  | helloTimerStart (ms : Nat)
  | helloTimerStop
  | connected
  | disconnected
  | audioDataReceived (opusData : QByteArray)
  | jsonMessageReceived (jsonData : QString)
  deriving Repr, DecidableEq

/-- Data members of `WebSocketManager`; `m_webSocket` records whether the pointer is
non-null, `helloTimerActive` whether the single-shot hello timer is running. -/
structure WebSocketManager where
  m_webSocket : Bool := false
  m_config : WebSocketConfig := {}
  m_deviceId : QString := []
  m_clientId : QString := []
  m_sessionId : QString := []
  m_helloReceived : Bool := false
  helloTimerActive : Bool := false
  deriving Repr, DecidableEq

/-- `WebSocketManager::HELLO_TIMEOUT_MS`. -/
def HELLO_TIMEOUT_MS : Nat := 10000

/-- `WebSocketManager::connectToServer`: new state, events in order, return value. -/
def WebSocketManager.connectToServer (self : WebSocketManager) (config : WebSocketConfig)
    (deviceId clientId : QString) : WebSocketManager × List WsEvent × Bool :=
  if !config.isValid then
    (self, [WsEvent.errorOccurred "WebSocket配置无效"], false)
  else
    let ev0 : List WsEvent := if self.m_webSocket then [WsEvent.socketDeleteLater] else []
    let self1 : WebSocketManager :=
      { self with
          m_config := config
          m_deviceId := deviceId
          m_clientId := clientId
          m_helloReceived := false
          m_sessionId := []
          m_webSocket := true }
    let ssl := QString.startsWith self1.m_config.url "wss://".toList
    let auth : List (String × QString) :=
      if !self1.m_config.token.isEmpty then
        let authHeader := self1.m_config.token
        let authHeader :=
          if !QString.contains authHeader ' ' then "Bearer ".toList ++ authHeader
          else authHeader
        [("Authorization", authHeader)]
      else []
    let headers := auth ++
      [("Protocol-Version", (toString self1.m_config.version).toList),
       ("Device-Id", self1.m_deviceId),
       ("Client-Id", self1.m_clientId)]
    let self2 := { self1 with helloTimerActive := true }
    (self2,
     ev0 ++ [WsEvent.socketOpen self1.m_config.url ssl headers,
             WsEvent.helloTimerStart HELLO_TIMEOUT_MS],
     true)

/-- Big-endian value of the two bytes at `off`, `none` when the read would leave the
buffer (`qFromBigEndian<quint16>` on a field of the overlaid header). -/
def readBE16 (data : QByteArray) (off : Nat) : Option Nat := do
  let b0 ← data.get? off
  let b1 ← data.get? (off + 1)
  pure (b0 * 2 ^ 8 + b1)

/-- Big-endian value of the four bytes at `off`, `none` when the read would leave the
buffer (`qFromBigEndian<quint32>` on a field of the overlaid header). -/
def readBE32 (data : QByteArray) (off : Nat) : Option Nat := do
  let b0 ← data.get? off
  let b1 ← data.get? (off + 1)
  let b2 ← data.get? (off + 2)
  let b3 ← data.get? (off + 3)
  pure (b0 * 2 ^ 24 + b1 * 2 ^ 16 + b2 * 2 ^ 8 + b3)

/-- `sizeof(BinaryProtocol2)`: version(2) type(2) reserved(4) timestamp(4)
payload_size(4), packed. -/
def sizeofBinaryProtocol2 : Nat := 16

/-- `sizeof(BinaryProtocol3)`: type(1) reserved(1) payload_size(2), packed. -/
def sizeofBinaryProtocol3 : Nat := 4

/-- `WebSocketManager::parseBinaryPacket` for `m_config.version = version`.  The
result is `none` exactly when a header field is read outside the buffer. -/
def parseBinaryPacket (version : Int) (data : QByteArray) : Option QByteArray :=
  if version = 2 then
    if data.length < sizeofBinaryProtocol2 then
      some []
    else do
      let payloadSize ← readBE32 data 12
      if payloadSize = 0 ∨ payloadSize > 1024 * 1024 then
        some []
      else
        let expectedSize := sizeofBinaryProtocol2 + payloadSize
        if data.length < expectedSize then
          some []
        else
          some (QByteArray.mid data sizeofBinaryProtocol2 payloadSize)
  else if version = 3 then
    if data.length < sizeofBinaryProtocol3 then
      some []
    else do
      let payloadSize ← readBE16 data 2
      if payloadSize = 0 ∨ payloadSize > 65535 then
        some []
      else
        let expectedSize := sizeofBinaryProtocol3 + payloadSize
        if data.length < expectedSize then
          some []
        else
          some (QByteArray.mid data sizeofBinaryProtocol3 payloadSize)
  else
    some data

/-- The payload length that the header of a version 2 or 3 frame declares (`none`
when the frame is shorter than the header). -/
def declaredPayloadLength (version : Int) (data : QByteArray) : Option Nat :=
  if version = 2 then readBE32 data 12 else readBE16 data 2

/-- Largest declared payload length that `parseBinaryPacket` accepts. -/
def maxPayloadLength (version : Int) : Nat :=
  if version = 2 then 1024 * 1024 else 65535

/-- Size of the binary header of a framed protocol version (2 or 3). -/
def headerSize (version : Int) : Nat :=
  if version = 2 then sizeofBinaryProtocol2 else sizeofBinaryProtocol3

/-- A version-2 header declaring payload length `len` (version 2, type 0, reserved 0,
timestamp `ts`). -/
def v2Header (ts len : Nat) : QByteArray :=
  [0, 2, 0, 0, 0, 0, 0, 0] ++ audio.beBytes32 ts ++ audio.beBytes32 len

/-- A version-3 header declaring payload length `len` (type 0, reserved 0). -/
def v3Header (len : Nat) : QByteArray := [0, 0] ++ audio.beBytes16 len

/-! ## DeviceSession -/

/-- `models::ChatMessage`, the fields `onOtaConfigReceived` fills in. -/
structure ChatMessage where
  deviceId : QString := []
  messageType : String := ""
  textContent : QString := []
  audioFilePath : QString := []
  timestamp : Int := 0
  isFinal : Bool := true
  deriving Repr, DecidableEq

/-- Signals of `DeviceSession`, its `Logger` calls, the events of the
`WebSocketManager` it owns, its calls on the OTA, MQTT and UDP managers, the
single-shot timers it starts and the conversation manager it creates. -/
inductive SessionEvent where
  | logMessage (deviceId : QString) (text : QString)
  | chatMessageReceived (deviceId : QString) (message : ChatMessage)
  | activationCodeReceived (deviceId : QString) (code : QString)
  | loggerInfo (text : String)
  | loggerError (text : String)
  | createWebSocketManager
  | websocket (event : WsEvent)
  | singleShotConnectMqtt (ms : Nat)
  | connectionStateChanged (deviceId : QString) (connected udpConnected : Bool)
  | loggerDebug (text : String)
  | loggerWarn (text : String)
  | otaRequestOtaConfig (macAddress uuid otaUrl : QString)
  | mqttConnectToMqtt (config : MqttConfig)
  | mqttDisconnect
  | udpDisconnect
  | udpConnectToUdp (config : UdpConfig)
  | singleShotSendHello (ms : Nat)
  | singleShotSendIotDescriptors (ms : Nat)
  | singleShotSendIotStates (ms : Nat)
  | createConversationManagerMqttUdp (sessionId : QString)
      (serverSampleRate serverChannels serverFrameDuration : Int)
  | createConversationManagerWebSocket (sessionId : QString)
      (serverSampleRate serverChannels serverFrameDuration : Int)
  deriving Repr, DecidableEq

/-- Data members of `DeviceSession`.  The OTA, MQTT and UDP managers always exist
(the constructor creates them); `m_websocketManager` is `none` for a null pointer;
`m_conversationManager` and `m_audioDevice` record whether the pointer is non-null;
`mqttConnectRequested` records whether `connectToMqtt` has been called on the MQTT
manager, whose worker raises `connected` only from a connection attempt. -/
structure DeviceSession where
  m_deviceId : QString := []
  m_deviceName : QString := []
  m_macAddress : QString := []
  m_otaUrl : QString := []
  m_uuid : QString := []
  m_otaConfig : OtaConfig := {}
  m_activationCode : QString := []
  m_sessionId : QString := []
  m_mqttConnected : Bool := false
  m_udpConnected : Bool := false
  m_websocketConnected : Bool := false
  m_websocketEnabled : Bool := false
  m_websocketManager : Option WebSocketManager := none
  m_conversationManager : Bool := false
  m_audioDevice : Bool := true
  mqttConnectRequested : Bool := false
  deriving Repr, DecidableEq

/-- `DeviceSession::isWebSocketMode`. -/
def DeviceSession.isWebSocketMode (self : DeviceSession) : Bool :=
  self.m_websocketEnabled && self.m_otaConfig.hasWebSocket

/-- `DeviceSession::updateWebSocketEnabled`. -/
def DeviceSession.updateWebSocketEnabled (self : DeviceSession) (enabled : Bool) :
    DeviceSession :=
  { self with m_websocketEnabled := enabled }

/-- Lookup of a string member in a JSON object. -/
def jsonString (obj : List (String × QString)) (key : String) : Option QString :=
  (obj.find? (fun kv => kv.1 == key)).map (fun kv => kv.2)

/-- The activation text that `onOtaConfigReceived` shows as a chat bubble. -/
def activationText (config : OtaConfig) (code : QString) : QString :=
  let bar := "━━━━━━━━━━━━━━━━━━━━━━".toList
  let msg := "\n".toList ++ bar ++ "\n设备绑定验证码\n".toList ++ bar ++ "\n\n验证码：".toList
    ++ code ++ "\n\n".toList
  let msg :=
    if !config.activation.message.isEmpty then msg ++ config.activation.message ++ "\n\n".toList
    else msg
  let msg :=
    match jsonString config.bind_instructions "web_url" with
    | some webUrl =>
      if !webUrl.isEmpty then msg ++ "控制面板：".toList ++ webUrl ++ "\n\n".toList else msg
    | none => msg
  let msg :=
    match jsonString config.bind_instructions "step1" with
    | some step1 =>
      let msg := msg ++ "绑定步骤：\n".toList ++ "① ".toList ++ step1 ++ "\n".toList
      let msg :=
        match jsonString config.bind_instructions "step2" with
        | some step2 => msg ++ "② ".toList ++ step2 ++ "\n".toList
        | none => msg
      match jsonString config.bind_instructions "step3" with
      | some step3 => msg ++ "③ ".toList ++ step3 ++ "\n".toList
      | none => msg
    | none => msg
  msg ++ "\n".toList ++ bar

/-- `DeviceSession::onOtaConfigReceived`; `now` is the clock reading used for the
activation message.  Returns the new state and the events in order. -/
def DeviceSession.onOtaConfigReceived (self : DeviceSession) (config : OtaConfig)
    (now : Int) : DeviceSession × List SessionEvent :=
  let self := { self with m_otaConfig := config }
  let ev : List SessionEvent := [SessionEvent.logMessage self.m_deviceId "连接成功".toList]
  let (self, ev) :=
    if !config.activation.code.isEmpty then
      let self := { self with m_activationCode := config.activation.code }
      let activationMessage : ChatMessage :=
        { deviceId := self.m_deviceId
          messageType := "activation"
          textContent := activationText config self.m_activationCode
          audioFilePath := []
          timestamp := now
          isFinal := true }
      (self, ev ++ [SessionEvent.chatMessageReceived self.m_deviceId activationMessage,
                    SessionEvent.activationCodeReceived self.m_deviceId self.m_activationCode])
    else (self, ev)
  if self.m_websocketEnabled && config.hasWebSocket then
    let ev := ev ++ [SessionEvent.loggerInfo "[%1] 🌐 使用WebSocket协议",
                     SessionEvent.logMessage self.m_deviceId "正在连接WebSocket服务器...".toList,
                     SessionEvent.createWebSocketManager]
    let (mgr, wsEvents, _) :=
      WebSocketManager.connectToServer {} config.websocket self.m_macAddress self.m_uuid
    ({ self with m_websocketManager := some mgr }, ev ++ wsEvents.map SessionEvent.websocket)
  else if config.hasMqtt then
    let ev := ev ++ [SessionEvent.loggerInfo "[%1] 📡 使用MQTT+UDP协议"]
    if config.mqtt.isValid then
      (self, ev ++ [SessionEvent.loggerInfo "[%1] 自动连接MQTT...",
                    SessionEvent.singleShotConnectMqtt 1000])
    else
      (self, ev ++ [SessionEvent.logMessage self.m_deviceId "服务器配置无效".toList])
  else
    (self, ev ++ [SessionEvent.logMessage self.m_deviceId "服务器未提供任何可用协议".toList,
                  SessionEvent.loggerError "[%1] OTA响应中既无MQTT也无WebSocket配置"])

/-- The event opens a WebSocket connection. -/
def SessionEvent.isWebSocketOpen : SessionEvent → Bool
  | SessionEvent.websocket (WsEvent.socketOpen _ _ _) => true
  | _ => false

/-- The event schedules or starts an MQTT connection. -/
def SessionEvent.isMqttConnect : SessionEvent → Bool
  | SessionEvent.singleShotConnectMqtt _ => true
  | _ => false

/-- A bootstrap response with only a (valid) WebSocket section. -/
def wsOnlyJson : OtaJson := { websocket := some { url := "ws://server/ws".toList } }

/-- A bootstrap response with a valid MQTT section and a valid WebSocket section. -/
def bothJson : OtaJson :=
  { mqtt := some { endpoint := "host:8883".toList, client_id := "client".toList }
    websocket := some { url := "ws://server/ws".toList } }

/-! ## MqttWorker: port and encryption negotiation -/

/-- One call of `MqttWorker::tryConnect(host, port, useSSL)`. -/
structure Attempt where
  host : QString
  port : Int
  useSSL : Bool
  deriving Repr, DecidableEq

/-- The broker side: whether the `n`-th connection attempt of a run succeeds. -/
abbrev Network := Nat → Attempt → Bool

/-- Signals of `MqttWorker` raised while connecting. -/
inductive MqttEvent where
  | connected
  | errorOccurred (error : QString)
  deriving Repr, DecidableEq

/-- Data members of `MqttWorker` used while connecting. -/
structure MqttWorker where
  m_config : MqttConfig := {}
  m_connected : Bool := false
  deriving Repr, DecidableEq

/-- The worker together with the settings store, the connection attempts made so far
(oldest first) and the signals raised so far (oldest first). -/
structure MqttRun where
  worker : MqttWorker := {}
  settings : utils.Config := utils.Config.empty
  attempts : List Attempt := []
  events : List MqttEvent := []

/-- `MqttWorker::tryConnect`: the attempt is recorded; on success `m_connected` is set
and `connected` is raised. -/
def MqttWorker.tryConnect (net : Network) (r : MqttRun) (host : QString) (port : Int)
    (useSSL : Bool) : Bool × MqttRun :=
  let a : Attempt := { host := host, port := port, useSSL := useSSL }
  let ok := net r.attempts.length a
  let r := { r with attempts := r.attempts ++ [a] }
  if ok then
    (true, { r with worker := { r.worker with m_connected := true },
                    events := r.events ++ [MqttEvent.connected] })
  else
    (false, r)

/-- `MqttWorker::connectToMqtt`. -/
def MqttWorker.connectToMqtt (net : Network) (r : MqttRun) (config : MqttConfig) : MqttRun :=
  let r := { r with worker := { r.worker with m_config := config } }
  let portSpecified := QString.contains config.endpoint ':'
  let parts := QString.split ':' config.endpoint
  let host : QString := if portSpecified then parts.getD 0 [] else config.endpoint
  let port : Int := if portSpecified then QString.toInt (parts.getD 1 []) else 0
  if !portSpecified then
    -- the cached decision for 8883
    let (done, r) :=
      if r.settings.hasMqttPortProtocol 8883 then
        MqttWorker.tryConnect net r host 8883 (r.settings.getMqttPortProtocol 8883)
      else (false, r)
    if done then r
    else
      -- the cached decision for 1883
      let (done, r) :=
        if r.settings.hasMqttPortProtocol 1883 then
          MqttWorker.tryConnect net r host 1883 (r.settings.getMqttPortProtocol 1883)
        else (false, r)
      if done then r
      else
        let (ok, r) := MqttWorker.tryConnect net r host 8883 true
        if ok then { r with settings := r.settings.setMqttPortProtocol 8883 true }
        else
          let (ok, r) := MqttWorker.tryConnect net r host 1883 false
          if ok then { r with settings := r.settings.setMqttPortProtocol 1883 false }
          else
            { r with events := r.events ++ [MqttEvent.errorOccurred
                ("MQTT连接失败: 无法连接到".toList ++ host
                  ++ " (尝试了8883和1883端口)".toList)] }
  else
    let (useSSL, tryAlternate) :=
      if r.settings.hasMqttPortProtocol port then
        (r.settings.getMqttPortProtocol port, false)
      else if port ≥ 8000 ∧ port < 9000 then (true, true)
      else if port ≥ 1000 ∧ port < 2000 then (false, true)
      else (true, true)
    let (success, r) := MqttWorker.tryConnect net r host port useSSL
    let (success, useSSL, r) :=
      if !success && tryAlternate then
        let useSSL := !useSSL
        let (success, r) := MqttWorker.tryConnect net r host port useSSL
        (success, useSSL, r)
      else (success, useSSL, r)
    if success then
      { r with settings := r.settings.setMqttPortProtocol port useSSL }
    else
      { r with events := r.events ++ [MqttEvent.errorOccurred
          ("MQTT连接失败: 无法连接到".toList ++ host ++ ":".toList ++ (toString port).toList)] }

/-- The host and port that `connectToMqtt` reads from an endpoint with a port. -/
def endpointPort (endpoint : QString) : Int :=
  QString.toInt ((QString.split ':' endpoint).getD 1 [])

/-- The host that `connectToMqtt` reads from an endpoint with a port. -/
def endpointHost (endpoint : QString) : QString :=
  (QString.split ':' endpoint).getD 0 []

/-- A control-channel config whose endpoint is `host:8883`. -/
def sampleMqttConfig : MqttConfig :=
  { endpoint := "host:8883".toList, client_id := "client".toList }

/-- A broker that refuses every connection. -/
def Network.refuseAll : Network := fun _ _ => false

/-- A broker that accepts TLS connections only. -/
def Network.tlsOnly : Network := fun _ a => a.useSSL

/-- A settings store that records TLS for port 8883. -/
def tls8883 : utils.Config := utils.Config.setMqttPortProtocol utils.Config.empty 8883 true

end network

end xiaozhi

namespace xiaozhi
namespace audio

/-- The sequence field of a packet header: bytes 12..15 in network order. -/
def sequenceField (packet : QByteArray) : Nat :=
  packet.getD 12 0 * 2 ^ 24 + packet.getD 13 0 * 2 ^ 16 + packet.getD 14 0 * 2 ^ 8
    + packet.getD 15 0

/-- The timestamp field of a packet header: bytes 8..11 in network order. -/
def timestampField (packet : QByteArray) : Nat :=
  packet.getD 8 0 * 2 ^ 24 + packet.getD 9 0 * 2 ^ 16 + packet.getD 10 0 * 2 ^ 8
    + packet.getD 11 0

/-- A packet with type byte `0x01`, payload-length field zero, sequence 7 and a
three-byte payload. -/
def samplePacket : QByteArray :=
  [1, 0, 0, 0, 0xAA, 0xBB, 0xCC, 0xDD, 0, 0, 3, 232, 0, 0, 0, 7, 10, 20, 30]

/-- An initialised encryptor with the sample key and nonce. -/
def sampleEncryptor : AudioEncryptor :=
  ( AudioEncryptor.initialize AudioEncryptor.new sampleKey sampleNonce).1

/-! ## OpusCodec -/

/-- `QByteArray::resize(n)`: truncated or zero-extended to `n` bytes (a negative size
counts as zero). -/
def QByteArray.resize (data : QByteArray) (n : Int) : QByteArray :=
  data.take n.toNat ++ List.replicate (n.toNat - data.length) 0

/-- The bytes a library call leaves in an output buffer of `size` zero bytes after
writing `written` at its start. -/
def outputBuffer (size : Int) (written : QByteArray) : QByteArray :=
  written.take size.toNat ++ List.replicate (size.toNat - written.length) 0

/-- A libopus encoder handle: its configuration and the frames it has encoded since
it was created. -/
structure OpusEncoder where
  sample_rate : Int
  channels : Int
  bitrate : Int
  history : List QByteArray := []
  deriving Repr, DecidableEq

/-- A libopus decoder handle: its configuration and the packets it has decoded since
it was created or last reset. -/
structure OpusDecoder where
  sample_rate : Int
  channels : Int
  history : List QByteArray := []
  deriving Repr, DecidableEq

/-- The libopus entry points used by `OpusCodec`.  `opusEncode` and `opusDecode` give
the return code (byte or sample count, negative on error) and the bytes written to the
output buffer. -/
structure OpusLib where
  encoderCreate : Int → Int → Bool
  encoderSetBitrate : Int → Int → Int → Bool
  opusEncode : OpusEncoder → QByteArray → Int → Int → Int × QByteArray
  decoderCreate : Int → Int → Bool
  opusDecode : OpusDecoder → QByteArray → Int → Int × QByteArray

/-- Calls into libopus and the `Logger`, in the order `OpusCodec` makes them. -/
inductive CodecEvent where
  | loggerError (text : String)
  | loggerInfo (text : String)
  | loggerDebug (text : String)
  | opusEncoderCreate (sample_rate channels : Int)
  | opusEncoderDestroy
  | opusEncode (pcm : QByteArray) (frame_size : Int)
  | opusDecoderCreate (sample_rate channels : Int)
  | opusDecoderDestroy
  | opusDecode (data : QByteArray)
  | opusDecoderResetState
  deriving Repr, DecidableEq

/-- Data members of `OpusCodec`; a handle is `none` for a null pointer. -/
structure OpusCodec where
  encoder_ : Option OpusEncoder := none
  encoder_sample_rate_ : Int := 0
  encoder_channels_ : Int := 0
  encoder_frame_size_ : Int := 0
  decoder_ : Option OpusDecoder := none
  decoder_sample_rate_ : Int := 0
  decoder_channels_ : Int := 0
  decoder_frame_size_ : Int := 0
  deriving Repr, DecidableEq

/-- `OpusCodec::FRAME_DURATION_MS`. -/
def FRAME_DURATION_MS : Int := 60

/-- `OpusCodec::MAX_PACKET_SIZE`. -/
def MAX_PACKET_SIZE : Int := 4000

/-- `MAX_FRAME_SIZE` of `OpusCodec::decode`. -/
def MAX_FRAME_SIZE : Int := 6000

/-- `OpusCodec::initEncoder`: new state, calls in order, return value. -/
def OpusCodec.initEncoder (lib : OpusLib) (self : OpusCodec) (sample_rate channels bitrate : Int) :
    OpusCodec × List CodecEvent × Bool :=
  if !lib.encoderCreate sample_rate channels then
    ({ self with encoder_ := none },
     [CodecEvent.opusEncoderCreate sample_rate channels,
      CodecEvent.loggerError "❌ Opus编码器创建失败: %1"], false)
  else if !lib.encoderSetBitrate sample_rate channels bitrate then
    ({ self with encoder_ := none },
     [CodecEvent.opusEncoderCreate sample_rate channels,
      CodecEvent.loggerError "❌ 设置Opus比特率失败: %1",
      CodecEvent.opusEncoderDestroy], false)
  else
    ({ self with
        encoder_ := some { sample_rate := sample_rate, channels := channels, bitrate := bitrate }
        encoder_sample_rate_ := sample_rate
        encoder_channels_ := channels
        encoder_frame_size_ := Int.tdiv (sample_rate * FRAME_DURATION_MS) 1000 },
     [CodecEvent.opusEncoderCreate sample_rate channels,
      CodecEvent.loggerInfo " Opus编码器初始化成功: %1Hz %2声道 %3bps 帧大小=%4样本"], true)

/-- `OpusCodec::encode`: returned bytes, new state, calls in order. -/
def OpusCodec.encode (lib : OpusLib) (self : OpusCodec) (pcm_data : QByteArray) :
    QByteArray × OpusCodec × List CodecEvent :=
  match self.encoder_ with
  | none => ([], self, [CodecEvent.loggerError "❌ Opus编码器未初始化"])
  | some encoder =>
    let expected_size := self.encoder_frame_size_ * self.encoder_channels_ * 2
    if (pcm_data.length : Int) ≠ expected_size then
      ([], self, [CodecEvent.loggerError "❌ PCM数据大小不匹配: 期望%1字节, 实际%2字节"])
    else
      let out := lib.opusEncode encoder pcm_data self.encoder_frame_size_ MAX_PACKET_SIZE
      let encoded_bytes := out.1
      let opus_data := outputBuffer MAX_PACKET_SIZE out.2
      let self := { self with
        encoder_ := some { encoder with history := encoder.history ++ [pcm_data] } }
      if encoded_bytes < 0 then
        ([], self, [CodecEvent.opusEncode pcm_data self.encoder_frame_size_,
                    CodecEvent.loggerError "❌ Opus编码失败: %1"])
      else
        (QByteArray.resize opus_data encoded_bytes, self,
         [CodecEvent.opusEncode pcm_data self.encoder_frame_size_])

/-- `OpusCodec::initDecoder`: new state, calls in order, return value. -/
def OpusCodec.initDecoder (lib : OpusLib) (self : OpusCodec) (sample_rate channels : Int) :
    OpusCodec × List CodecEvent × Bool :=
  if !lib.decoderCreate sample_rate channels then
    ({ self with decoder_ := none },
     [CodecEvent.opusDecoderCreate sample_rate channels,
      CodecEvent.loggerError "❌ Opus解码器创建失败: %1"], false)
  else
    ({ self with
        decoder_ := some { sample_rate := sample_rate, channels := channels }
        decoder_sample_rate_ := sample_rate
        decoder_channels_ := channels
        decoder_frame_size_ := Int.tdiv (sample_rate * FRAME_DURATION_MS) 1000 },
     [CodecEvent.opusDecoderCreate sample_rate channels,
      CodecEvent.loggerInfo " Opus解码器初始化成功: %1Hz %2声道 帧大小=%3样本"], true)

/-- `OpusCodec::decode`: returned bytes, new state, calls in order. -/
def OpusCodec.decode (lib : OpusLib) (self : OpusCodec) (opus_data : QByteArray) :
    QByteArray × OpusCodec × List CodecEvent :=
  match self.decoder_ with
  | none => ([], self, [CodecEvent.loggerError "❌ Opus解码器未初始化"])
  | some decoder =>
    if opus_data.isEmpty then
      ([], self, [CodecEvent.loggerDebug "Opus数据为空，跳过解码"])
    else
      let out := lib.opusDecode decoder opus_data MAX_FRAME_SIZE
      let decoded_samples := out.1
      let pcm_data := outputBuffer (MAX_FRAME_SIZE * self.decoder_channels_ * 2) out.2
      let self := { self with
        decoder_ := some { decoder with history := decoder.history ++ [opus_data] } }
      if decoded_samples < 0 then
        ([], self, [CodecEvent.opusDecode opus_data])
      else
        (QByteArray.resize pcm_data (decoded_samples * self.decoder_channels_ * 2), self,
         [CodecEvent.opusDecode opus_data])

/-- `OpusCodec::resetDecoderState`. -/
def OpusCodec.resetDecoderState (self : OpusCodec) : OpusCodec × List CodecEvent :=
  match self.decoder_ with
  | some decoder =>
    ({ self with decoder_ := some { decoder with history := [] } },
     [CodecEvent.opusDecoderResetState])
  | none => (self, [])

/-- `OpusCodec::setDecoderSampleRate`: new state, calls in order, return value. -/
def OpusCodec.setDecoderSampleRate (lib : OpusLib) (self : OpusCodec) (target_sample_rate : Int) :
    OpusCodec × List CodecEvent × Bool :=
  if self.decoder_.isSome ∧ self.decoder_sample_rate_ = target_sample_rate then
    (self, [], false)
  else
    let ev : List CodecEvent := if self.decoder_.isSome then [CodecEvent.opusDecoderDestroy] else []
    let self := { self with decoder_ := none }
    let ev := ev ++ [CodecEvent.opusDecoderCreate target_sample_rate self.decoder_channels_]
    if !lib.decoderCreate target_sample_rate self.decoder_channels_ then
      (self, ev ++ [CodecEvent.loggerError "❌ Opus解码器重建失败: %1"], false)
    else
      ({ self with
          decoder_ := some { sample_rate := target_sample_rate, channels := self.decoder_channels_ }
          decoder_sample_rate_ := target_sample_rate
          decoder_frame_size_ := Int.tdiv (target_sample_rate * FRAME_DURATION_MS) 1000 },
       ev ++ [CodecEvent.loggerInfo " Opus解码器已重建: %1Hz %2声道 (ESP32对齐)"], true)

/-- `OpusCodec::getEncoderFrameSize`. -/
def OpusCodec.getEncoderFrameSize (self : OpusCodec) : Int := self.encoder_frame_size_

/-- A libopus stand-in for concrete evaluations: creation succeeds for the rates and
channel counts libopus supports, a frame encodes to its first three bytes, and a packet
decodes to 4 samples per channel unless its first byte is 255 (reported as corrupt). -/
def sampleOpus : OpusLib where
  encoderCreate := fun rate ch =>
    (rate = 8000 ∨ rate = 12000 ∨ rate = 16000 ∨ rate = 24000 ∨ rate = 48000) ∧ (ch = 1 ∨ ch = 2)
  encoderSetBitrate := fun _ _ _ => true
  opusEncode := fun _ pcm _ _ => (3, pcm.take 3)
  decoderCreate := fun rate ch =>
    (rate = 8000 ∨ rate = 12000 ∨ rate = 16000 ∨ rate = 24000 ∨ rate = 48000) ∧ (ch = 1 ∨ ch = 2)
  opusDecode := fun dec data _ =>
    if data.head? = some 255 then (-4, [])
    else (4, List.replicate (4 * dec.channels * 2).toNat (data.headD 0))

/-- The codec of a conversation manager: 16 kHz mono encoder, 24 kHz mono decoder. -/
def sampleCodec : OpusCodec :=
  { encoder_ := some { sample_rate := 16000, channels := 1, bitrate := 24000 }
    encoder_sample_rate_ := 16000
    encoder_channels_ := 1
    encoder_frame_size_ := 960
    decoder_ := some { sample_rate := 24000, channels := 1 }
    decoder_sample_rate_ := 24000
    decoder_channels_ := 1
    decoder_frame_size_ := 1440 }

/-- A libopus stand-in whose encoder and decoder cannot be created. -/
def brokenOpus : OpusLib where
  encoderCreate := fun _ _ => false
  encoderSetBitrate := fun _ _ _ => false
  opusEncode := fun _ _ _ _ => (-1, [])
  decoderCreate := fun _ _ => false
  opusDecode := fun _ _ _ => (-1, [])

end audio
end xiaozhi

namespace xiaozhi
namespace audio

/-! ## ConversationManager -/

/-- `ProtocolType`. -/
inductive ProtocolType where
  | MqttUdp
  | WebSocket
  deriving Repr, DecidableEq

/-- `ConversationState`. -/
inductive ConversationState where
  | Idle
  | Listening
  | Speaking
  deriving Repr, DecidableEq

/-- `ConversationMode`. -/
inductive ConversationMode where
  | Auto
  | Manual
  | Realtime
  deriving Repr, DecidableEq

/-- A control message as the conversation manager reads it: the string members
`type`, `text`, `state`, `action`, `emotion` (empty when absent) and `is_final`. -/
structure ControlMessage where
  type : QString := []
  text : QString := []
  state : QString := []
  action : QString := []
  emotion : QString := []
  is_final : Bool := false
  deriving Repr, DecidableEq

/-- Signals of `ConversationManager` and its calls on the audio device, the codec and
the transport managers, in order. -/
inductive ConvEvent where
  | stateChanged (state : ConversationState)
  | modeChanged (mode : ConversationMode)
  | isRecordingChanged (recording : Bool)
  | isPlayingChanged (playing : Bool)
  | udpChannelOpenedChanged (opened : Bool)
  | sttTextReceived (text : QString)
  | ttsTextReceived (text : QString)
  | errorOccurred (error : String)
  | ttsMessageStarted (text : QString) (timestamp : Int)
  | ttsMessageCompleted (text : QString) (pcmData : QByteArray) (timestamp : Int)
  | sttMessageCompleted (text : QString) (timestamp : Int)
  | loggerInfo (text : String)
  | loggerWarn (text : String)
  | loggerError (text : String)
  | deviceSetAudioConfig (sampleRate channelCount : Int)
  | deviceStartRecording
  | deviceStopRecording
  | deviceStartPlayback
  | deviceStopPlayback
  | deviceWriteAudioData (pcm : QByteArray)
  | codecEncode (pcm : QByteArray)
  | codecDecode (opus : QByteArray)
  | codecResetDecoderState
  | codec (event : CodecEvent)
  | mqttSendStartListening (sessionId : QString) (mode : String)
  | mqttSendStopListening (sessionId : QString)
  | mqttSendAbort (sessionId : QString) (reason : String)
  | wsSendStartListening (mode : String)
  | wsSendStopListening
  | wsSendAbortSpeaking
  | wsSendAudioData (opus : QByteArray)
  | udpSendAudioData (opus : QByteArray)
  | udpDisconnect
  deriving Repr, DecidableEq

/-- Data members of `ConversationManager`.  A manager pointer is recorded as `true`
when it is non-null; the audio device is always present.  The playback `QBuffer`,
which is only closed, cleared and reopened, is left out. -/
structure ConversationManager where
  m_protocolType : ProtocolType
  m_mqttManager : Bool
  m_udpManager : Bool
  m_websocketManager : Bool
  m_codec : OpusCodec := {}
  m_sessionId : QString := []
  m_state : ConversationState := ConversationState.Idle
  m_mode : ConversationMode := ConversationMode.Manual
  m_isRecording : Bool := false
  m_isPlaying : Bool := false
  m_udpChannelOpened : Bool := false
  m_pcmBuffer : QByteArray := []
  m_targetFrameSize : Int := 0
  m_currentTtsText : QString := []
  m_currentTtsPcm : QByteArray := []
  m_currentTtsStartTime : Int := 0
  m_isTtsAccumulating : Bool := false
  m_serverSampleRate : Int := 24000
  m_serverChannels : Int := 1
  deriving Repr, DecidableEq

/-- Result of an operation: `none` when a null manager pointer is used or, for the
capture loop, when the given number of iterations does not finish it. -/
abbrev Step := Option (ConversationManager × List ConvEvent)

/-- The part of both constructors that sets up the codec, the playback device and the
target frame size. -/
def ConversationManager.setup (lib : OpusLib) (self : ConversationManager)
    (serverSampleRate serverChannels : Int) : ConversationManager × List ConvEvent :=
  let (codec, ev1, ok1) := OpusCodec.initEncoder lib {} 16000 1 24000
  let ev : List ConvEvent := ev1.map ConvEvent.codec
    ++ (if !ok1 then [ConvEvent.loggerError " Opus编码器初始化失败"] else [])
  let (codec, ev2, ok2) := OpusCodec.initDecoder lib codec serverSampleRate serverChannels
  let ev := ev ++ ev2.map ConvEvent.codec
    ++ (if !ok2 then [ConvEvent.loggerError " Opus解码器初始化失败"] else [])
  let ev := ev ++ [ConvEvent.deviceSetAudioConfig serverSampleRate serverChannels]
  ({ self with
      m_codec := codec
      m_targetFrameSize := codec.getEncoderFrameSize * 1 * 2
      m_serverSampleRate := serverSampleRate
      m_serverChannels := serverChannels }, ev)

/-- The MQTT+UDP constructor (both managers present). -/
def ConversationManager.newMqttUdp (lib : OpusLib) (sessionId : QString)
    (serverSampleRate serverChannels : Int) : ConversationManager × List ConvEvent :=
  ConversationManager.setup lib
    { m_protocolType := ProtocolType.MqttUdp
      m_mqttManager := true
      m_udpManager := true
      m_websocketManager := false
      m_sessionId := sessionId }
    serverSampleRate serverChannels

/-- The WebSocket constructor; `wsConnected` is `m_websocketManager->isConnected()`. -/
def ConversationManager.newWebSocket (lib : OpusLib) (sessionId : QString)
    (serverSampleRate serverChannels : Int) (wsConnected : Bool) :
    ConversationManager × List ConvEvent :=
  let (self, ev) := ConversationManager.setup lib
    { m_protocolType := ProtocolType.WebSocket
      m_mqttManager := false
      m_udpManager := false
      m_websocketManager := true
      m_sessionId := sessionId }
    serverSampleRate serverChannels
  if wsConnected then
    ({ self with m_udpChannelOpened := true }, ev ++ [ConvEvent.udpChannelOpenedChanged true])
  else (self, ev)

/-- The mode string sent with a listen/start message. -/
def modeStr : ConversationMode → String
  | ConversationMode.Auto => "auto"
  | ConversationMode.Manual => "manual"
  | ConversationMode.Realtime => "realtime"

/-- `ConversationManager::setMode`. -/
def ConversationManager.setMode (self : ConversationManager) (mode : ConversationMode) :
    ConversationManager × List ConvEvent :=
  if self.m_mode ≠ mode then
    ({ self with m_mode := mode },
     [ConvEvent.modeChanged mode, ConvEvent.loggerInfo " 切换对话模式: %1"])
  else (self, [])

/-- `ConversationManager::switchToListening`. -/
def ConversationManager.switchToListening (self : ConversationManager) :
    ConversationManager × List ConvEvent :=
  if self.m_state ≠ ConversationState.Listening then
    ({ self with m_state := ConversationState.Listening },
     [ConvEvent.stateChanged ConversationState.Listening, ConvEvent.loggerInfo "👂 切换到聆听状态"])
  else (self, [])

/-- `ConversationManager::switchToSpeaking`. -/
def ConversationManager.switchToSpeaking (self : ConversationManager) :
    ConversationManager × List ConvEvent :=
  if self.m_state ≠ ConversationState.Speaking then
    let self := { self with m_state := ConversationState.Speaking }
    let ev := [ConvEvent.stateChanged ConversationState.Speaking,
               ConvEvent.loggerInfo "🗣️ 切换到说话状态"]
    if self.m_isRecording then
      ({ self with m_isRecording := false, m_pcmBuffer := [] },
       ev ++ [ConvEvent.deviceStopRecording, ConvEvent.isRecordingChanged false])
    else (self, ev)
  else (self, [])

/-- `ConversationManager::switchToIdle`. -/
def ConversationManager.switchToIdle (self : ConversationManager) :
    ConversationManager × List ConvEvent :=
  if self.m_state ≠ ConversationState.Idle then
    ({ self with m_state := ConversationState.Idle },
     [ConvEvent.stateChanged ConversationState.Idle, ConvEvent.loggerInfo "💤 切换到空闲状态"])
  else (self, [])

/-- `ConversationManager::startConversation`; `captureOk` is the result of
`m_audioDevice->startRecording()`. -/
def ConversationManager.startConversation (self : ConversationManager) (captureOk : Bool) :
    Step :=
  if self.m_isRecording then
    some (self, [ConvEvent.loggerWarn " 已经在录音中"])
  else if !self.m_udpChannelOpened then
    some (self, [ConvEvent.loggerWarn " UDP音频通道尚未建立，请稍候片刻后重试",
                 ConvEvent.errorOccurred "音频通道正在建立中，请稍候片刻后重试"])
  else
    let ev := [ConvEvent.loggerInfo " 开始对话", ConvEvent.deviceStartRecording]
    if !captureOk then
      some (self, ev ++ [ConvEvent.errorOccurred "开始录音失败"])
    else
      let self := { self with m_isRecording := true }
      let ev := ev ++ [ConvEvent.isRecordingChanged true]
      let (self, ev1) := self.switchToListening
      let ev := ev ++ ev1 ++ [ConvEvent.loggerInfo "📤 发送start_listening (mode: %1)"]
      if self.m_protocolType = ProtocolType.WebSocket then
        if self.m_websocketManager then
          some (self, ev ++ [ConvEvent.wsSendStartListening (modeStr self.m_mode)])
        else none
      else
        if self.m_mqttManager then
          some (self, ev ++ [ConvEvent.mqttSendStartListening self.m_sessionId
            (modeStr self.m_mode)])
        else none

/-- `ConversationManager::stopRecording`. -/
def ConversationManager.stopRecording (self : ConversationManager) : Step :=
  if !self.m_isRecording then
    some (self, [])
  else
    let ev := [ConvEvent.loggerInfo "⏹️ 停止录音", ConvEvent.deviceStopRecording]
    let self := { self with m_isRecording := false }
    let ev := ev ++ [ConvEvent.isRecordingChanged false]
    let self := { self with m_pcmBuffer := [] }
    let sent : Option (List ConvEvent) :=
      if self.m_protocolType = ProtocolType.WebSocket then
        if self.m_websocketManager then some [ConvEvent.wsSendStopListening] else none
      else
        if self.m_mqttManager then some [ConvEvent.mqttSendStopListening self.m_sessionId]
        else none
    match sent with
    | none => none
    | some ev1 =>
      let (self, ev2) := self.switchToIdle
      some (self, ev ++ ev1 ++ ev2)

/-- `ConversationManager::abortSpeaking`. -/
def ConversationManager.abortSpeaking (self : ConversationManager) : Step :=
  if self.m_state ≠ ConversationState.Speaking then
    some (self, [ConvEvent.loggerWarn " 当前不在说话状态"])
  else
    let ev := [ConvEvent.loggerInfo "⏸️ 中止说话", ConvEvent.deviceStopPlayback]
    let self := { self with m_isPlaying := false }
    let ev := ev ++ [ConvEvent.isPlayingChanged false]
    let sent : Option (List ConvEvent) :=
      if self.m_protocolType = ProtocolType.WebSocket then
        if self.m_websocketManager then some [ConvEvent.wsSendAbortSpeaking] else none
      else
        if self.m_mqttManager then
          some [ConvEvent.mqttSendAbort self.m_sessionId "user_interrupted"]
        else none
    match sent with
    | none => none
    | some ev1 =>
      let (self, ev2) := self.switchToListening
      some (self, ev ++ ev1 ++ ev2)

/-- `ConversationManager::closeAudioChannel`. -/
def ConversationManager.closeAudioChannel (self : ConversationManager) : Step :=
  match self.stopRecording with
  | none => none
  | some (self, ev) =>
    let (self, ev) :=
      if self.m_isPlaying then
        ({ self with m_isPlaying := false },
         ev ++ [ConvEvent.deviceStopPlayback, ConvEvent.isPlayingChanged false])
      else (self, ev)
    if !self.m_udpManager then none
    else
      let ev := ev ++ [ConvEvent.udpDisconnect]
      let self := { self with m_udpChannelOpened := false }
      let ev := ev ++ [ConvEvent.udpChannelOpenedChanged false]
      let (self, ev1) := self.switchToIdle
      some (self, ev ++ ev1)

/-- `ConversationManager::sendEncodedAudio`. -/
def ConversationManager.sendEncodedAudio (lib : OpusLib) (self : ConversationManager)
    (pcm_data : QByteArray) : Step :=
  let (opus_data, codec, cev) := self.m_codec.encode lib pcm_data
  let self := { self with m_codec := codec }
  let ev := [ConvEvent.codecEncode pcm_data] ++ cev.map ConvEvent.codec
  if opus_data.isEmpty then
    some (self, ev ++ [ConvEvent.loggerError " Opus编码失败"])
  else if self.m_protocolType = ProtocolType.WebSocket then
    if self.m_websocketManager then some (self, ev ++ [ConvEvent.wsSendAudioData opus_data])
    else none
  else
    if self.m_udpManager then some (self, ev ++ [ConvEvent.udpSendAudioData opus_data])
    else none

/-- The `while` loop of `ConversationManager::onAudioReady`, run for at most `fuel`
iterations; `none` when the loop has not finished by then (or a null manager is
used). -/
def ConversationManager.drainFrames (lib : OpusLib) :
    Nat → ConversationManager → List ConvEvent → Step
  | 0, self, ev =>
    if (self.m_pcmBuffer.length : Int) ≥ self.m_targetFrameSize then none else some (self, ev)
  | fuel + 1, self, ev =>
    if (self.m_pcmBuffer.length : Int) ≥ self.m_targetFrameSize then
      let frame := self.m_pcmBuffer.take self.m_targetFrameSize.toNat
      let self := { self with m_pcmBuffer := self.m_pcmBuffer.drop self.m_targetFrameSize.toNat }
      match self.sendEncodedAudio lib frame with
      | none => none
      | some (self, ev1) => ConversationManager.drainFrames lib fuel self (ev ++ ev1)
    else some (self, ev)

/-- `ConversationManager::onAudioReady`, its loop bounded by `fuel` iterations. -/
def ConversationManager.onAudioReady (lib : OpusLib) (fuel : Nat) (self : ConversationManager)
    (pcm_data : QByteArray) : Step :=
  if !self.m_isRecording ∨ self.m_state ≠ ConversationState.Listening then
    some (self, [])
  else
    let self := { self with m_pcmBuffer := self.m_pcmBuffer ++ pcm_data }
    ConversationManager.drainFrames lib fuel self []

/-- `ConversationManager::receiveDecodedAudio`. -/
def ConversationManager.receiveDecodedAudio (lib : OpusLib) (self : ConversationManager)
    (opus_data : QByteArray) : ConversationManager × List ConvEvent :=
  let (pcm_data, codec, cev) := self.m_codec.decode lib opus_data
  let self := { self with m_codec := codec }
  let ev := [ConvEvent.codecDecode opus_data] ++ cev.map ConvEvent.codec
  if pcm_data.isEmpty then (self, ev)
  else
    let self :=
      if self.m_isTtsAccumulating ∧ !pcm_data.isEmpty then
        { self with m_currentTtsPcm := self.m_currentTtsPcm ++ pcm_data }
      else self
    let (self, ev) :=
      if !self.m_isPlaying then
        ({ self with m_isPlaying := true },
         ev ++ [ConvEvent.deviceStartPlayback, ConvEvent.isPlayingChanged true])
      else (self, ev)
    (self, ev ++ [ConvEvent.deviceWriteAudioData pcm_data])

/-- `ConversationManager::onUdpAudioReceived`. -/
def ConversationManager.onUdpAudioReceived (lib : OpusLib) (self : ConversationManager)
    (opus_data : QByteArray) : ConversationManager × List ConvEvent :=
  if self.m_state ≠ ConversationState.Speaking then (self, [])
  else self.receiveDecodedAudio lib opus_data

/-- `ConversationManager::onMqttMessageReceived`; `now` is the clock reading
(`QDateTime::currentMSecsSinceEpoch()`), `captureOk` the result of starting capture
should the handler restart the conversation. -/
def ConversationManager.onMqttMessageReceived (self : ConversationManager)
    (message : ControlMessage) (now : Int) (captureOk : Bool) : Step :=
  if message.type = "stt".toList then
    let ev := [ConvEvent.loggerInfo "📝 STT: %1 (final=%2)", ConvEvent.sttTextReceived message.text]
    if !message.text.isEmpty then
      some (self, ev ++ [ConvEvent.sttMessageCompleted message.text now])
    else some (self, ev)
  else if message.type = "tts".toList then
    let text := message.text
    let state := message.state
    let ev := [ConvEvent.loggerInfo "💬 TTS: %1", ConvEvent.ttsTextReceived text]
    let (self, ev) :=
      if state = "start".toList ∨ state = "sentence_start".toList then
        let self := { self with
          m_currentTtsText := text
          m_currentTtsPcm := []
          m_currentTtsStartTime := now
          m_isTtsAccumulating := true }
        let (codec, cev) := self.m_codec.resetDecoderState
        let self := { self with m_codec := codec }
        (self, ev ++ [ConvEvent.codecResetDecoderState] ++ cev.map ConvEvent.codec
          ++ [ConvEvent.ttsMessageStarted self.m_currentTtsText self.m_currentTtsStartTime])
      else if state = "end".toList ∨ state = "sentence_end".toList ∨ state = "stop".toList then
        let self := { self with m_isTtsAccumulating := false }
        let ev := ev ++ [ConvEvent.ttsMessageCompleted self.m_currentTtsText self.m_currentTtsPcm
          self.m_currentTtsStartTime]
        ({ self with m_currentTtsText := [], m_currentTtsPcm := [] }, ev)
      else (self, ev)
    let (self, ev1) := self.switchToSpeaking
    some (self, ev ++ ev1)
  else if message.type = "llm".toList then
    some (self, [ConvEvent.loggerInfo "😊 LLM Emotion: %1"])
  else if message.type = "system".toList then
    if message.action = "audio_end".toList then
      let (self, ev) :=
        if self.m_isPlaying then
          ({ self with m_isPlaying := false },
           [ConvEvent.deviceStopPlayback, ConvEvent.isPlayingChanged false])
        else (self, [])
      if self.m_mode = ConversationMode.Auto then
        let (self, ev1) := self.switchToListening
        if !self.m_isRecording then
          match self.startConversation captureOk with
          | none => none
          | some (self, ev2) => some (self, ev ++ ev1 ++ ev2)
        else some (self, ev ++ ev1)
      else
        let (self, ev1) := self.switchToIdle
        some (self, ev ++ ev1)
    else some (self, [])
  else some (self, [])

/-- `ConversationManager::onUdpConnected`. -/
def ConversationManager.onUdpConnected (self : ConversationManager) :
    ConversationManager × List ConvEvent :=
  ({ self with m_udpChannelOpened := true }, [ConvEvent.udpChannelOpenedChanged true])

/-- `ConversationManager::onWebSocketConnected`. -/
def ConversationManager.onWebSocketConnected (self : ConversationManager) :
    ConversationManager × List ConvEvent :=
  ({ self with m_udpChannelOpened := true }, [ConvEvent.udpChannelOpenedChanged true])

/-- `ConversationManager::onWebSocketAudioReceived`. -/
def ConversationManager.onWebSocketAudioReceived (lib : OpusLib) (self : ConversationManager)
    (opus_data : QByteArray) : ConversationManager × List ConvEvent :=
  self.receiveDecodedAudio lib opus_data

/-- `ConversationManager::onWebSocketJsonReceived`; `doc` is the parsed text, `none`
when it is not a JSON object. -/
def ConversationManager.onWebSocketJsonReceived (self : ConversationManager)
    (doc : Option ControlMessage) (now : Int) (captureOk : Bool) : Step :=
  match doc with
  | none => some (self, [ConvEvent.loggerWarn "收到无效的JSON消息: %1"])
  | some message => self.onMqttMessageReceived message now captureOk

/-- The public operations and event handlers of a `ConversationManager`, each with the
outside values it consumes. -/
inductive ConvOp where
  | setMode (mode : ConversationMode)
  | startConversation (captureOk : Bool)
  | stopRecording
  | abortSpeaking
  | closeAudioChannel
  | onUdpConnected
  | onUdpAudioReceived (opus_data : QByteArray)
  | onAudioReady (pcm_data : QByteArray) (fuel : Nat)
  | onMqttMessageReceived (message : ControlMessage) (now : Int) (captureOk : Bool)
  | onWebSocketConnected
  | onWebSocketAudioReceived (opus_data : QByteArray)
  | onWebSocketJsonReceived (doc : Option ControlMessage) (now : Int) (captureOk : Bool)
  deriving Repr, DecidableEq

/-- One operation applied to a manager. -/
def ConversationManager.apply (lib : OpusLib) (self : ConversationManager) : ConvOp → Step
  | ConvOp.setMode mode => some (self.setMode mode)
  | ConvOp.startConversation captureOk => self.startConversation captureOk
  | ConvOp.stopRecording => self.stopRecording
  | ConvOp.abortSpeaking => self.abortSpeaking
  | ConvOp.closeAudioChannel => self.closeAudioChannel
  | ConvOp.onUdpConnected => some self.onUdpConnected
  | ConvOp.onUdpAudioReceived opus_data => some (self.onUdpAudioReceived lib opus_data)
  | ConvOp.onAudioReady pcm_data fuel => self.onAudioReady lib fuel pcm_data
  | ConvOp.onMqttMessageReceived message now captureOk =>
    self.onMqttMessageReceived message now captureOk
  | ConvOp.onWebSocketConnected => some self.onWebSocketConnected
  | ConvOp.onWebSocketAudioReceived opus_data =>
    some (self.onWebSocketAudioReceived lib opus_data)
  | ConvOp.onWebSocketJsonReceived doc now captureOk =>
    self.onWebSocketJsonReceived doc now captureOk

/-- A run of operations from a given manager; `none` as soon as one of them does not
complete. -/
def ConversationManager.run (lib : OpusLib) (self : ConversationManager) :
    List ConvOp → Option ConversationManager
  | [] => some self
  | op :: ops =>
    match self.apply lib op with
    | none => none
    | some (self, _) => ConversationManager.run lib self ops

/-- States reachable from construction through the public operations and the event
handlers. -/
inductive ConversationManager.Reachable (lib : OpusLib) : ConversationManager → Prop where
  | newMqttUdp (sessionId : QString) (serverSampleRate serverChannels : Int) :
      Reachable lib (ConversationManager.newMqttUdp lib sessionId serverSampleRate
        serverChannels).1
  | newWebSocket (sessionId : QString) (serverSampleRate serverChannels : Int)
      (wsConnected : Bool) :
      Reachable lib (ConversationManager.newWebSocket lib sessionId serverSampleRate
        serverChannels wsConnected).1
  | step (s s1 : ConversationManager) (op : ConvOp) (ev : List ConvEvent) :
      Reachable lib s → s.apply lib op = some (s1, ev) → Reachable lib s1

/-- The transport managers of the configured protocol are non-null. -/
def ConversationManager.ManagersPresent (s : ConversationManager) : Prop :=
  (s.m_protocolType = ProtocolType.MqttUdp → s.m_mqttManager = true ∧ s.m_udpManager = true) ∧
  (s.m_protocolType = ProtocolType.WebSocket → s.m_websocketManager = true)

/-- Facts that hold in every reachable state: capture is off while speaking, the
capture buffer is empty while capture is off, and the managers of the configured
protocol are present. -/
def ConversationManager.Inv (s : ConversationManager) : Prop :=
  (s.m_state = ConversationState.Speaking → s.m_isRecording = false) ∧
  (s.m_isRecording = false → s.m_pcmBuffer = []) ∧
  s.ManagersPresent

/-- The frames handed to `OpusCodec::encode`, in order. -/
def encodedFrames : List ConvEvent → List QByteArray
  | [] => []
  | ConvEvent.codecEncode pcm :: rest => pcm :: encodedFrames rest
  | _ :: rest => encodedFrames rest

/-- The event is a control message handed to a transport manager. -/
def ConvEvent.isControlMessage : ConvEvent → Bool
  | ConvEvent.mqttSendStartListening _ _ => true
  | ConvEvent.mqttSendStopListening _ => true
  | ConvEvent.mqttSendAbort _ _ => true
  | ConvEvent.wsSendStartListening _ => true
  | ConvEvent.wsSendStopListening => true
  | ConvEvent.wsSendAbortSpeaking => true
  | _ => false

/-- The server message `{"type": "system", "action": "audio_end"}`. -/
def audioEndMessage : ControlMessage :=
  { type := "system".toList, action := "audio_end".toList }

/-- A server message `{"type": "tts", "state": "start", "text": "hi"}`. -/
def ttsStartMessage : ControlMessage :=
  { type := "tts".toList, state := "start".toList, text := "hi".toList }

/-- A manager built by the MQTT+UDP constructor on the sample library. -/
def sampleManager : ConversationManager :=
  (ConversationManager.newMqttUdp sampleOpus "sid".toList 24000 1).1

/-- Media path opened, conversation started, then `audio_end` received in Manual mode
while listening. -/
def idleRecordingOps : List ConvOp :=
  [ConvOp.onUdpConnected, ConvOp.startConversation true,
   ConvOp.onMqttMessageReceived audioEndMessage 0 true]

/-- The state that `idleRecordingOps` leads to: Idle with capture still active. -/
def idleRecordingState : ConversationManager :=
  { sampleManager with
      m_udpChannelOpened := true
      m_isRecording := true
      m_state := ConversationState.Idle }

/-- Media path opened, conversation started, a `tts` start received, some audio
played: a Speaking state with playback active. -/
def speakingOps : List ConvOp :=
  [ConvOp.onUdpConnected, ConvOp.startConversation true,
   ConvOp.onMqttMessageReceived ttsStartMessage 5 true,
   ConvOp.onUdpAudioReceived [1, 2, 3]]

/-- Media path opened and conversation started: Listening with capture active. -/
def listeningOps : List ConvOp :=
  [ConvOp.onUdpConnected, ConvOp.startConversation true]

/-- The state that `speakingOps` leads to. -/
def speakingState : ConversationManager :=
  (sampleManager.run sampleOpus speakingOps).getD sampleManager

/-- The state that `listeningOps` leads to. -/
def listeningState : ConversationManager :=
  (sampleManager.run sampleOpus listeningOps).getD sampleManager

end audio
end xiaozhi

namespace xiaozhi
namespace network

/-! ## OtaWorker -/

/-- `DeviceInfo`: the two members set per device (the others are constants). -/
structure DeviceInfo where
  mac_address : QString := []
  uuid : QString := []
  deriving Repr, DecidableEq

/-- The bootstrap POST request: URL, headers, and the device description it carries. -/
structure HttpRequest where
  url : QString
  headers : List (String × QString)
  body : DeviceInfo
  deriving Repr, DecidableEq

/-- `QJsonDocument::fromJson` of a response body: a JSON object, or anything else
(array, null document after a parse error, empty body). -/
inductive JsonDocument where
  | object (json : OtaJson)
  | notObject
  deriving Repr, DecidableEq

/-- What the event loop leaves in the `QNetworkReply`: the error string when
`reply->error()` is not `NoError`, and the document parsed from `readAll()`. -/
structure HttpReply where
  error : Option QString := none
  document : JsonDocument := JsonDocument.notObject
  deriving Repr, DecidableEq

/-- Signals of `OtaWorker`. -/
inductive OtaEvent where
  | otaConfigReceived (config : OtaConfig)
  | errorOccurred (error : QString)
  deriving Repr, DecidableEq

/-- The request that `OtaWorker::requestOtaConfig` posts. -/
def OtaWorker.buildRequest (deviceInfo : DeviceInfo) (otaUrl : QString) : HttpRequest :=
  { url := otaUrl
    headers :=
      [("Content-Type", "application/json".toList),
       ("Activation-Version", "1".toList),
       ("Device-Id", deviceInfo.mac_address),
       ("Client-Id", deviceInfo.uuid),
       ("User-Agent", "esp32s3/1.6.2".toList),
       ("Accept-Language", "zh-CN".toList)]
    body := deviceInfo }

/-- `OtaWorker::requestOtaConfig`; `server` gives the reply found after the event loop
returns (on completion or after the 30 s timer).  Returns the signals raised. -/
def OtaWorker.requestOtaConfig (server : HttpRequest → HttpReply) (deviceInfo : DeviceInfo)
    (otaUrl : QString) : List OtaEvent :=
  let reply := server (OtaWorker.buildRequest deviceInfo otaUrl)
  match reply.error with
  | none =>
    match reply.document with
    | JsonDocument.object responseObj =>
      [OtaEvent.otaConfigReceived (OtaConfig.fromJson responseObj)]
    | JsonDocument.notObject => [OtaEvent.errorOccurred "OTA响应格式错误".toList]
  | some errorString => [OtaEvent.errorOccurred ("OTA请求失败: ".toList ++ errorString)]

/-- The signal is `errorOccurred`. -/
def OtaEvent.isError : OtaEvent → Bool
  | OtaEvent.errorOccurred _ => true
  | _ => false

/-- The signal is `otaConfigReceived`. -/
def OtaEvent.isConfig : OtaEvent → Bool
  | OtaEvent.otaConfigReceived _ => true
  | _ => false

/-- A bootstrap response body that is an object without `mqtt` and `websocket`. -/
def emptyJson : OtaJson := {}

/-- A control-channel config without a port in its endpoint. -/
def noPortMqttConfig : MqttConfig :=
  { endpoint := "host".toList, client_id := "client".toList }

/-- A broker that accepts plaintext connections only. -/
def Network.plainOnly : Network := fun _ a => !a.useSSL

end network
end xiaozhi

namespace xiaozhi
namespace audio

/-! ## Conversation manager: further invariants, runs and sample states -/

/-- Capture is only active while the media path is open. -/
def ConversationManager.RecordingOpen (s : ConversationManager) : Prop :=
  s.m_isRecording = true → s.m_udpChannelOpened = true

/-- A libopus stand-in on which the encoder cannot be created while decoding works as
in `sampleOpus`. -/
def noEncoderOpus : OpusLib :=
  { sampleOpus with encoderCreate := fun _ _ => false }

/-- A manager built by the MQTT+UDP constructor while the encoder cannot be created:
the constructor logs the failure and goes on, and the target frame size is 0. -/
def noEncoderManager : ConversationManager :=
  (ConversationManager.newMqttUdp noEncoderOpus "sid".toList 24000 1).1

/-- The state of `noEncoderManager` after the media path opened and a conversation was
started: Listening with capture active. -/
def noEncoderListening : ConversationManager :=
  { noEncoderManager with
      m_udpChannelOpened := true
      m_isRecording := true
      m_state := ConversationState.Listening }

/-! ## AudioEncryptor: runs of `encrypt` calls -/

/-- A run of `encrypt` calls on one encryptor, each call given its payload and
timestamp: the returned packets in call order. -/
def encryptRun (ks : Keystream) : AudioEncryptor → List (QByteArray × Nat) → List QByteArray
  | _, [] => []
  | e, call :: rest =>
    (e.encrypt ks call.1 call.2).1 :: encryptRun ks (e.encrypt ks call.1 call.2).2 rest

/-- The sequence fields of the packets a run produced; a rejected call returns an
empty array and contributes nothing. -/
def producedSequences (packets : List QByteArray) : List Nat :=
  (packets.filter (fun p => !p.isEmpty)).map sequenceField

/-- The encryptor after `n` calls of `encrypt` with the same payload and timestamp. -/
def encryptRepeat (ks : Keystream) (e : AudioEncryptor) (audioData : QByteArray)
    (timestamp : Nat) : Nat → AudioEncryptor
  | 0 => e
  | n + 1 => ((encryptRepeat ks e audioData timestamp n).encrypt ks audioData timestamp).2

/-! ## Synthesized-speech segments -/

/-- A run of operations from a given manager, with the events of all of them in
order; `none` as soon as one of them does not complete. -/
def ConversationManager.runTrace (lib : OpusLib) (self : ConversationManager) :
    List ConvOp → Step
  | [] => some (self, [])
  | op :: ops =>
    match self.apply lib op with
    | none => none
    | some (self, ev) =>
      match ConversationManager.runTrace lib self ops with
      | none => none
      | some (self, ev1) => some (self, ev ++ ev1)

/-- The non-empty decoded frame that an operation delivers: for an audio packet that
reaches `receiveDecodedAudio` (any WebSocket audio packet, a UDP audio packet while
the state is Speaking) the PCM that the codec's decoder yields for that packet in the
codec state of the manager, unless it is empty; nothing for any other operation. -/
def ConversationManager.deliveredFrame (lib : OpusLib) (self : ConversationManager) :
    ConvOp → List QByteArray
  | ConvOp.onUdpAudioReceived opus_data =>
    if self.m_state ≠ ConversationState.Speaking then []
    else if (self.m_codec.decode lib opus_data).1.isEmpty then []
    else [(self.m_codec.decode lib opus_data).1]
  | ConvOp.onWebSocketAudioReceived opus_data =>
    if (self.m_codec.decode lib opus_data).1.isEmpty then []
    else [(self.m_codec.decode lib opus_data).1]
  | _ => []

/-- The non-empty decoded frames of the audio packets delivered during a run, in
order; each packet is decoded in the state the run has reached when it arrives. -/
def ConversationManager.deliveredFrames (lib : OpusLib) :
    ConversationManager → List ConvOp → List QByteArray
  | _, [] => []
  | self, op :: ops =>
    self.deliveredFrame lib op ++
      (match self.apply lib op with
       | none => []
       | some (self1, _) => ConversationManager.deliveredFrames lib self1 ops)

/-- The operation delivers a server message of type `tts`. -/
def ConvOp.isTtsMessage : ConvOp → Bool
  | ConvOp.onMqttMessageReceived message _ _ => message.type = "tts".toList
  | ConvOp.onWebSocketJsonReceived (some message) _ _ => message.type = "tts".toList
  | _ => false

/-- A server message `{"type": "tts", "state": "stop"}`. -/
def ttsStopMessage : ControlMessage :=
  { type := "tts".toList, state := "stop".toList }

/-- Two audio packets and a recognised-text message, as received between the start
and the end of a synthesized-speech segment. -/
def segmentOps : List ConvOp :=
  [ConvOp.onUdpAudioReceived [1, 2, 3],
   ConvOp.onMqttMessageReceived { type := "stt".toList, text := "ok".toList } 7 true,
   ConvOp.onUdpAudioReceived [9, 9]]

/-- The listening manager after `tts`/`start` with text `hi` at clock reading 5. -/
def segmentStartState : ConversationManager :=
  ((listeningState.onMqttMessageReceived ttsStartMessage 5 true).getD (listeningState, [])).1

/-- The state of `segmentStartState` after the first audio packet of `segmentOps`. -/
def segmentMidState : ConversationManager :=
  (segmentStartState.onUdpAudioReceived sampleOpus [1, 2, 3]).1

/-- The state and the events of `segmentOps` run from `segmentStartState`. -/
def segmentRun : ConversationManager × List ConvEvent :=
  (segmentStartState.runTrace sampleOpus segmentOps).getD (segmentStartState, [])

/-- The accumulation fields of a segment are as in `s`, with `frames` appended to the
accumulated PCM. -/
def ConversationManager.SegmentStep (s s1 : ConversationManager)
    (frames : List QByteArray) : Prop :=
  s1.m_currentTtsText = s.m_currentTtsText ∧
  s1.m_currentTtsStartTime = s.m_currentTtsStartTime ∧
  s1.m_isTtsAccumulating = s.m_isTtsAccumulating ∧
  s1.m_currentTtsPcm
    = s.m_currentTtsPcm ++ (if s.m_isTtsAccumulating then frames.flatten else [])

end audio
end xiaozhi

namespace xiaozhi
namespace network

/-! ## WebSocketManager: building binary frames -/

/-- `WebSocketManager::buildBinaryPacket` for `m_config.version = version`;
`timestamp` is a `quint32`.  `resize` leaves the new bytes unspecified; every one of
them is written afterwards (the packed header fields cover the whole header), so the
buffer is started from zeros. -/
def buildBinaryPacket (version : Int) (opusData : QByteArray) (timestamp : Nat) : QByteArray :=
  if opusData.isEmpty ∨ opusData.length > 1024 * 1024 then
    []
  else if version = 2 then
    let packetSize : Int := (sizeofBinaryProtocol2 : Int) + (opusData.length : Int)
    if packetSize < 0 then
      []
    else
      let packet : QByteArray := List.replicate packetSize.toNat 0
      let packet := memcpy packet 0 (audio.beBytes16 (version.toNat % 2 ^ 16)) 2
      let packet := memcpy packet 2 (audio.beBytes16 0) 2
      let packet := memcpy packet 4 (bytesOfU32 0) 4
      let packet := memcpy packet 8 (audio.beBytes32 (timestamp % 2 ^ 32)) 4
      let packet := memcpy packet 12 (audio.beBytes32 (opusData.length % 2 ^ 32)) 4
      memcpy packet sizeofBinaryProtocol2 opusData opusData.length
  else if version = 3 then
    if opusData.length > 65535 then
      []
    else
      let packetSize : Int := (sizeofBinaryProtocol3 : Int) + (opusData.length : Int)
      if packetSize < 0 then
        []
      else
        let packet : QByteArray := List.replicate packetSize.toNat 0
        let packet := memcpy packet 0 [0] 1
        let packet := memcpy packet 1 [0] 1
        let packet := memcpy packet 2 (audio.beBytes16 (opusData.length % 2 ^ 16)) 2
        memcpy packet sizeofBinaryProtocol3 opusData opusData.length
  else
    opusData

/-! ## WebSocketManager: the hello handshake -/

/-- The `audio_params` object of a server hello; a member is `none` when it is absent
or not a number. -/
structure HelloAudioParams where
  sample_rate : Option Int := none
  channels : Option Int := none
  frame_duration : Option Int := none
  deriving Repr, DecidableEq

/-- A server `hello` message as `parseServerHello` reads it: `transport` and
`session_id` are empty when absent; `audio_params` is `none` when the member is absent,
not an object, or an empty object. -/
structure ServerHello where
  transport : QString := []
  session_id : QString := []
  audio_params : Option HelloAudioParams := none
  deriving Repr, DecidableEq

/-- `WebSocketManager::disconnect`: new state and the calls on the timer and the
socket, in order. -/
def WebSocketManager.disconnect (self : WebSocketManager) : WebSocketManager × List WsEvent :=
  let ev : List WsEvent := [WsEvent.helloTimerStop]
  let self := { self with helloTimerActive := false }
  let (self, ev) :=
    if self.m_webSocket then
      ({ self with m_webSocket := false }, ev ++ [WsEvent.socketClose, WsEvent.socketDeleteLater])
    else (self, ev)
  ({ self with m_helloReceived := false, m_sessionId := [] }, ev)

/-- `WebSocketManager::parseServerHello`. -/
def WebSocketManager.parseServerHello (self : WebSocketManager) (hello : ServerHello) :
    WebSocketManager × List WsEvent :=
  if hello.transport ≠ "websocket".toList then
    let (self, ev) := self.disconnect
    (self, ev ++ [WsEvent.errorOccurred "不支持的transport"])
  else
    let self := { self with m_sessionId := hello.session_id }
    let self :=
      match hello.audio_params with
      | some audioParams =>
        { self with m_config := { self.m_config with
            serverSampleRate := audioParams.sample_rate.getD 24000
            serverChannels := audioParams.channels.getD 1
            serverFrameDuration := audioParams.frame_duration.getD 60 } }
      | none => self
    let self := { self with m_helloReceived := true, helloTimerActive := false }
    (self, [WsEvent.helloTimerStop, WsEvent.connected])

/-- `WebSocketManager::onHelloTimeout`: the slot of the single-shot hello timer, which
is no longer running when it fires. -/
def WebSocketManager.onHelloTimeout (self : WebSocketManager) :
    WebSocketManager × List WsEvent :=
  let self := { self with helloTimerActive := false }
  if !self.m_helloReceived then
    let (self, ev) := self.disconnect
    (self, ev ++ [WsEvent.errorOccurred "服务器Hello响应超时"])
  else (self, [])

/-- `WebSocketManager::onWebSocketDisconnected`. -/
def WebSocketManager.onWebSocketDisconnected (self : WebSocketManager) :
    WebSocketManager × List WsEvent :=
  ({ self with m_helloReceived := false, helloTimerActive := false },
   [WsEvent.helloTimerStop, WsEvent.disconnected])

/-- A manager that has opened its socket and waits for the server hello. -/
def waitingManager : WebSocketManager :=
  (WebSocketManager.connectToServer {} { url := "ws://server/ws".toList }
    "aa:bb".toList "uuid".toList).1

/-- A server hello for the WebSocket transport with session id `ws-sid`. -/
def goodHello : ServerHello :=
  { transport := "websocket".toList, session_id := "ws-sid".toList }

/-- A server hello that names another transport. -/
def udpHello : ServerHello :=
  { transport := "udp".toList, session_id := "ws-sid".toList }

/-! ## DeviceSession: connection state -/

/-- The constructor of `DeviceSession`; `uuid` is `generateUuidFromMac(macAddress)`,
`audioDevice` whether the device pointer is non-null. -/
def DeviceSession.new (deviceId deviceName macAddress otaUrl uuid : QString)
    (audioDevice websocketEnabled : Bool) : DeviceSession :=
  { m_deviceId := deviceId
    m_deviceName := deviceName
    m_macAddress := macAddress
    m_otaUrl := otaUrl
    m_uuid := uuid
    m_mqttConnected := false
    m_udpConnected := false
    m_websocketConnected := false
    m_websocketEnabled := websocketEnabled
    m_audioDevice := audioDevice }

/-- `DeviceSession::isConnected`. -/
def DeviceSession.isConnected (self : DeviceSession) : Bool :=
  self.m_mqttConnected || self.m_websocketConnected

/-- `DeviceSession::sessionId`. -/
def DeviceSession.sessionId (self : DeviceSession) : QString := self.m_sessionId

/-- `DeviceSession::getOtaConfig`. -/
def DeviceSession.getOtaConfig (self : DeviceSession) : DeviceSession × List SessionEvent :=
  (self, [SessionEvent.logMessage self.m_deviceId "正在连接...".toList,
          SessionEvent.otaRequestOtaConfig self.m_macAddress self.m_uuid self.m_otaUrl])

/-- `DeviceSession::connectMqtt`. -/
def DeviceSession.connectMqtt (self : DeviceSession) : DeviceSession × List SessionEvent :=
  if !self.m_otaConfig.mqtt.isValid then
    (self, [SessionEvent.logMessage self.m_deviceId "连接失败：服务器配置无效".toList])
  else
    ({ self with mqttConnectRequested := true },
     [SessionEvent.loggerInfo "[%1] 正在连接MQTT...",
      SessionEvent.mqttConnectToMqtt self.m_otaConfig.mqtt])

/-- `DeviceSession::disconnect`. -/
def DeviceSession.disconnect (self : DeviceSession) : DeviceSession × List SessionEvent :=
  let (self, ev) : DeviceSession × List SessionEvent :=
    if self.m_mqttConnected then
      ({ self with m_mqttConnected := false }, [SessionEvent.mqttDisconnect])
    else (self, [])
  let (self, ev) :=
    if self.m_udpConnected then
      ({ self with m_udpConnected := false }, ev ++ [SessionEvent.udpDisconnect])
    else (self, ev)
  (self, ev ++ [SessionEvent.connectionStateChanged self.m_deviceId false false,
                SessionEvent.logMessage self.m_deviceId "已断开连接".toList])

/-- `DeviceSession::onMqttConnected`. -/
def DeviceSession.onMqttConnected (self : DeviceSession) : DeviceSession × List SessionEvent :=
  if self.m_mqttConnected then
    (self, [SessionEvent.loggerDebug " MQTT已连接，忽略重复回调"])
  else
    let self := { self with m_mqttConnected := true }
    (self, [SessionEvent.logMessage self.m_deviceId "MQTT已连接".toList,
            SessionEvent.connectionStateChanged self.m_deviceId true self.m_udpConnected,
            SessionEvent.singleShotSendHello 500])

/-- `DeviceSession::onMqttDisconnected`. -/
def DeviceSession.onMqttDisconnected (self : DeviceSession) (rc : Int) :
    DeviceSession × List SessionEvent :=
  let self := { self with m_mqttConnected := false }
  let ev : List SessionEvent :=
    if rc ≠ 0 then
      [SessionEvent.logMessage self.m_deviceId "连接已断开".toList,
       SessionEvent.loggerWarn "[%1] MQTT断开连接，错误码: %2"]
    else [SessionEvent.logMessage self.m_deviceId "已断开连接".toList]
  (self, ev ++ [SessionEvent.connectionStateChanged self.m_deviceId false self.m_udpConnected])

/-- `DeviceSession::onUdpConfigReceived`. -/
def DeviceSession.onUdpConfigReceived (self : DeviceSession) (config : UdpConfig)
    (sessionId : QString) : DeviceSession × List SessionEvent :=
  let self := { self with m_sessionId := sessionId }
  let self := { self with m_otaConfig := { self.m_otaConfig with udp := config } }
  let ev : List SessionEvent :=
    [SessionEvent.logMessage self.m_deviceId
       ("会话已建立 (ID: ".toList ++ (sessionId.take 8 ++ "...".toList) ++ ")".toList),
     SessionEvent.udpConnectToUdp config]
  let (self, ev) :=
    if !self.m_conversationManager && self.m_audioDevice then
      ({ self with m_conversationManager := true },
       ev ++ [SessionEvent.createConversationManagerMqttUdp self.m_sessionId
         config.serverSampleRate config.serverChannels config.serverFrameDuration])
    else (self, ev)
  (self, ev ++ [SessionEvent.singleShotSendIotDescriptors 1000,
                SessionEvent.singleShotSendIotStates 1500])

/-- `DeviceSession::onUdpConnected`. -/
def DeviceSession.onUdpConnected (self : DeviceSession) : DeviceSession × List SessionEvent :=
  let self := { self with m_udpConnected := true }
  (self, [SessionEvent.logMessage self.m_deviceId "音频通道已就绪".toList,
          SessionEvent.connectionStateChanged self.m_deviceId self.m_mqttConnected true])

/-- `DeviceSession::onWebSocketConnected`; `none` when the WebSocket manager pointer,
which the slot dereferences, is null. -/
def DeviceSession.onWebSocketConnected (self : DeviceSession) :
    Option (DeviceSession × List SessionEvent) :=
  match self.m_websocketManager with
  | none => none
  | some manager =>
    let self := { self with m_websocketConnected := true }
    let self := { self with m_sessionId := manager.m_sessionId }
    let ev : List SessionEvent :=
      [SessionEvent.logMessage self.m_deviceId "WebSocket已连接".toList,
       SessionEvent.connectionStateChanged self.m_deviceId true false]
    if !self.m_conversationManager && self.m_audioDevice then
      some ({ self with m_conversationManager := true },
        ev ++ [SessionEvent.createConversationManagerWebSocket self.m_sessionId
          manager.m_config.serverSampleRate manager.m_config.serverChannels
          manager.m_config.serverFrameDuration])
    else some (self, ev)

/-- `DeviceSession::onWebSocketDisconnected`. -/
def DeviceSession.onWebSocketDisconnected (self : DeviceSession) :
    DeviceSession × List SessionEvent :=
  let self := { self with m_websocketConnected := false }
  (self, [SessionEvent.logMessage self.m_deviceId "WebSocket已断开".toList,
          SessionEvent.connectionStateChanged self.m_deviceId false false,
          SessionEvent.loggerWarn "[%1] WebSocket连接断开"])

/-- `DeviceSession::onWebSocketError`. -/
def DeviceSession.onWebSocketError (self : DeviceSession) (error : String) :
    DeviceSession × List SessionEvent :=
  (self, [SessionEvent.logMessage self.m_deviceId ("WebSocket错误: ".toList ++ error.toList),
          SessionEvent.loggerError "[%1] WebSocket错误: %2"])

/-- The owned WebSocket manager receives a server hello: it runs `parseServerHello`,
and the `connected` or `errorOccurred` signal it emits runs the connected slot of the
session.  `none` when there is no manager to receive the message. -/
def DeviceSession.onWebSocketServerHello (self : DeviceSession) (hello : ServerHello) :
    Option (DeviceSession × List SessionEvent) :=
  match self.m_websocketManager with
  | none => none
  | some manager =>
    let (manager, wsEvents) := manager.parseServerHello hello
    let self := { self with m_websocketManager := some manager }
    let ev := wsEvents.map SessionEvent.websocket
    if hello.transport ≠ "websocket".toList then
      let (self, ev1) := self.onWebSocketError "不支持的transport"
      some (self, ev ++ ev1)
    else
      match self.onWebSocketConnected with
      | none => none
      | some (self, ev1) => some (self, ev ++ ev1)

/-- The operations and callbacks of a `DeviceSession`, each with the outside values it
consumes. -/
inductive SessionOp where
  | getOtaConfig
  | onOtaConfigReceived (config : OtaConfig) (now : Int)
  | updateWebSocketEnabled (enabled : Bool)
  | connectMqtt
  | disconnect
  | onMqttConnected
  | onMqttDisconnected (rc : Int)
  | onUdpConfigReceived (config : UdpConfig) (sessionId : QString)
  | onUdpConnected
  | onWebSocketConnected
  | onWebSocketDisconnected
  | onWebSocketServerHello (hello : ServerHello)
  deriving Repr, DecidableEq

/-- One operation applied to a session; `none` when the operation does not complete
(a null manager is used) or cannot occur: the connected callback of the MQTT manager
only arrives once that manager has been asked to connect. -/
def DeviceSession.apply (self : DeviceSession) :
    SessionOp → Option (DeviceSession × List SessionEvent)
  | SessionOp.getOtaConfig => some self.getOtaConfig
  | SessionOp.onOtaConfigReceived config now => some (self.onOtaConfigReceived config now)
  | SessionOp.updateWebSocketEnabled enabled => some (self.updateWebSocketEnabled enabled, [])
  | SessionOp.connectMqtt => some self.connectMqtt
  | SessionOp.disconnect => some self.disconnect
  | SessionOp.onMqttConnected =>
    if self.mqttConnectRequested then some self.onMqttConnected else none
  | SessionOp.onMqttDisconnected rc => some (self.onMqttDisconnected rc)
  | SessionOp.onUdpConfigReceived config sessionId =>
    some (self.onUdpConfigReceived config sessionId)
  | SessionOp.onUdpConnected => some self.onUdpConnected
  | SessionOp.onWebSocketConnected => self.onWebSocketConnected
  | SessionOp.onWebSocketDisconnected => some self.onWebSocketDisconnected
  | SessionOp.onWebSocketServerHello hello => self.onWebSocketServerHello hello

/-- A run of operations from a given session; `none` as soon as one of them does not
complete. -/
def DeviceSession.run (self : DeviceSession) : List SessionOp → Option DeviceSession
  | [] => some self
  | op :: ops =>
    match self.apply op with
    | none => none
    | some (self, _) => DeviceSession.run self ops

/-- States reachable from construction through the operations and callbacks. -/
inductive DeviceSession.Reachable : DeviceSession → Prop where
  | new (deviceId deviceName macAddress otaUrl uuid : QString)
      (audioDevice websocketEnabled : Bool) :
      Reachable (DeviceSession.new deviceId deviceName macAddress otaUrl uuid audioDevice
        websocketEnabled)
  | step (s s1 : DeviceSession) (op : SessionOp) (ev : List SessionEvent) :
      Reachable s → s.apply op = some (s1, ev) → Reachable s1

/-- A session constructed with the WebSocket setting on. -/
def wsSession : DeviceSession :=
  DeviceSession.new "dev".toList "name".toList "aa:bb".toList "http://ota".toList
    "uuid".toList true true

/-- A session constructed with the WebSocket setting off. -/
def mqttSession : DeviceSession :=
  DeviceSession.new "dev".toList "name".toList "aa:bb".toList "http://ota".toList
    "uuid".toList true false

/-- Bootstrap with both sections on a WebSocket-enabled session, then the server
hello: the WebSocket transport is connected. -/
def wsConnectOps : List SessionOp :=
  [SessionOp.getOtaConfig, SessionOp.onOtaConfigReceived (OtaConfig.fromJson bothJson) 0,
   SessionOp.onWebSocketServerHello goodHello]

/-- After `wsConnectOps`: the user asks for the MQTT connection and the broker
accepts. -/
def bothTransportsOps : List SessionOp :=
  wsConnectOps ++ [SessionOp.connectMqtt, SessionOp.onMqttConnected]

/-- Bootstrap on a session with the WebSocket setting off and MQTT connected; then the
setting is switched on, the session bootstraps again and the server hello arrives. -/
def rebootstrapOps : List SessionOp :=
  [SessionOp.getOtaConfig, SessionOp.onOtaConfigReceived (OtaConfig.fromJson bothJson) 0,
   SessionOp.connectMqtt, SessionOp.onMqttConnected,
   SessionOp.updateWebSocketEnabled true,
   SessionOp.getOtaConfig, SessionOp.onOtaConfigReceived (OtaConfig.fromJson bothJson) 0,
   SessionOp.onWebSocketServerHello goodHello]

/-- Bootstrap on a session with the WebSocket setting off, MQTT connected, the UDP
configuration with session id `sid` received and the UDP channel connected. -/
def mqttConnectOps : List SessionOp :=
  [SessionOp.getOtaConfig, SessionOp.onOtaConfigReceived (OtaConfig.fromJson bothJson) 0,
   SessionOp.connectMqtt, SessionOp.onMqttConnected,
   SessionOp.onUdpConfigReceived {} "sid".toList, SessionOp.onUdpConnected]

/-- A connected flag is only set for a transport the session has started: the
WebSocket-connected flag only while a WebSocket manager exists, the MQTT-connected
flag only once the MQTT manager has been asked to connect. -/
def DeviceSession.FlagsStarted (s : DeviceSession) : Prop :=
  (s.m_websocketConnected = true → s.m_websocketManager.isSome = true) ∧
  (s.m_mqttConnected = true → s.mqttConnectRequested = true)

/-- The state that `mqttConnectOps` leads to from `mqttSession`. -/
def mqttConnectedSession : DeviceSession :=
  (mqttSession.run mqttConnectOps).getD mqttSession

/-- The state that `wsConnectOps` leads to from `wsSession`. -/
def wsConnectedSession : DeviceSession :=
  (wsSession.run wsConnectOps).getD wsSession

end network
end xiaozhi

/-! # Theorems -/

namespace xiaozhi
namespace audio

/-! ## Byte order and the CTR transform -/

theorem exists_of_length16 (l : List Nat) (h : l.length = 16) :
    ∃ a0 a1 a2 a3 a4 a5 a6 a7 a8 a9 a10 a11 a12 a13 a14 a15 : Nat,
      l = [a0, a1, a2, a3, a4, a5, a6, a7, a8, a9, a10, a11, a12, a13, a14, a15] := by
  match l, h with
  | [a0, a1, a2, a3, a4, a5, a6, a7, a8, a9, a10, a11, a12, a13, a14, a15], _ =>
    exact ⟨a0, a1, a2, a3, a4, a5, a6, a7, a8, a9, a10, a11, a12, a13, a14, a15, rfl⟩

theorem ctrXor_length (stream : Nat → Nat) (i : Nat) (bs : QByteArray) :
    (ctrXor stream i bs).length = bs.length := by
  induction bs generalizing i with
  | nil => rfl
  | cons b bs ih => simp [ctrXor, ih]

theorem ctrXor_ctrXor (stream : Nat → Nat) (i : Nat) (bs : QByteArray) :
    ctrXor stream i (ctrXor stream i bs) = bs := by
  induction bs generalizing i with
  | nil => rfl
  | cons b bs ih => simp [ctrXor, ih, Nat.xor_cancel_right]

theorem and_shl_mask (x m k : Nat) : x &&& (m <<< k) = ((x >>> k) &&& m) <<< k := by
  apply Nat.eq_of_testBit_eq
  intro i
  simp only [Nat.testBit_and, Nat.testBit_shiftLeft, Nat.testBit_shiftRight]
  by_cases h : k ≤ i
  · simp [h, Nat.add_sub_cancel' h]
  · simp [h]

theorem or_eq_add_of_lt (a b k : Nat) (h : b < 2 ^ k) : (a * 2 ^ k) ||| b = a * 2 ^ k + b := by
  rw [Nat.mul_comm, ← Nat.mul_add_lt_is_or h]

theorem and_255 (x : Nat) : x &&& 255 = x % 256 := by
  have h := Nat.and_pow_two_sub_one_eq_mod x 8
  simpa using h

theorem htons_custom_eq (v : Nat) : htons_custom v = (v % 256) * 2 ^ 8 + v / 2 ^ 8 % 256 := by
  unfold htons_custom
  have h1 : (v &&& 0xFF00) >>> 8 = v / 2 ^ 8 % 256 := by
    have : (0xFF00 : Nat) = 0xFF <<< 8 := by decide
    rw [this, and_shl_mask, Nat.shiftLeft_shiftRight, and_255, Nat.shiftRight_eq_div_pow]
  have h2 : (v &&& 0x00FF) <<< 8 = (v % 256) * 2 ^ 8 := by
    rw [and_255, Nat.shiftLeft_eq]
  rw [h1, h2, Nat.lor_comm, or_eq_add_of_lt _ _ _ (by omega)]

theorem htonl_custom_eq (v : Nat) :
    htonl_custom v = (v % 256) * 2 ^ 24 + (v / 2 ^ 8 % 256) * 2 ^ 16
      + (v / 2 ^ 16 % 256) * 2 ^ 8 + v / 2 ^ 24 % 256 := by
  unfold htonl_custom
  have h1 : (v &&& 0xFF000000) >>> 24 = v / 2 ^ 24 % 256 := by
    have : (0xFF000000 : Nat) = 0xFF <<< 24 := by decide
    rw [this, and_shl_mask, Nat.shiftLeft_shiftRight, and_255, Nat.shiftRight_eq_div_pow]
  have h2 : (v &&& 0x00FF0000) >>> 8 = (v / 2 ^ 16 % 256) * 2 ^ 8 := by
    have : (0x00FF0000 : Nat) = 0xFF <<< 16 := by decide
    rw [this, and_shl_mask, and_255, Nat.shiftRight_eq_div_pow, Nat.shiftLeft_eq,
      Nat.shiftRight_eq_div_pow]
    have : (2:Nat) ^ 16 = 2 ^ 8 * 2 ^ 8 := by norm_num
    rw [this, ← Nat.mul_assoc, Nat.mul_div_cancel _ (by norm_num)]
  have h3 : (v &&& 0x0000FF00) <<< 8 = (v / 2 ^ 8 % 256) * 2 ^ 16 := by
    have : (0x0000FF00 : Nat) = 0xFF <<< 8 := by decide
    rw [this, and_shl_mask, and_255, Nat.shiftRight_eq_div_pow, Nat.shiftLeft_eq,
      Nat.shiftLeft_eq]
    ring
  have h4 : (v &&& 0x000000FF) <<< 24 = (v % 256) * 2 ^ 24 := by
    rw [and_255, Nat.shiftLeft_eq]
  rw [h1, h2, h3, h4]
  rw [Nat.lor_comm (v / 2 ^ 24 % 256), or_eq_add_of_lt _ _ _ (by omega)]
  rw [Nat.lor_comm _ (v / 2 ^ 8 % 256 * 2 ^ 16), or_eq_add_of_lt _ _ 16 (by omega)]
  rw [Nat.lor_comm _ (v % 256 * 2 ^ 24), or_eq_add_of_lt _ _ 24 (by omega)]
  omega


theorem split16 (b0 b1 : Nat) (h0 : b0 < 256) (h1 : b1 < 256) :
    (b0 * 256 + b1) % 256 = b1 ∧ (b0 * 256 + b1) / 256 % 256 = b0 := by
  constructor <;> omega

theorem split32 (b0 b1 b2 b3 : Nat) (h0 : b0 < 256) (h1 : b1 < 256) (h2 : b2 < 256)
    (h3 : b3 < 256) :
    (b0 * 16777216 + b1 * 65536 + b2 * 256 + b3) % 256 = b3 ∧
    (b0 * 16777216 + b1 * 65536 + b2 * 256 + b3) / 256 % 256 = b2 ∧
    (b0 * 16777216 + b1 * 65536 + b2 * 256 + b3) / 65536 % 256 = b1 ∧
    (b0 * 16777216 + b1 * 65536 + b2 * 256 + b3) / 16777216 % 256 = b0 := by
  refine ⟨?_, ?_, ?_, ?_⟩ <;> omega

theorem join32 (v : Nat) (hv : v < 2 ^ 32) :
    (v / 16777216 % 256) * 16777216 + (v / 65536 % 256) * 65536 + (v / 256 % 256) * 256
      + v % 256 = v := by
  omega

theorem bytesOfU16_htons (v : Nat) :
    bytesOfU16 (htons_custom v) = [v / 2 ^ 8 % 256, v % 256] := by
  rw [htons_custom_eq]
  have h := split16 (v % 256) (v / 2 ^ 8 % 256) (Nat.mod_lt _ (by norm_num))
    (Nat.mod_lt _ (by norm_num))
  simp only [bytesOfU16]
  norm_num at h ⊢
  exact h

theorem bytesOfU32_htonl (v : Nat) :
    bytesOfU32 (htonl_custom v)
      = [v / 2 ^ 24 % 256, v / 2 ^ 16 % 256, v / 2 ^ 8 % 256, v % 256] := by
  rw [htonl_custom_eq]
  have h := split32 (v % 256) (v / 2 ^ 8 % 256) (v / 2 ^ 16 % 256) (v / 2 ^ 24 % 256)
    (Nat.mod_lt _ (by norm_num)) (Nat.mod_lt _ (by norm_num)) (Nat.mod_lt _ (by norm_num))
    (Nat.mod_lt _ (by norm_num))
  simp only [bytesOfU32]
  norm_num at h ⊢
  exact h

theorem ntohl_be_bytes (v : Nat) (hv : v < 2 ^ 32) :
    ntohl_custom ((v / 2 ^ 24 % 256) + (v / 2 ^ 16 % 256) * 2 ^ 8 + (v / 2 ^ 8 % 256) * 2 ^ 16
      + (v % 256) * 2 ^ 24) = v := by
  unfold ntohl_custom
  rw [htonl_custom_eq]
  have h := split32 (v % 256) (v / 2 ^ 8 % 256) (v / 2 ^ 16 % 256) (v / 2 ^ 24 % 256)
    (Nat.mod_lt _ (by norm_num)) (Nat.mod_lt _ (by norm_num)) (Nat.mod_lt _ (by norm_num))
    (Nat.mod_lt _ (by norm_num))
  have e : (v / 2 ^ 24 % 256) + (v / 2 ^ 16 % 256) * 2 ^ 8 + (v / 2 ^ 8 % 256) * 2 ^ 16
      + (v % 256) * 2 ^ 24
      = (v % 256) * 16777216 + (v / 2 ^ 8 % 256) * 65536 + (v / 2 ^ 16 % 256) * 256
        + v / 2 ^ 24 % 256 := by ring
  rw [e]
  obtain ⟨h0, h1, h2, h3⟩ := h
  norm_num at h0 h1 h2 h3 ⊢
  rw [h0, h1, h2, h3]
  have j := join32 v hv
  omega

theorem encrypt_eq (ks : Keystream) (e : AudioEncryptor) (p : QByteArray) (ts : Nat)
    (hi : e.m_initialized = true) (hn : e.m_nonce.length = 16) (hp : p ≠ []) :
    e.encrypt ks p ts =
      (sendHeader e.m_nonce (p.length % 2 ^ 16) ts ((e.m_localSequence + 1) % 2 ^ 32)
        ++ evpCtr ks e.m_key
            (sendHeader e.m_nonce (p.length % 2 ^ 16) ts ((e.m_localSequence + 1) % 2 ^ 32)) p,
       { e with m_localSequence := (e.m_localSequence + 1) % 2 ^ 32 }) := by
  obtain ⟨a0, a1, a2, a3, a4, a5, a6, a7, a8, a9, a10, a11, a12, a13, a14, a15, hx⟩ :=
    exists_of_length16 e.m_nonce hn
  have hp' : p.isEmpty = false := by
    cases p with
    | nil => exact absurd rfl hp
    | cons b bs => rfl
  unfold AudioEncryptor.encrypt
  simp only [hi, hp', Bool.not_true, Bool.false_eq_true, if_false]
  rw [bytesOfU16_htons, bytesOfU32_htonl, bytesOfU32_htonl, hx]
  simp [memcpy, sendHeader, evpCtr, ctrXor_length]
  rw [List.take_of_length_le (by rw [ctrXor_length]), List.drop_eq_nil_of_le (by simp; omega)]
  simp

theorem sendHeader_length (nonce : QByteArray) (len ts seq : Nat) :
    (sendHeader nonce len ts seq).length = 16 := rfl

theorem decrypt_header_append (ks : Keystream) (d : AudioEncryptor) (nonce : QByteArray)
    (len ts seq : Nat) (body : QByteArray) (t0 s0 : Nat)
    (hi : d.m_initialized = true) (hts : ts < 2 ^ 32) (hseq : seq < 2 ^ 32) :
    d.decrypt ks (sendHeader nonce len ts seq ++ body) t0 s0 =
      if nonce.getD 0 0 ≠ 0x01 then
        { data := [], timestamp := ts, sequence := seq, self := d }
      else
        { data := evpCtr ks d.m_key (sendHeader nonce len ts seq) body,
          timestamp := ts, sequence := seq,
          self := { d with m_remoteSequence := seq } } := by
  have h8 : ntohl_custom (loadU32 (sendHeader nonce len ts seq ++ body) 8) = ts := by
    have := ntohl_be_bytes ts hts
    simpa [loadU32, sendHeader] using this
  have h12 : ntohl_custom (loadU32 (sendHeader nonce len ts seq ++ body) 12) = seq := by
    have := ntohl_be_bytes seq hseq
    simpa [loadU32, sendHeader] using this
  unfold AudioEncryptor.decrypt
  simp only [hi, Bool.not_true, Bool.false_eq_true, if_false]
  rw [h8, h12]
  have hl : ¬ (sendHeader nonce len ts seq ++ body).length < 16 := by
    simp [sendHeader_length]
  simp only [hl, if_false]
  have h0 : (sendHeader nonce len ts seq ++ body).getD 0 0 = nonce.getD 0 0 := by
    simp [sendHeader]
  rw [h0]
  have ht : (sendHeader nonce len ts seq ++ body).take 16 = sendHeader nonce len ts seq := by
    simp [sendHeader]
  have hd : ((sendHeader nonce len ts seq ++ body).drop 16).take
      ((sendHeader nonce len ts seq ++ body).length - 16) = body := by
    simp [sendHeader]
  rw [ht, hd]

theorem decrypt_data_header_append (ks : Keystream) (d : AudioEncryptor) (nonce : QByteArray)
    (len ts seq : Nat) (body : QByteArray) (t0 s0 : Nat)
    (hi : d.m_initialized = true) (htype : nonce.getD 0 0 = 0x01) :
    (d.decrypt ks (sendHeader nonce len ts seq ++ body) t0 s0).data
      = evpCtr ks d.m_key (sendHeader nonce len ts seq) body := by
  unfold AudioEncryptor.decrypt
  simp only [hi, Bool.not_true, Bool.false_eq_true, if_false]
  have hl : ¬ (sendHeader nonce len ts seq ++ body).length < 16 := by
    simp [sendHeader_length]
  simp only [hl, if_false]
  have h0 : (sendHeader nonce len ts seq ++ body).getD 0 0 = nonce.getD 0 0 := by
    simp [sendHeader]
  rw [h0]
  have ht : (sendHeader nonce len ts seq ++ body).take 16 = sendHeader nonce len ts seq := by
    simp [sendHeader]
  have hd : ((sendHeader nonce len ts seq ++ body).drop 16).take
      ((sendHeader nonce len ts seq ++ body).length - 16) = body := by
    simp [sendHeader]
  rw [ht, hd, htype]
  simp only [ne_eq, not_true_eq_false, if_false]

theorem initialize_ready (e0 : AudioEncryptor) (key nonce : QByteArray)
    (h : ( AudioEncryptor.initialize e0 key nonce).2 = true) :
    ( AudioEncryptor.initialize e0 key nonce).1.Ready ∧
    ( AudioEncryptor.initialize e0 key nonce).1.m_key = key ∧
    ( AudioEncryptor.initialize e0 key nonce).1.m_nonce = nonce ∧
    ( AudioEncryptor.initialize e0 key nonce).1.m_localSequence = 0 := by
  unfold AudioEncryptor.initialize at h ⊢
  by_cases hk : key.length ≠ 16 ∨ nonce.length ≠ 16
  · simp [hk] at h
  · have hk' : key.length = 16 ∧ nonce.length = 16 := by
      constructor <;> (by_contra hc; exact hk (by simp [hc]))
    rw [if_neg hk]
    exact ⟨⟨rfl, hk'.1, hk'.2⟩, rfl, rfl, rfl⟩

theorem encrypt_ready (ks : Keystream) (e : AudioEncryptor) (p : QByteArray) (ts : Nat)
    (h : e.Ready) : (e.encrypt ks p ts).2.Ready := by
  unfold AudioEncryptor.encrypt
  obtain ⟨hi, hk, hn⟩ := h
  by_cases hp : p.isEmpty = true
  · simp [hi, hp, AudioEncryptor.Ready, hk, hn]
  · simp [hi, hp, AudioEncryptor.Ready, hk, hn]

/-! ## Claims on AudioEncryptor -/

/-- C1 (as stated, refuted): with the 16-byte key `sampleKey` and the 16-byte nonce
`zeroTypeNonce`, whose first byte is `0x00`, `initialize` succeeds and `encrypt`
returns a 19-byte packet for the payload `[1, 2, 3]`, yet `decrypt` of that packet
returns the empty array, not the payload. -/
theorem C1_counterexample :
    ( AudioEncryptor.initialize AudioEncryptor.new sampleKey zeroTypeNonce).2 = true ∧
    ((( AudioEncryptor.initialize AudioEncryptor.new sampleKey zeroTypeNonce).1.encrypt
        sampleKeystream [1, 2, 3] 1000).1.length = 19) ∧
    ((( AudioEncryptor.initialize AudioEncryptor.new sampleKey zeroTypeNonce).1.encrypt
        sampleKeystream [1, 2, 3] 1000).2.decrypt sampleKeystream
      (( AudioEncryptor.initialize AudioEncryptor.new sampleKey zeroTypeNonce).1.encrypt
        sampleKeystream [1, 2, 3] 1000).1 0 0).data = [] := by
  decide

/-- C1 (amended): for every keystream, every initialised encryptor whose nonce has
the type byte `0x01` in position 0, every non-empty payload `p` and every
timestamp `ts`, `decrypt` applied to the packet returned by `encrypt(p, ts)` returns
exactly the bytes of `p`. -/
theorem C1_decrypt_encrypt_payload (ks : Keystream) (e : AudioEncryptor) (p : QByteArray)
    (ts t0 s0 : Nat) (hready : e.Ready) (htype : e.m_nonce.getD 0 0 = 0x01)
    (hp : p ≠ []) :
    ((e.encrypt ks p ts).2.decrypt ks (e.encrypt ks p ts).1 t0 s0).data = p := by
  obtain ⟨hi, _, hn⟩ := hready
  rw [encrypt_eq ks e p ts hi hn hp]
  rw [decrypt_data_header_append ks _ _ _ _ _ _ _ _ (by simpa using hi) htype]
  exact ctrXor_ctrXor _ _ _

/-- Witness for C1 (amended): the sample key and nonce `01 00 00 00 AA BB CC DD ...`,
payload `[1, 2, 3]`, timestamp 1000. -/
theorem C1_decrypt_encrypt_payload_witness :
    ( AudioEncryptor.initialize AudioEncryptor.new sampleKey sampleNonce).2 = true ∧
    ((( AudioEncryptor.initialize AudioEncryptor.new sampleKey sampleNonce).1.encrypt
        sampleKeystream [1, 2, 3] 1000).2.decrypt sampleKeystream
      (( AudioEncryptor.initialize AudioEncryptor.new sampleKey sampleNonce).1.encrypt
        sampleKeystream [1, 2, 3] 1000).1 0 0).data = [1, 2, 3] :=
  ⟨by decide,
   C1_decrypt_encrypt_payload sampleKeystream
     ( AudioEncryptor.initialize AudioEncryptor.new sampleKey sampleNonce).1 [1, 2, 3] 1000 0 0
     (by decide) (by decide) (by decide)⟩

/-- C2: for every initialised encryptor with local sequence `s`, every non-empty
payload and every 32-bit timestamp `ts`, the timestamp that `decrypt` outputs for the
packet returned by `encrypt(p, ts)` is `ts`, and the sequence it outputs is the
sequence number `encrypt` assigned, the new value of `m_localSequence`, which is
`s + 1` in 32-bit unsigned arithmetic. -/
theorem C2_decrypt_encrypt_header (ks : Keystream) (e : AudioEncryptor) (p : QByteArray)
    (ts t0 s0 : Nat) (hready : e.Ready) (hp : p ≠ []) (hts : ts < 2 ^ 32) :
    ((e.encrypt ks p ts).2.decrypt ks (e.encrypt ks p ts).1 t0 s0).timestamp = ts ∧
    ((e.encrypt ks p ts).2.decrypt ks (e.encrypt ks p ts).1 t0 s0).sequence
      = (e.encrypt ks p ts).2.m_localSequence ∧
    (e.encrypt ks p ts).2.m_localSequence = (e.m_localSequence + 1) % 2 ^ 32 := by
  obtain ⟨hi, _, hn⟩ := hready
  rw [encrypt_eq ks e p ts hi hn hp]
  rw [decrypt_header_append ks _ _ _ _ _ _ _ _ (by simpa using hi) hts
    (Nat.mod_lt _ (by norm_num))]
  by_cases htype : e.m_nonce.getD 0 0 ≠ 0x01
  · rw [if_pos htype]
    exact ⟨rfl, rfl, rfl⟩
  · rw [if_neg htype]
    exact ⟨rfl, rfl, rfl⟩

/-- Witness for C2: sample key and nonce, payload `[1, 2, 3]`, timestamp 1000, on an
encryptor whose local sequence is 0. -/
theorem C2_decrypt_encrypt_header_witness :
    ((( AudioEncryptor.initialize AudioEncryptor.new sampleKey sampleNonce).1.encrypt
        sampleKeystream [1, 2, 3] 1000).2.decrypt sampleKeystream
      (( AudioEncryptor.initialize AudioEncryptor.new sampleKey sampleNonce).1.encrypt
        sampleKeystream [1, 2, 3] 1000).1 0 0).timestamp = 1000 ∧
    ((( AudioEncryptor.initialize AudioEncryptor.new sampleKey sampleNonce).1.encrypt
        sampleKeystream [1, 2, 3] 1000).2.decrypt sampleKeystream
      (( AudioEncryptor.initialize AudioEncryptor.new sampleKey sampleNonce).1.encrypt
        sampleKeystream [1, 2, 3] 1000).1 0 0).sequence
      = (( AudioEncryptor.initialize AudioEncryptor.new sampleKey sampleNonce).1.encrypt
        sampleKeystream [1, 2, 3] 1000).2.m_localSequence ∧
    (( AudioEncryptor.initialize AudioEncryptor.new sampleKey sampleNonce).1.encrypt
        sampleKeystream [1, 2, 3] 1000).2.m_localSequence = (0 + 1) % 2 ^ 32 :=
  C2_decrypt_encrypt_header sampleKeystream
    ( AudioEncryptor.initialize AudioEncryptor.new sampleKey sampleNonce).1 [1, 2, 3] 1000 0 0
    (by decide) (by decide) (by decide)

end audio
end xiaozhi

namespace xiaozhi
namespace audio

theorem beBytes32_mod (v : Nat) : beBytes32 (v % 2 ^ 32) = beBytes32 v := by
  simp only [beBytes32, List.cons.injEq, and_true]
  refine ⟨?_, ?_, ?_, ?_⟩ <;> omega

/-- C3: for every initialised encryptor with server nonce `N` and local sequence `s`,
every payload `p` with `1 ≤ |p| ≤ 65535` and every timestamp `ts`, the packet
returned by `encrypt(p, ts)` has length `16 + |p|`; its bytes 0-1 and 4-7 are those of
`N`, bytes 2-3 are `|p|` in big-endian, bytes 8-11 are `ts` in big-endian and bytes
12-15 are `s + 1` (32-bit) in big-endian, which is `00 00 00 01` when `s = 0`, as on
the first call after `initialize`. -/
theorem C3_encrypt_header_layout (ks : Keystream) (e : AudioEncryptor) (p : QByteArray)
    (ts : Nat) (hready : e.Ready) (hlen1 : 1 ≤ p.length) (hlen2 : p.length ≤ 65535) :
    (e.encrypt ks p ts).1.length = 16 + p.length ∧
    ((e.encrypt ks p ts).1.take 2 = e.m_nonce.take 2) ∧
    (((e.encrypt ks p ts).1.drop 4).take 4 = (e.m_nonce.drop 4).take 4) ∧
    (((e.encrypt ks p ts).1.drop 2).take 2 = beBytes16 p.length) ∧
    (((e.encrypt ks p ts).1.drop 8).take 4 = beBytes32 ts) ∧
    (((e.encrypt ks p ts).1.drop 12).take 4 = beBytes32 (e.m_localSequence + 1)) ∧
    (e.m_localSequence = 0 → ((e.encrypt ks p ts).1.drop 12).take 4 = [0, 0, 0, 1]) := by
  obtain ⟨hi, _, hn⟩ := hready
  have hp : p ≠ [] := by
    intro h
    rw [h] at hlen1
    simp at hlen1
  have hseq := beBytes32_mod (e.m_localSequence + 1)
  rw [encrypt_eq ks e p ts hi hn hp]
  obtain ⟨a0, a1, a2, a3, a4, a5, a6, a7, a8, a9, a10, a11, a12, a13, a14, a15, hx⟩ :=
    exists_of_length16 e.m_nonce hn
  have hmod : p.length % 2 ^ 16 = p.length := Nat.mod_eq_of_lt (by omega)
  rw [hmod, hx]
  simp only [beBytes32] at hseq
  refine ⟨?_, ?_, ?_, ?_, ?_, ?_, ?_⟩
  · simp [sendHeader, evpCtr, ctrXor_length]
    omega
  · simp [sendHeader]
  · simp [sendHeader]
  · simp [sendHeader, beBytes16]
  · simp [sendHeader, beBytes32]
  · simp only [sendHeader, beBytes32]
    simpa using hseq
  · intro h0
    rw [h0]
    simp [sendHeader]

/-- Witness for C3: key of sixteen zero bytes, nonce
`01 00 00 00 AA BB CC DD 00000000 00000000`, a 10-byte payload at timestamp 1000 on
the first call after `initialize`. -/
theorem C3_encrypt_header_layout_witness :
    (( AudioEncryptor.initialize AudioEncryptor.new sampleKey sampleNonce).1.encrypt
        sampleKeystream [1, 2, 3, 4, 5, 6, 7, 8, 9, 10] 1000).1.take 16
      = [1, 0, 0, 10, 0xAA, 0xBB, 0xCC, 0xDD, 0, 0, 3, 232, 0, 0, 0, 1] ∧
    ((( AudioEncryptor.initialize AudioEncryptor.new sampleKey sampleNonce).1.encrypt
        sampleKeystream [1, 2, 3, 4, 5, 6, 7, 8, 9, 10] 1000).1.drop 12).take 4
      = [0, 0, 0, 1] :=
  ⟨by decide,
   (C3_encrypt_header_layout sampleKeystream
     ( AudioEncryptor.initialize AudioEncryptor.new sampleKey sampleNonce).1
     [1, 2, 3, 4, 5, 6, 7, 8, 9, 10] 1000 (by decide) (by decide)
     (by decide)).2.2.2.2.2.2 (by decide)⟩

end audio
end xiaozhi

namespace xiaozhi
namespace network

/-! ## Claims on protocol selection -/

theorem fromJson_hasWebSocket_valid (json : OtaJson)
    (h : (OtaConfig.fromJson json).hasWebSocket = true) :
    (OtaConfig.fromJson json).websocket.isValid = true := by
  unfold OtaConfig.fromJson at h ⊢
  rcases json with ⟨a, m, w, u, b⟩
  cases a <;> cases m <;> cases w <;> cases u <;> cases b <;>
    simp only [] at h ⊢ <;> (try split at h) <;> (try split at h) <;> (try split at h) <;>
    simp_all


/-- Whenever the user preference enables WebSocket and the config carries a valid
WebSocket section, `onOtaConfigReceived` takes the WebSocket branch. -/
theorem select_websocket (self : DeviceSession) (c : OtaConfig) (now : Int)
    (hpref : self.m_websocketEnabled = true) (hws : c.hasWebSocket = true)
    (hvalid : c.websocket.isValid = true) :
    ((self.onOtaConfigReceived c now).2.any SessionEvent.isWebSocketOpen = true) ∧
    ((self.onOtaConfigReceived c now).2.any SessionEvent.isMqttConnect = false) ∧
    ((self.onOtaConfigReceived c now).1.m_websocketManager.isSome = true) ∧
    ((self.onOtaConfigReceived c now).1.isWebSocketMode = true) := by
  unfold DeviceSession.onOtaConfigReceived
  have hv2 : (!c.websocket.isValid) = false := by simp [hvalid]
  by_cases hact : c.activation.code.isEmpty = true
  · simp [hpref, hws, hact, WebSocketManager.connectToServer, hv2,
      SessionEvent.isWebSocketOpen, SessionEvent.isMqttConnect, DeviceSession.isWebSocketMode]
  · simp [hpref, hws, hact, WebSocketManager.connectToServer, hv2,
      SessionEvent.isWebSocketOpen, SessionEvent.isMqttConnect, DeviceSession.isWebSocketMode]

/-- C4 (the code at the failing input): the bootstrap response holds only a valid
WebSocket section (`hasWebSocket = true`, `hasMqtt = false`), for which `fromJson`
records `websocket` as the protocol type, and the user setting `websocketEnabled` is
`false`.  `onOtaConfigReceived` creates no WebSocket manager and opens no connection:
it reports that the response held neither an MQTT nor a WebSocket configuration. -/
theorem C4_ws_only_not_selected_when_disabled :
    (OtaConfig.fromJson wsOnlyJson).hasWebSocket = true ∧
    (OtaConfig.fromJson wsOnlyJson).hasMqtt = false ∧
    (OtaConfig.fromJson wsOnlyJson).protocol_type = "websocket" ∧
    (DeviceSession.onOtaConfigReceived { m_websocketEnabled := false }
        (OtaConfig.fromJson wsOnlyJson) 0).1.m_websocketManager = none ∧
    (DeviceSession.onOtaConfigReceived { m_websocketEnabled := false }
        (OtaConfig.fromJson wsOnlyJson) 0).1.isWebSocketMode = false ∧
    (DeviceSession.onOtaConfigReceived { m_websocketEnabled := false }
        (OtaConfig.fromJson wsOnlyJson) 0).2
      = [SessionEvent.logMessage [] "连接成功".toList,
         SessionEvent.logMessage [] "服务器未提供任何可用协议".toList,
         SessionEvent.loggerError "[%1] OTA响应中既无MQTT也无WebSocket配置"] := by
  decide

/-- C5: for every bootstrap response whose MQTT and WebSocket sections are both valid
and every session whose user preference is WebSocket (`websocketEnabled = true`),
`onOtaConfigReceived` selects the WebSocket transport: a WebSocket manager is created
and opens a connection to the configured URL, the session is in WebSocket mode, and no
MQTT connection is scheduled. -/
theorem C5_both_valid_prefers_websocket (self : DeviceSession) (json : OtaJson) (now : Int)
    (hpref : self.m_websocketEnabled = true)
    (_hmqtt : (OtaConfig.fromJson json).hasMqtt = true)
    (hws : (OtaConfig.fromJson json).hasWebSocket = true) :
    ((self.onOtaConfigReceived (OtaConfig.fromJson json) now).2.any
        SessionEvent.isWebSocketOpen = true) ∧
    ((self.onOtaConfigReceived (OtaConfig.fromJson json) now).2.any
        SessionEvent.isMqttConnect = false) ∧
    ((self.onOtaConfigReceived (OtaConfig.fromJson json) now).1.m_websocketManager.isSome
        = true) ∧
    ((self.onOtaConfigReceived (OtaConfig.fromJson json) now).1.isWebSocketMode = true) :=
  select_websocket self (OtaConfig.fromJson json) now hpref hws
    (fromJson_hasWebSocket_valid json hws)

/-- Witness for C5: a response with a valid MQTT section (`host:8883`) and a valid
WebSocket section, received by a session with `websocketEnabled = true`. -/
theorem C5_both_valid_prefers_websocket_witness :
    ((DeviceSession.onOtaConfigReceived { m_websocketEnabled := true }
        (OtaConfig.fromJson bothJson) 0).2.any SessionEvent.isWebSocketOpen = true) ∧
    ((DeviceSession.onOtaConfigReceived { m_websocketEnabled := true }
        (OtaConfig.fromJson bothJson) 0).2.any SessionEvent.isMqttConnect = false) ∧
    ((DeviceSession.onOtaConfigReceived { m_websocketEnabled := true }
        (OtaConfig.fromJson bothJson) 0).1.m_websocketManager.isSome = true) ∧
    ((DeviceSession.onOtaConfigReceived { m_websocketEnabled := true }
        (OtaConfig.fromJson bothJson) 0).1.isWebSocketMode = true) :=
  C5_both_valid_prefers_websocket { m_websocketEnabled := true } bothJson 0
    (by decide) (by decide) (by decide)

end network
end xiaozhi

namespace xiaozhi
namespace network

/-! ## Claims on binary frame parsing -/

theorem parse_v2_of_declared (data : QByteArray) (L : Nat)
    (hdecl : readBE32 data 12 = some L) (hlen : 16 ≤ data.length) :
    parseBinaryPacket 2 data =
      if L = 0 ∨ L > 1024 * 1024 then some []
      else if data.length < 16 + L then some []
      else some (QByteArray.mid data 16 L) := by
  unfold parseBinaryPacket
  have h1 : ¬ data.length < 16 := by omega
  simp only [sizeofBinaryProtocol2, if_true, h1, if_false, hdecl, Option.bind_eq_bind,
    Option.some_bind]

theorem parse_v3_of_declared (data : QByteArray) (L : Nat)
    (hdecl : readBE16 data 2 = some L) (hlen : 4 ≤ data.length) :
    parseBinaryPacket 3 data =
      if L = 0 ∨ L > 65535 then some []
      else if data.length < 4 + L then some []
      else some (QByteArray.mid data 4 L) := by
  unfold parseBinaryPacket
  have h1 : ¬ data.length < 4 := by omega
  have h0 : ¬ ((3 : Int) = 2) := by decide
  simp only [sizeofBinaryProtocol3, h0, if_true, h1, if_false, hdecl, Option.bind_eq_bind,
    Option.some_bind]

theorem readBE32_some_length (data : QByteArray) (off L : Nat)
    (h : readBE32 data off = some L) : off + 4 ≤ data.length := by
  unfold readBE32 at h
  simp only [Option.bind_eq_bind, Option.bind_eq_some] at h
  obtain ⟨b0, _, b1, _, b2, _, b3, h3, _⟩ := h
  obtain ⟨hlt, _⟩ := List.get?_eq_some.mp h3
  omega

theorem readBE16_some_length (data : QByteArray) (off L : Nat)
    (h : readBE16 data off = some L) : off + 2 ≤ data.length := by
  unfold readBE16 at h
  simp only [Option.bind_eq_bind, Option.bind_eq_some] at h
  obtain ⟨b0, _, b1, h1, _⟩ := h
  obtain ⟨hlt, _⟩ := List.get?_eq_some.mp h1
  omega

theorem readBE32_isSome (data : QByteArray) (off : Nat) (h : off + 4 ≤ data.length) :
    ∃ L, readBE32 data off = some L := by
  unfold readBE32
  have e0 : data.get? off = some (data.get ⟨off, by omega⟩) := List.get?_eq_get _
  have e1 : data.get? (off + 1) = some (data.get ⟨off + 1, by omega⟩) := List.get?_eq_get _
  have e2 : data.get? (off + 2) = some (data.get ⟨off + 2, by omega⟩) := List.get?_eq_get _
  have e3 : data.get? (off + 3) = some (data.get ⟨off + 3, by omega⟩) := List.get?_eq_get _
  rw [e0, e1, e2, e3]
  exact ⟨_, rfl⟩

theorem readBE16_isSome (data : QByteArray) (off : Nat) (h : off + 2 ≤ data.length) :
    ∃ L, readBE16 data off = some L := by
  unfold readBE16
  have e0 : data.get? off = some (data.get ⟨off, by omega⟩) := List.get?_eq_get _
  have e1 : data.get? (off + 1) = some (data.get ⟨off + 1, by omega⟩) := List.get?_eq_get _
  rw [e0, e1]
  exact ⟨_, rfl⟩

theorem parse_of_declared (version : Int) (data : QByteArray) (L : Nat)
    (hv : version = 2 ∨ version = 3)
    (hdecl : declaredPayloadLength version data = some L) :
    parseBinaryPacket version data =
      if L = 0 ∨ L > maxPayloadLength version then some []
      else if data.length < headerSize version + L then some []
      else some (QByteArray.mid data (headerSize version) L) := by
  rcases hv with hv | hv
  · subst hv
    simp only [declaredPayloadLength, if_true] at hdecl
    have := readBE32_some_length data 12 L hdecl
    rw [parse_v2_of_declared data L hdecl (by omega)]
    simp [maxPayloadLength, headerSize, sizeofBinaryProtocol2]
  · subst hv
    have h0 : ¬ ((3 : Int) = 2) := by decide
    simp only [declaredPayloadLength, h0, if_false] at hdecl
    have := readBE16_some_length data 2 L hdecl
    rw [parse_v3_of_declared data L hdecl (by omega)]
    simp [maxPayloadLength, headerSize, sizeofBinaryProtocol3, h0]

/-- C6: for protocol version 2 (16-byte header) and version 3 (4-byte header) and every
declared payload length `L` in the accepted range (`1 ≤ L ≤ 1048576` for version 2,
`1 ≤ L ≤ 65535` for version 3), `parseBinaryPacket` yields an empty result on a frame
of exactly `header_size + L - 1` bytes, and on a frame of exactly `header_size + L`
bytes it yields the `L` bytes that follow the header. -/
theorem C6_parse_exact_length (version : Int) (data : QByteArray) (L : Nat)
    (hv : version = 2 ∨ version = 3)
    (hdecl : declaredPayloadLength version data = some L)
    (hL1 : 1 ≤ L) (hL2 : L ≤ maxPayloadLength version) :
    (data.length = headerSize version + L - 1 → parseBinaryPacket version data = some []) ∧
    (data.length = headerSize version + L →
      parseBinaryPacket version data = some (data.drop (headerSize version)) ∧
      (data.drop (headerSize version)).length = L) := by
  rw [parse_of_declared version data L hv hdecl]
  have hr : ¬ (L = 0 ∨ L > maxPayloadLength version) := by omega
  rw [if_neg hr]
  constructor
  · intro hlen
    rw [if_pos (by omega)]
  · intro hlen
    rw [if_neg (by omega)]
    have hd : (data.drop (headerSize version)).length = L := by
      rw [List.length_drop]
      omega
    refine ⟨?_, hd⟩
    unfold QByteArray.mid
    rw [List.take_of_length_le (by omega)]

/-- Witness for C6: version 2 frames declaring 3 payload bytes, one with 2 and one
with 3 bytes after the 16-byte header. -/
theorem C6_parse_exact_length_witness :
    parseBinaryPacket 2 (v2Header 5 3 ++ [7, 8]) = some [] ∧
    parseBinaryPacket 2 (v2Header 5 3 ++ [7, 8, 9]) = some [7, 8, 9] :=
  ⟨(C6_parse_exact_length 2 (v2Header 5 3 ++ [7, 8]) 3 (by decide) (by decide) (by decide)
      (by decide)).1 (by decide),
   ((C6_parse_exact_length 2 (v2Header 5 3 ++ [7, 8, 9]) 3 (by decide) (by decide)
      (by decide) (by decide)).2 (by decide)).1⟩

/-- C7 (as stated, refuted): a version 2 frame and a version 3 frame that declare 3
payload bytes but carry 4 bytes after the header (declared length differs from the
remaining bytes) are not dropped: the parser returns the first 3 payload bytes. -/
theorem C7_counterexample :
    declaredPayloadLength 2 (v2Header 5 3 ++ [7, 8, 9, 10]) = some 3 ∧
    (v2Header 5 3 ++ [7, 8, 9, 10]).length - headerSize 2 = 4 ∧
    parseBinaryPacket 2 (v2Header 5 3 ++ [7, 8, 9, 10]) = some [7, 8, 9] ∧
    declaredPayloadLength 3 (v3Header 3 ++ [7, 8, 9, 10]) = some 3 ∧
    (v3Header 3 ++ [7, 8, 9, 10]).length - headerSize 3 = 4 ∧
    parseBinaryPacket 3 (v3Header 3 ++ [7, 8, 9, 10]) = some [7, 8, 9] := by
  decide

/-- C7 (amended): for protocol versions 2 and 3, `parseBinaryPacket` returns an empty
result for every frame whose declared payload length is greater than the number of
bytes remaining after the header; a frame that is longer than `header_size +` declared
length, with the declared length in the accepted range, is not dropped: the declared
number of bytes following the header is returned and the surplus is ignored. -/
theorem C7_short_dropped_long_truncated (version : Int) (data : QByteArray) (L : Nat)
    (hv : version = 2 ∨ version = 3)
    (hdecl : declaredPayloadLength version data = some L) :
    (data.length - headerSize version < L → parseBinaryPacket version data = some []) ∧
    (L < data.length - headerSize version → 1 ≤ L → L ≤ maxPayloadLength version →
      parseBinaryPacket version data = some ((data.drop (headerSize version)).take L) ∧
      ((data.drop (headerSize version)).take L).length = L) := by
  have hhdr : headerSize version ≤ data.length := by
    rcases hv with hv | hv
    · subst hv
      simp only [declaredPayloadLength, if_true] at hdecl
      have := readBE32_some_length data 12 L hdecl
      simp [headerSize, sizeofBinaryProtocol2]
      omega
    · subst hv
      have h0 : ¬ ((3 : Int) = 2) := by decide
      simp only [declaredPayloadLength, h0, if_false] at hdecl
      have := readBE16_some_length data 2 L hdecl
      simp [headerSize, sizeofBinaryProtocol3, h0]
      omega
  rw [parse_of_declared version data L hv hdecl]
  constructor
  · intro hshort
    by_cases hr : L = 0 ∨ L > maxPayloadLength version
    · rw [if_pos hr]
    · rw [if_neg hr, if_pos (by omega)]
  · intro hlong hL1 hL2
    rw [if_neg (by omega), if_neg (by omega)]
    refine ⟨rfl, ?_⟩
    rw [List.length_take, List.length_drop]
    omega

/-- Witness for C7 (amended): a version 3 frame declaring 3 bytes with 2 bytes after
the header is dropped; one with 4 bytes after the header yields the first 3. -/
theorem C7_short_dropped_long_truncated_witness :
    parseBinaryPacket 3 (v3Header 3 ++ [7, 8]) = some [] ∧
    parseBinaryPacket 3 (v3Header 3 ++ [7, 8, 9, 10]) = some [7, 8, 9] :=
  ⟨(C7_short_dropped_long_truncated 3 (v3Header 3 ++ [7, 8]) 3 (by decide) (by decide)).1
      (by decide),
   ((C7_short_dropped_long_truncated 3 (v3Header 3 ++ [7, 8, 9, 10]) 3 (by decide)
      (by decide)).2 (by decide) (by decide) (by decide)).1⟩

/-- C8: `parseBinaryPacket` is total (it returns a result for every version and every
frame, never reading a header field outside the buffer), and the result is empty for
every frame shorter than the header (16 bytes for version 2, 4 bytes for version 3)
and for every frame whose declared payload length is zero or, for version 2, greater
than 1048576. -/
theorem C8_parse_total_and_rejects (version : Int) (data : QByteArray) :
    (∃ r, parseBinaryPacket version data = some r) ∧
    (version = 2 → data.length < 16 → parseBinaryPacket version data = some []) ∧
    (version = 3 → data.length < 4 → parseBinaryPacket version data = some []) ∧
    (version = 2 ∨ version = 3 → declaredPayloadLength version data = some 0 →
      parseBinaryPacket version data = some []) ∧
    (version = 2 → ∀ L, declaredPayloadLength version data = some L → L > 1048576 →
      parseBinaryPacket version data = some []) := by
  refine ⟨?_, ?_, ?_, ?_, ?_⟩
  · by_cases h2 : version = 2
    · subst h2
      by_cases hlen : data.length < 16
      · exact ⟨[], by simp [parseBinaryPacket, sizeofBinaryProtocol2, hlen]⟩
      · obtain ⟨L, hL⟩ := readBE32_isSome data 12 (by omega)
        rw [parse_v2_of_declared data L hL (by omega)]
        split
        · exact ⟨_, rfl⟩
        · split <;> exact ⟨_, rfl⟩
    · by_cases h3 : version = 3
      · subst h3
        by_cases hlen : data.length < 4
        · exact ⟨[], by simp [parseBinaryPacket, sizeofBinaryProtocol3, hlen]⟩
        · obtain ⟨L, hL⟩ := readBE16_isSome data 2 (by omega)
          rw [parse_v3_of_declared data L hL (by omega)]
          split
          · exact ⟨_, rfl⟩
          · split <;> exact ⟨_, rfl⟩
      · exact ⟨data, by simp [parseBinaryPacket, h2, h3]⟩
  · intro hv hlen
    subst hv
    simp [parseBinaryPacket, sizeofBinaryProtocol2, hlen]
  · intro hv hlen
    subst hv
    simp [parseBinaryPacket, sizeofBinaryProtocol3, hlen]
  · intro hv hdecl
    rw [parse_of_declared version data 0 hv hdecl]
    simp
  · intro hv L hdecl hbig
    rw [parse_of_declared version data L (Or.inl hv) hdecl]
    subst hv
    have : L = 0 ∨ L > maxPayloadLength 2 := by
      right
      simp [maxPayloadLength]
      omega
    rw [if_pos this]

/-- Witness for C8: a 15-byte version 2 frame, a 3-byte version 3 frame, frames
declaring length zero, and a version 2 frame declaring 1048577 bytes. -/
theorem C8_parse_total_and_rejects_witness :
    parseBinaryPacket 2 (List.replicate 15 1) = some [] ∧
    parseBinaryPacket 3 [0, 0, 1] = some [] ∧
    parseBinaryPacket 3 (v3Header 0 ++ [7]) = some [] ∧
    parseBinaryPacket 2 (v2Header 5 1048577 ++ [7]) = some [] :=
  ⟨(C8_parse_total_and_rejects 2 (List.replicate 15 1)).2.1 (by decide) (by decide),
   (C8_parse_total_and_rejects 3 [0, 0, 1]).2.2.1 (by decide) (by decide),
   (C8_parse_total_and_rejects 3 (v3Header 0 ++ [7])).2.2.2.1 (by decide) (by decide),
   (C8_parse_total_and_rejects 2 (v2Header 5 1048577 ++ [7])).2.2.2.2 (by decide) 1048577
     (by decide) (by decide)⟩

end network
end xiaozhi

namespace xiaozhi
namespace network

/-! ## Claims on MQTT port and encryption negotiation -/

/-- With a port in the endpoint and a cached mode for it, `connectToMqtt` makes exactly
one attempt, with the cached mode; when that attempt fails, the only signal raised is
`errorOccurred` and the cache is left as it was. -/
theorem connect_cached (net : Network) (w : MqttWorker) (s : utils.Config)
    (config : MqttConfig) (m : Bool)
    (hport : QString.contains config.endpoint ':' = true)
    (hc : s.mqttPortCache (endpointPort config.endpoint) = some m) :
    (MqttWorker.connectToMqtt net { worker := w, settings := s } config).attempts
      = [{ host := endpointHost config.endpoint, port := endpointPort config.endpoint,
           useSSL := m }] ∧
    (net 0 { host := endpointHost config.endpoint, port := endpointPort config.endpoint,
             useSSL := m } = false →
      (MqttWorker.connectToMqtt net { worker := w, settings := s } config).events
        = [MqttEvent.errorOccurred ("MQTT连接失败: 无法连接到".toList
            ++ endpointHost config.endpoint ++ ":".toList
            ++ (toString (endpointPort config.endpoint)).toList)]) := by
  unfold MqttWorker.connectToMqtt
  unfold endpointHost endpointPort at *
  simp only [hport, Bool.not_true, Bool.false_eq_true, if_false, if_true]
  generalize QString.toInt ((QString.split ':' config.endpoint).getD 1 []) = p at hc ⊢
  generalize (QString.split ':' config.endpoint).getD 0 [] = h
  have hhas : s.hasMqttPortProtocol p = true := by
    unfold utils.Config.hasMqttPortProtocol
    rw [hc]
    rfl
  have hget : s.getMqttPortProtocol p = m := by
    unfold utils.Config.getMqttPortProtocol
    rw [hc]
    rfl
  simp only [hhas, hget, if_true, Bool.and_false, Bool.false_eq_true, if_false]
  by_cases hnet : net 0 { host := h, port := p, useSSL := m } = true
  · simp [MqttWorker.tryConnect, hnet]
  · simp [MqttWorker.tryConnect, hnet]


theorem tryConnect_spec (net : Network) (r : MqttRun) (host : QString) (port : Int)
    (useSSL : Bool) :
    ∃ r1, MqttWorker.tryConnect net r host port useSSL
        = (net r.attempts.length { host := host, port := port, useSSL := useSSL }, r1) ∧
      r1.attempts = r.attempts ++ [{ host := host, port := port, useSSL := useSSL }] ∧
      r1.settings = r.settings := by
  unfold MqttWorker.tryConnect
  simp only []
  generalize net r.attempts.length { host := host, port := port, useSSL := useSSL } = b
  cases b with
  | true =>
    simp only [if_true]
    exact ⟨_, rfl, rfl, rfl⟩
  | false =>
    simp only [Bool.false_eq_true, if_false]
    exact ⟨_, rfl, rfl, rfl⟩

/-- When the cache records TLS for port 8883, no run of `connectToMqtt` makes a
plaintext attempt on port 8883. -/
theorem connect_no_plaintext_8883 (net : Network) (w : MqttWorker) (s : utils.Config)
    (config : MqttConfig) (hc : s.mqttPortCache 8883 = some true) :
    ∀ a ∈ (MqttWorker.connectToMqtt net { worker := w, settings := s } config).attempts,
      a.port = 8883 → a.useSSL = true := by
  have hhas : s.hasMqttPortProtocol 8883 = true := by
    unfold utils.Config.hasMqttPortProtocol
    rw [hc]
    rfl
  have hget : s.getMqttPortProtocol 8883 = true := by
    unfold utils.Config.getMqttPortProtocol
    rw [hc]
    rfl
  by_cases hport : QString.contains config.endpoint ':' = true
  · by_cases hp : endpointPort config.endpoint = 8883
    · rw [(connect_cached net w s config true hport (by rw [hp]; exact hc)).1]
      intro a ha _
      simp only [List.mem_singleton] at ha
      rw [ha]
    · unfold MqttWorker.connectToMqtt
      unfold endpointPort at hp
      simp only [hport, Bool.not_true, Bool.false_eq_true, if_false, if_true]
      generalize QString.toInt ((QString.split ':' config.endpoint).getD 1 []) = p at hp ⊢
      generalize (QString.split ':' config.endpoint).getD 0 [] = h
      generalize (if s.hasMqttPortProtocol p = true then (s.getMqttPortProtocol p, false)
        else if p ≥ 8000 ∧ p < 9000 then (true, true)
        else if p ≥ 1000 ∧ p < 2000 then (false, true) else (true, true)) = choice
      rcases choice with ⟨m0, alt⟩
      simp only []
      obtain ⟨r1, e1, ha1, -⟩ := tryConnect_spec net
        { worker := { w with m_config := config }, settings := s } h p m0
      rw [e1]
      simp only []
      intro a ha hap
      exfalso
      apply hp
      rw [← hap]
      clear hap hp
      by_cases hcond : (!net 0 { host := h, port := p, useSSL := m0 } && alt) = true
      · simp only [List.length_nil] at ha
        rw [if_pos hcond] at ha
        obtain ⟨r2, e2, ha2, -⟩ := tryConnect_spec net r1 h p (!m0)
        rw [e2] at ha
        simp only [] at ha
        have hin : a ∈ r2.attempts := by
          split at ha <;> exact ha
        rw [ha2, ha1] at hin
        simp only [List.nil_append, List.mem_append, List.mem_singleton] at hin
        rcases hin with hin | hin <;> rw [hin]
      · simp only [List.length_nil] at ha
        rw [if_neg hcond] at ha
        simp only [] at ha
        have hin : a ∈ r1.attempts := by
          split at ha <;> exact ha
        rw [ha1] at hin
        simp only [List.nil_append, List.mem_singleton] at hin
        rw [hin]
  · have hport' : QString.contains config.endpoint ':' = false := by
      simpa using hport
    unfold MqttWorker.connectToMqtt
    simp only [hport', Bool.not_false, if_true, hhas, hget, if_false, Bool.false_eq_true]
    obtain ⟨r1, e1, ha1, hs1⟩ := tryConnect_spec net
      { worker := { w with m_config := config }, settings := s } config.endpoint 8883 true
    rw [e1]
    simp only []
    intro a ha hap
    by_cases hn1 : net 0 { host := config.endpoint, port := 8883, useSSL := true } = true
    · simp only [List.length_nil, hn1, if_true] at ha
      rw [ha1] at ha
      simp only [List.nil_append, List.mem_singleton] at ha
      rw [ha]
    · simp only [List.length_nil, hn1, if_false, Bool.false_eq_true] at ha
      -- second stage: the cached decision for 1883
      have stage2 : ∃ d2 r2, (if r1.settings.hasMqttPortProtocol 1883 = true then
            MqttWorker.tryConnect net r1 config.endpoint 1883
              (r1.settings.getMqttPortProtocol 1883)
          else (false, r1)) = (d2, r2) ∧
          (∀ b ∈ r2.attempts, b.port = 8883 → b.useSSL = true) := by
        by_cases h1883 : r1.settings.hasMqttPortProtocol 1883 = true
        · rw [if_pos h1883]
          obtain ⟨r2, e2, ha2, -⟩ := tryConnect_spec net r1 config.endpoint 1883
            (r1.settings.getMqttPortProtocol 1883)
          refine ⟨_, r2, e2, ?_⟩
          intro b hb hbp
          rw [ha2, ha1] at hb
          simp only [List.nil_append, List.mem_append, List.mem_singleton] at hb
          rcases hb with hb | hb
          · rw [hb]
          · rw [hb] at hbp
            simp at hbp
        · rw [if_neg h1883]
          refine ⟨false, r1, rfl, ?_⟩
          intro b hb _
          rw [ha1] at hb
          simp only [List.nil_append, List.mem_singleton] at hb
          rw [hb]
      obtain ⟨d2, r2, e2, hr2⟩ := stage2
      rw [e2] at ha
      simp only [] at ha
      cases d2 with
      | true =>
        simp only [if_true] at ha
        exact hr2 a ha hap
      | false =>
        simp only [Bool.false_eq_true, if_false] at ha
        obtain ⟨r3, e3, ha3, -⟩ := tryConnect_spec net r2 config.endpoint 8883 true
        rw [e3] at ha
        simp only [] at ha
        have hr3 : ∀ b ∈ r3.attempts, b.port = 8883 → b.useSSL = true := by
          intro b hb hbp
          rw [ha3] at hb
          simp only [List.mem_append, List.mem_singleton] at hb
          rcases hb with hb | hb
          · exact hr2 b hb hbp
          · rw [hb]
        by_cases hn3 : net r2.attempts.length
            { host := config.endpoint, port := 8883, useSSL := true } = true
        · simp only [hn3, if_true] at ha
          exact hr3 a ha hap
        · simp only [hn3, if_false, Bool.false_eq_true] at ha
          obtain ⟨r4, e4, ha4, -⟩ := tryConnect_spec net r3 config.endpoint 1883 false
          rw [e4] at ha
          simp only [] at ha
          have hin : a ∈ r4.attempts := by
            split at ha <;> exact ha
          rw [ha4] at hin
          simp only [List.mem_append, List.mem_singleton] at hin
          rcases hin with hin | hin
          · exact hr3 a hin hap
          · rw [hin] at hap
            simp at hap


/-- C9: when the port/protocol cache records TLS for port 8883, a run of
`connectToMqtt` makes no plaintext attempt on port 8883, whatever the endpoint and
whatever the outcome of any attempt; for an endpoint `host:8883` the run consists of
the single TLS attempt on `host`, port 8883. -/
theorem C9_tls_cached_8883_no_plaintext (net : Network) (w : MqttWorker) (s : utils.Config)
    (config : MqttConfig) (hc : s.mqttPortCache 8883 = some true) :
    (∀ a ∈ (MqttWorker.connectToMqtt net { worker := w, settings := s } config).attempts,
      a.port = 8883 → a.useSSL = true) ∧
    (QString.contains config.endpoint ':' = true → endpointPort config.endpoint = 8883 →
      (MqttWorker.connectToMqtt net { worker := w, settings := s } config).attempts
        = [{ host := endpointHost config.endpoint, port := 8883, useSSL := true }]) := by
  refine ⟨connect_no_plaintext_8883 net w s config hc, ?_⟩
  intro hport hp
  have h := (connect_cached net w s config true hport (by rw [hp]; exact hc)).1
  rw [hp] at h
  exact h

/-- Witness for C9: a first run to `host:8883` against a broker that accepts TLS
caches TLS for 8883; a later run with that cache against a broker that refuses
everything makes the single attempt TLS on 8883. -/
theorem C9_tls_cached_8883_no_plaintext_witness :
    (MqttWorker.connectToMqtt Network.tlsOnly {} sampleMqttConfig).settings.mqttPortCache 8883
      = some true ∧
    (MqttWorker.connectToMqtt Network.refuseAll
        { worker := {},
          settings := (MqttWorker.connectToMqtt Network.tlsOnly {} sampleMqttConfig).settings }
        sampleMqttConfig).attempts
      = [{ host := endpointHost sampleMqttConfig.endpoint, port := 8883, useSSL := true }] :=
  ⟨by decide,
   (C9_tls_cached_8883_no_plaintext Network.refuseAll {}
      (MqttWorker.connectToMqtt Network.tlsOnly {} sampleMqttConfig).settings sampleMqttConfig
      (by decide)).2 (by decide) (by decide)⟩

/-- C10 (as stated, refuted): the endpoint `host:8883` specifies port 8883, the cache
holds TLS for 8883 and the broker refuses every connection.  The run makes the one
TLS attempt and reports the failure; no second attempt with plaintext is made. -/
theorem C10_counterexample :
    QString.contains sampleMqttConfig.endpoint ':' = true ∧
    endpointPort sampleMqttConfig.endpoint = 8883 ∧
    tls8883.mqttPortCache 8883 = some true ∧
    (MqttWorker.connectToMqtt Network.refuseAll { settings := tls8883 }
        sampleMqttConfig).attempts
      = [{ host := "host".toList, port := 8883, useSSL := true }] ∧
    (MqttWorker.connectToMqtt Network.refuseAll { settings := tls8883 }
        sampleMqttConfig).events
      = [MqttEvent.errorOccurred "MQTT连接失败: 无法连接到host:8883".toList] := by
  decide

/-- C10 (amended): for every endpoint that specifies a port `p` for which the cache
holds an encryption mode, the first attempt uses the cached mode on port `p` and it is
the only attempt of the run; if it fails, the connection failure is reported without
a second attempt in the other mode. -/
theorem C10_cached_mode_single_attempt (net : Network) (w : MqttWorker) (s : utils.Config)
    (config : MqttConfig) (m : Bool)
    (hport : QString.contains config.endpoint ':' = true)
    (hc : s.mqttPortCache (endpointPort config.endpoint) = some m) :
    (MqttWorker.connectToMqtt net { worker := w, settings := s } config).attempts
      = [{ host := endpointHost config.endpoint, port := endpointPort config.endpoint,
           useSSL := m }] ∧
    (net 0 { host := endpointHost config.endpoint, port := endpointPort config.endpoint,
             useSSL := m } = false →
      (MqttWorker.connectToMqtt net { worker := w, settings := s } config).events
        = [MqttEvent.errorOccurred ("MQTT连接失败: 无法连接到".toList
            ++ endpointHost config.endpoint ++ ":".toList
            ++ (toString (endpointPort config.endpoint)).toList)]) :=
  connect_cached net w s config m hport hc

/-- Witness for C10 (amended): endpoint `host:1883` with plaintext cached for 1883 and
a broker that accepts TLS only. -/
theorem C10_cached_mode_single_attempt_witness :
    (MqttWorker.connectToMqtt Network.tlsOnly
        { worker := {}, settings := utils.Config.setMqttPortProtocol utils.Config.empty 1883 false }
        { endpoint := "host:1883".toList, client_id := "client".toList }).attempts
      = [{ host := endpointHost "host:1883".toList, port := endpointPort "host:1883".toList,
           useSSL := false }] :=
  (C10_cached_mode_single_attempt Network.tlsOnly {}
    (utils.Config.setMqttPortProtocol utils.Config.empty 1883 false)
    { endpoint := "host:1883".toList, client_id := "client".toList } false
    (by decide) (by decide)).1

end network
end xiaozhi

namespace xiaozhi
namespace network

/-! ## Claims on the negotiation without a port -/

/-- The run of `connectToMqtt` for an endpoint without a port when the cache holds no
entry for 8883 and 1883, by the outcome of the two attempts. -/
theorem connect_no_port_no_cache (net : Network) (w : MqttWorker) (s : utils.Config)
    (config : MqttConfig) (b1 b2 : Bool)
    (hport : QString.contains config.endpoint ':' = false)
    (h8883 : s.mqttPortCache 8883 = none) (h1883 : s.mqttPortCache 1883 = none)
    (hb1 : net 0 { host := config.endpoint, port := 8883, useSSL := true } = b1)
    (hb2 : net 1 { host := config.endpoint, port := 1883, useSSL := false } = b2) :
    (MqttWorker.connectToMqtt net { worker := w, settings := s } config).attempts
      = (if b1 then [{ host := config.endpoint, port := 8883, useSSL := true }]
         else [{ host := config.endpoint, port := 8883, useSSL := true },
               { host := config.endpoint, port := 1883, useSSL := false }]) ∧
    (MqttWorker.connectToMqtt net { worker := w, settings := s } config).events
      = (if b1 then [MqttEvent.connected]
         else if b2 then [MqttEvent.connected]
         else [MqttEvent.errorOccurred ("MQTT连接失败: 无法连接到".toList ++ config.endpoint
                ++ " (尝试了8883和1883端口)".toList)]) ∧
    (MqttWorker.connectToMqtt net { worker := w, settings := s } config).settings.mqttPortCache
      = (if b1 then (s.setMqttPortProtocol 8883 true).mqttPortCache
         else if b2 then (s.setMqttPortProtocol 1883 false).mqttPortCache
         else s.mqttPortCache) := by
  have hh1 : s.hasMqttPortProtocol 8883 = false := by
    unfold utils.Config.hasMqttPortProtocol
    rw [h8883]
    rfl
  have hh2 : s.hasMqttPortProtocol 1883 = false := by
    unfold utils.Config.hasMqttPortProtocol
    rw [h1883]
    rfl
  unfold MqttWorker.connectToMqtt
  simp only [hport, Bool.not_false, if_true, hh1, hh2, Bool.false_eq_true, if_false]
  cases b1 with
  | true =>
    simp [MqttWorker.tryConnect, hb1]
  | false =>
    cases b2 with
    | true => simp [MqttWorker.tryConnect, hb1, hb2]
    | false => simp [MqttWorker.tryConnect, hb1, hb2]


/-- C11: for every endpoint without a port and a cache holding no entry for 8883 or
1883, `connectToMqtt` attempts (8883, TLS) first and (1883, plaintext) only if the
first attempt fails; it stops at the first success, caching that port's mode, and
raises `errorOccurred` if and only if both attempts fail. -/
theorem C11_no_port_secure_first (net : Network) (w : MqttWorker) (s : utils.Config)
    (config : MqttConfig)
    (hport : QString.contains config.endpoint ':' = false)
    (h8883 : s.mqttPortCache 8883 = none) (h1883 : s.mqttPortCache 1883 = none) :
    ((MqttWorker.connectToMqtt net { worker := w, settings := s } config).attempts.head?
      = some { host := config.endpoint, port := 8883, useSSL := true }) ∧
    (net 0 { host := config.endpoint, port := 8883, useSSL := true } = true →
      (MqttWorker.connectToMqtt net { worker := w, settings := s } config).attempts
        = [{ host := config.endpoint, port := 8883, useSSL := true }] ∧
      (MqttWorker.connectToMqtt net { worker := w, settings := s } config).settings.mqttPortCache
        8883 = some true ∧
      (MqttWorker.connectToMqtt net { worker := w, settings := s } config).events
        = [MqttEvent.connected]) ∧
    (net 0 { host := config.endpoint, port := 8883, useSSL := true } = false →
      (MqttWorker.connectToMqtt net { worker := w, settings := s } config).attempts
        = [{ host := config.endpoint, port := 8883, useSSL := true },
           { host := config.endpoint, port := 1883, useSSL := false }]) ∧
    (net 0 { host := config.endpoint, port := 8883, useSSL := true } = false →
      net 1 { host := config.endpoint, port := 1883, useSSL := false } = true →
      (MqttWorker.connectToMqtt net { worker := w, settings := s } config).settings.mqttPortCache
        1883 = some false ∧
      (MqttWorker.connectToMqtt net { worker := w, settings := s } config).events
        = [MqttEvent.connected]) ∧
    ((∃ e, MqttEvent.errorOccurred e ∈
        (MqttWorker.connectToMqtt net { worker := w, settings := s } config).events) ↔
      (net 0 { host := config.endpoint, port := 8883, useSSL := true } = false ∧
       net 1 { host := config.endpoint, port := 1883, useSSL := false } = false)) := by
  obtain ⟨hatt, hev, hset⟩ := connect_no_port_no_cache net w s config _ _ hport h8883 h1883
    rfl rfl
  rw [hatt, hev, hset]
  cases net 0 { host := config.endpoint, port := 8883, useSSL := true } <;>
    cases net 1 { host := config.endpoint, port := 1883, useSSL := false } <;>
    simp [utils.Config.setMqttPortProtocol]

/-- Witness for C11: endpoint `host`, empty cache, a broker that accepts plaintext
only: TLS on 8883 fails, plaintext on 1883 succeeds and is cached. -/
theorem C11_no_port_secure_first_witness :
    (MqttWorker.connectToMqtt Network.plainOnly {} noPortMqttConfig).attempts
      = [{ host := "host".toList, port := 8883, useSSL := true },
         { host := "host".toList, port := 1883, useSSL := false }] ∧
    (MqttWorker.connectToMqtt Network.plainOnly {} noPortMqttConfig).settings.mqttPortCache
      1883 = some false :=
  ⟨(C11_no_port_secure_first Network.plainOnly {} utils.Config.empty noPortMqttConfig
      (by decide) (by decide) (by decide)).2.2.1 (by decide),
   ((C11_no_port_secure_first Network.plainOnly {} utils.Config.empty noPortMqttConfig
      (by decide) (by decide) (by decide)).2.2.2.1 (by decide) (by decide)).1⟩

/-! ## Claims on bootstrap resolution -/

/-- C12 (as stated, refuted): the HTTP exchange is error-free and the body is the JSON
object `{}` (no `mqtt`, no `websocket`).  `requestOtaConfig` raises no `errorOccurred`;
it delivers a config, whose `hasMqtt` and `hasWebSocket` are both false. -/
theorem C12_counterexample :
    OtaWorker.requestOtaConfig (fun _ => { document := JsonDocument.object emptyJson })
        { mac_address := "aa:bb".toList } "http://ota".toList
      = [OtaEvent.otaConfigReceived (OtaConfig.fromJson emptyJson)] ∧
    (OtaConfig.fromJson emptyJson).hasMqtt = false ∧
    (OtaConfig.fromJson emptyJson).hasWebSocket = false := by
  decide

theorem fromJson_flags (json : OtaJson) :
    (OtaConfig.fromJson json).hasMqtt = (json.mqtt.map MqttConfig.isValid).getD false ∧
    (OtaConfig.fromJson json).hasWebSocket
      = (json.websocket.map WebSocketConfig.isValid).getD false := by
  unfold OtaConfig.fromJson
  rcases json with ⟨a, m, w, u, b⟩
  cases a <;> cases m <;> cases w <;> cases u <;> cases b <;>
    simp only [] <;> (try split) <;> (try split) <;> (try split) <;> simp_all

/-- C12 (amended): for every error-free HTTP response whose JSON body is an object
containing neither a valid mqtt section nor a valid websocket section,
`requestOtaConfig` raises no `errorOccurred` and delivers the parsed config
(`otaConfigReceived`), in which `hasMqtt` and `hasWebSocket` are both false; the
session that receives this config starts no transport and logs that the server
offered no usable protocol. -/
theorem C12_no_section_config_delivered (server : HttpRequest → HttpReply)
    (deviceInfo : DeviceInfo) (otaUrl : QString) (json : OtaJson) (self : DeviceSession)
    (now : Int)
    (hok : (server (OtaWorker.buildRequest deviceInfo otaUrl)).error = none)
    (hobj : (server (OtaWorker.buildRequest deviceInfo otaUrl)).document
      = JsonDocument.object json)
    (hmqtt : ∀ m, json.mqtt = some m → m.isValid = false)
    (hws : ∀ c, json.websocket = some c → c.isValid = false) :
    OtaWorker.requestOtaConfig server deviceInfo otaUrl
      = [OtaEvent.otaConfigReceived (OtaConfig.fromJson json)] ∧
    (OtaConfig.fromJson json).hasMqtt = false ∧
    (OtaConfig.fromJson json).hasWebSocket = false ∧
    ((self.onOtaConfigReceived (OtaConfig.fromJson json) now).2.any
        SessionEvent.isWebSocketOpen = false) ∧
    ((self.onOtaConfigReceived (OtaConfig.fromJson json) now).2.any
        SessionEvent.isMqttConnect = false) ∧
    (SessionEvent.logMessage self.m_deviceId "服务器未提供任何可用协议".toList
      ∈ (self.onOtaConfigReceived (OtaConfig.fromJson json) now).2) := by
  have hflags := fromJson_flags json
  have h1 : (OtaConfig.fromJson json).hasMqtt = false := by
    rw [hflags.1]
    cases hm : json.mqtt with
    | none => rfl
    | some m => simp [hmqtt m hm]
  have h2 : (OtaConfig.fromJson json).hasWebSocket = false := by
    rw [hflags.2]
    cases hw : json.websocket with
    | none => rfl
    | some c => simp [hws c hw]
  refine ⟨?_, h1, h2, ?_⟩
  · unfold OtaWorker.requestOtaConfig
    simp only [hok, hobj]
  · generalize OtaConfig.fromJson json = c at h1 h2
    unfold DeviceSession.onOtaConfigReceived
    by_cases hact : c.activation.code.isEmpty = true
    · simp [h1, h2, hact, SessionEvent.isWebSocketOpen, SessionEvent.isMqttConnect]
    · simp [h1, h2, hact, SessionEvent.isWebSocketOpen, SessionEvent.isMqttConnect]

/-- Witness for C12 (amended): an error-free reply whose body is `{}`. -/
theorem C12_no_section_config_delivered_witness :
    OtaWorker.requestOtaConfig (fun _ => { document := JsonDocument.object emptyJson })
        { mac_address := "aa:bb".toList } "http://ota".toList
      = [OtaEvent.otaConfigReceived (OtaConfig.fromJson emptyJson)] :=
  (C12_no_section_config_delivered (fun _ => { document := JsonDocument.object emptyJson })
    { mac_address := "aa:bb".toList } "http://ota".toList emptyJson {} 0
    (by decide) (by decide) (by decide) (by decide)).1

end network
end xiaozhi

namespace xiaozhi
namespace audio

/-! ## Claims on OpusCodec -/

theorem resize_length (data : QByteArray) (n : Int) :
    (QByteArray.resize data n).length = n.toNat := by
  unfold QByteArray.resize
  rw [List.length_append, List.length_take, List.length_replicate]
  omega

/-- C13: for an initialised encoder with frame size `f` samples and `c` channels, every
PCM block whose byte length is not exactly `f * c * 2` yields an empty result, the
codec is left as it was, and `opus_encode` is not invoked (the only call is the error
log); `initEncoder(16000, 1, 24000)` gives `f * c * 2 = 1920`. -/
theorem C13_encode_rejects_wrong_size (lib : OpusLib) (codec : OpusCodec)
    (pcm_data : QByteArray) (encoder : OpusEncoder)
    (hinit : codec.encoder_ = some encoder)
    (hsize : (pcm_data.length : Int) ≠ codec.encoder_frame_size_ * codec.encoder_channels_ * 2) :
    (codec.encode lib pcm_data).1 = [] ∧
    (codec.encode lib pcm_data).2.1 = codec ∧
    (∀ pcm f, CodecEvent.opusEncode pcm f ∉ (codec.encode lib pcm_data).2.2) ∧
    (∀ codec0 : OpusCodec, (codec0.initEncoder lib 16000 1 24000).2.2 = true →
      (codec0.initEncoder lib 16000 1 24000).1.encoder_frame_size_
        * (codec0.initEncoder lib 16000 1 24000).1.encoder_channels_ * 2 = 1920) := by
  refine ⟨?_, ?_, ?_, ?_⟩
  · unfold OpusCodec.encode
    simp [hinit, hsize]
  · unfold OpusCodec.encode
    simp [hinit, hsize]
  · intro pcm f
    unfold OpusCodec.encode
    simp [hinit, hsize]
  · intro codec0 h
    unfold OpusCodec.initEncoder at h ⊢
    by_cases h1 : lib.encoderCreate 16000 1 = true
    · by_cases h2 : lib.encoderSetBitrate 16000 1 24000 = true
      · simp [h1, h2, FRAME_DURATION_MS]
        decide
      · simp [h1, h2] at h
    · simp [h1] at h

/-- The codec after `initEncoder(16000, 1, 24000)` and `initDecoder(24000, 1)` on the
sample library. -/
theorem sampleCodec_eq :
    ((OpusCodec.initEncoder sampleOpus {} 16000 1 24000).1.initDecoder sampleOpus 24000 1).1
      = { encoder_ := some { sample_rate := 16000, channels := 1, bitrate := 24000 }
          encoder_sample_rate_ := 16000
          encoder_channels_ := 1
          encoder_frame_size_ := 960
          decoder_ := some { sample_rate := 24000, channels := 1 }
          decoder_sample_rate_ := 24000
          decoder_channels_ := 1
          decoder_frame_size_ := 1440 } := by
  decide

/-- Witness for C13: the 16 kHz mono 60 ms encoder (1920-byte frames) given a block of
3 bytes. -/
theorem C13_encode_rejects_wrong_size_witness :
    (OpusCodec.encode sampleOpus sampleCodec [1, 2, 3]).1 = [] :=
  (C13_encode_rejects_wrong_size sampleOpus sampleCodec [1, 2, 3]
    { sample_rate := 16000, channels := 1, bitrate := 24000 } (by decide) (by decide)).1

/-- C14: `decode` returns (it is a total function and raises nothing): for the empty
input the result is empty and `opus_decode` is not invoked; for every input on which
`opus_decode` reports a negative sample count the result is empty; and when it reports
`decoded_samples >= 0` the result has exactly `decoded_samples * channels * 2` bytes. -/
theorem C14_decode_empty_or_sized (lib : OpusLib) (codec : OpusCodec)
    (opus_data : QByteArray) :
    (opus_data = [] →
      (codec.decode lib opus_data).1 = [] ∧
      (∀ d, CodecEvent.opusDecode d ∉ (codec.decode lib opus_data).2.2)) ∧
    (∀ decoder, codec.decoder_ = some decoder →
      (lib.opusDecode decoder opus_data MAX_FRAME_SIZE).1 < 0 →
      (codec.decode lib opus_data).1 = []) ∧
    (∀ decoder, codec.decoder_ = some decoder → opus_data ≠ [] →
      0 ≤ (lib.opusDecode decoder opus_data MAX_FRAME_SIZE).1 →
      (codec.decode lib opus_data).1.length
        = ((lib.opusDecode decoder opus_data MAX_FRAME_SIZE).1
            * codec.decoder_channels_ * 2).toNat ∧
      (0 ≤ codec.decoder_channels_ →
        ((codec.decode lib opus_data).1.length : Int)
          = (lib.opusDecode decoder opus_data MAX_FRAME_SIZE).1
              * codec.decoder_channels_ * 2)) := by
  refine ⟨?_, ?_, ?_⟩
  · intro he
    subst he
    unfold OpusCodec.decode
    cases hd : codec.decoder_ with
    | none => simp
    | some decoder => simp
  · intro decoder hd hneg
    unfold OpusCodec.decode
    by_cases he : opus_data.isEmpty = true
    · simp [hd, he]
    · simp [hd, he, hneg]
  · intro decoder hd hne hpos
    have he : opus_data.isEmpty = false := by
      cases opus_data with
      | nil => exact absurd rfl hne
      | cons b bs => rfl
    have hnot : ¬ (lib.opusDecode decoder opus_data MAX_FRAME_SIZE).1 < 0 := by omega
    have hlen : (codec.decode lib opus_data).1.length
        = ((lib.opusDecode decoder opus_data MAX_FRAME_SIZE).1
            * codec.decoder_channels_ * 2).toNat := by
      unfold OpusCodec.decode
      simp only [hd, he, Bool.false_eq_true, if_false, hnot]
      exact resize_length _ _
    refine ⟨hlen, ?_⟩
    intro hch
    rw [hlen]
    apply Int.toNat_of_nonneg
    positivity

/-- Witness for C14: on the sample library a packet starting with 255 is reported
corrupt and yields an empty result; the packet `[1, 2, 3]` decodes to 4 samples, 8
bytes. -/
theorem C14_decode_empty_or_sized_witness :
    (OpusCodec.decode sampleOpus sampleCodec [255, 2, 3]).1 = [] ∧
    (OpusCodec.decode sampleOpus sampleCodec [1, 2, 3]).1.length = (4 * 1 * 2 : Int).toNat :=
  ⟨(C14_decode_empty_or_sized sampleOpus sampleCodec [255, 2, 3]).2.1
      { sample_rate := 24000, channels := 1 } (by decide) (by decide),
   ((C14_decode_empty_or_sized sampleOpus sampleCodec [1, 2, 3]).2.2
      { sample_rate := 24000, channels := 1 } (by decide) (by decide) (by decide)).1⟩

end audio
end xiaozhi

namespace xiaozhi
namespace audio

/-! ## Reachable states of the conversation manager -/

theorem setup_fields (lib : OpusLib) (s : ConversationManager) (r c : Int) :
    (ConversationManager.setup lib s r c).1.m_state = s.m_state ∧
    (ConversationManager.setup lib s r c).1.m_isRecording = s.m_isRecording ∧
    (ConversationManager.setup lib s r c).1.m_pcmBuffer = s.m_pcmBuffer ∧
    (ConversationManager.setup lib s r c).1.m_protocolType = s.m_protocolType ∧
    (ConversationManager.setup lib s r c).1.m_mqttManager = s.m_mqttManager ∧
    (ConversationManager.setup lib s r c).1.m_udpManager = s.m_udpManager ∧
    (ConversationManager.setup lib s r c).1.m_websocketManager = s.m_websocketManager := by
  unfold ConversationManager.setup
  exact ⟨rfl, rfl, rfl, rfl, rfl, rfl, rfl⟩

theorem inv_newMqttUdp (lib : OpusLib) (sid : QString) (r c : Int) :
    (ConversationManager.newMqttUdp lib sid r c).1.Inv := by
  unfold ConversationManager.newMqttUdp ConversationManager.Inv ConversationManager.ManagersPresent
  obtain ⟨h1, h2, h3, h4, h5, h6, h7⟩ := setup_fields lib
    { m_protocolType := ProtocolType.MqttUdp, m_mqttManager := true, m_udpManager := true,
      m_websocketManager := false, m_sessionId := sid } r c
  rw [h1, h2, h3, h4, h5, h6, h7]
  simp

theorem inv_newWebSocket (lib : OpusLib) (sid : QString) (r c : Int) (b : Bool) :
    (ConversationManager.newWebSocket lib sid r c b).1.Inv := by
  unfold ConversationManager.newWebSocket ConversationManager.Inv ConversationManager.ManagersPresent
  obtain ⟨h1, h2, h3, h4, h5, h6, h7⟩ := setup_fields lib
    { m_protocolType := ProtocolType.WebSocket, m_mqttManager := false, m_udpManager := false,
      m_websocketManager := true, m_sessionId := sid } r c
  cases b <;> simp only [Bool.false_eq_true, if_false, if_true] <;>
    rw [h1, h2, h3, h4, h7] <;> simp


theorem switchToListening_eq (s : ConversationManager) :
    s.switchToListening =
      ({ s with m_state := ConversationState.Listening },
       if s.m_state ≠ ConversationState.Listening then
         [ConvEvent.stateChanged ConversationState.Listening,
          ConvEvent.loggerInfo "👂 切换到聆听状态"]
       else []) := by
  unfold ConversationManager.switchToListening
  by_cases h : s.m_state = ConversationState.Listening
  · simp only [h, ne_eq, not_true_eq_false, if_false]
    rw [← h]
  · simp only [h, ne_eq, not_false_eq_true, if_true]

theorem switchToIdle_eq (s : ConversationManager) :
    s.switchToIdle =
      ({ s with m_state := ConversationState.Idle },
       if s.m_state ≠ ConversationState.Idle then
         [ConvEvent.stateChanged ConversationState.Idle,
          ConvEvent.loggerInfo "💤 切换到空闲状态"]
       else []) := by
  unfold ConversationManager.switchToIdle
  by_cases h : s.m_state = ConversationState.Idle
  · simp only [h, ne_eq, not_true_eq_false, if_false]
    rw [← h]
  · simp only [h, ne_eq, not_false_eq_true, if_true]

theorem inv_startConversation (s s1 : ConversationManager) (b : Bool) (ev : List ConvEvent)
    (h : s.Inv) (hs : s.startConversation b = some (s1, ev)) : s1.Inv := by
  unfold ConversationManager.startConversation at hs
  simp only [switchToListening_eq] at hs
  unfold ConversationManager.Inv ConversationManager.ManagersPresent at h ⊢
  obtain ⟨i1, i2, i3, i4⟩ := h
  repeat' split at hs
  all_goals simp only [Option.some.injEq, Prod.mk.injEq, reduceCtorEq] at hs
  all_goals (try obtain ⟨rfl, -⟩ := hs)
  all_goals simp_all

theorem inv_stopRecording (s s1 : ConversationManager) (ev : List ConvEvent)
    (h : s.Inv) (hs : s.stopRecording = some (s1, ev)) : s1.Inv := by
  unfold ConversationManager.stopRecording at hs
  simp only [switchToIdle_eq] at hs
  unfold ConversationManager.Inv ConversationManager.ManagersPresent at h ⊢
  obtain ⟨i1, i2, i3, i4⟩ := h
  repeat' split at hs
  all_goals simp only [Option.some.injEq, Prod.mk.injEq, reduceCtorEq] at hs
  all_goals (try obtain ⟨rfl, -⟩ := hs)
  all_goals simp_all


theorem inv_setMode (s : ConversationManager) (mode : ConversationMode) (h : s.Inv) :
    (s.setMode mode).1.Inv := by
  unfold ConversationManager.setMode
  split
  · exact h
  · exact h

theorem inv_abortSpeaking (s s1 : ConversationManager) (ev : List ConvEvent)
    (h : s.Inv) (hs : s.abortSpeaking = some (s1, ev)) : s1.Inv := by
  unfold ConversationManager.abortSpeaking at hs
  simp only [switchToListening_eq] at hs
  unfold ConversationManager.Inv ConversationManager.ManagersPresent at h ⊢
  obtain ⟨i1, i2, i3, i4⟩ := h
  repeat' split at hs
  all_goals simp only [Option.some.injEq, Prod.mk.injEq, reduceCtorEq] at hs
  all_goals (try obtain ⟨rfl, -⟩ := hs)
  all_goals simp_all

theorem inv_closeAudioChannel (s s1 : ConversationManager) (ev : List ConvEvent)
    (h : s.Inv) (hs : s.closeAudioChannel = some (s1, ev)) : s1.Inv := by
  unfold ConversationManager.closeAudioChannel at hs
  cases hst : s.stopRecording with
  | none => simp [hst] at hs
  | some r =>
    obtain ⟨s2, ev2⟩ := r
    have h2 := inv_stopRecording s s2 ev2 h hst
    simp only [hst, switchToIdle_eq] at hs
    unfold ConversationManager.Inv ConversationManager.ManagersPresent at h2 ⊢
    obtain ⟨i1, i2, i3, i4⟩ := h2
    repeat' split at hs
    all_goals simp only [Option.some.injEq, Prod.mk.injEq, reduceCtorEq] at hs
    all_goals (try obtain ⟨rfl, -⟩ := hs)
    all_goals simp_all

theorem inv_receiveDecodedAudio (lib : OpusLib) (s : ConversationManager) (d : QByteArray)
    (h : s.Inv) : (s.receiveDecodedAudio lib d).1.Inv := by
  unfold ConversationManager.receiveDecodedAudio
  unfold ConversationManager.Inv at h ⊢
  simp only []
  repeat' split
  all_goals exact h

theorem encodedFrames_append (a b : List ConvEvent) :
    encodedFrames (a ++ b) = encodedFrames a ++ encodedFrames b := by
  induction a with
  | nil => rfl
  | cons e es ih => cases e <;> simp [encodedFrames, ih]

theorem encodedFrames_codec (cev : List CodecEvent) :
    encodedFrames (cev.map ConvEvent.codec) = [] := by
  induction cev with
  | nil => rfl
  | cons c cs ih => simpa [encodedFrames] using ih

theorem sendEncodedAudio_fields (lib : OpusLib) (s s1 : ConversationManager)
    (pcm : QByteArray) (ev : List ConvEvent) (hs : s.sendEncodedAudio lib pcm = some (s1, ev)) :
    s1.m_state = s.m_state ∧ s1.m_isRecording = s.m_isRecording ∧
    s1.m_protocolType = s.m_protocolType ∧ s1.m_mqttManager = s.m_mqttManager ∧
    s1.m_udpManager = s.m_udpManager ∧ s1.m_websocketManager = s.m_websocketManager ∧
    s1.m_targetFrameSize = s.m_targetFrameSize ∧ s1.m_pcmBuffer = s.m_pcmBuffer ∧
    encodedFrames ev = [pcm] := by
  unfold ConversationManager.sendEncodedAudio at hs
  simp only [] at hs
  repeat' split at hs
  all_goals simp only [Option.some.injEq, Prod.mk.injEq, reduceCtorEq] at hs
  all_goals obtain ⟨rfl, rfl⟩ := hs
  all_goals refine ⟨rfl, rfl, rfl, rfl, rfl, rfl, rfl, rfl, ?_⟩
  all_goals simp [encodedFrames_append, encodedFrames_codec, encodedFrames]

theorem sendEncodedAudio_isSome (lib : OpusLib) (s : ConversationManager) (pcm : QByteArray)
    (h : s.ManagersPresent) : ∃ s1 ev, s.sendEncodedAudio lib pcm = some (s1, ev) := by
  obtain ⟨i3, i4⟩ := h
  unfold ConversationManager.sendEncodedAudio
  simp only []
  by_cases he : (s.m_codec.encode lib pcm).1.isEmpty = true
  · simp only [he, if_true]
    exact ⟨_, _, rfl⟩
  · simp only [he, Bool.false_eq_true, if_false]
    cases hp : s.m_protocolType with
    | MqttUdp =>
      have := (i3 hp).2
      simp only [reduceCtorEq, if_false, this, if_true]
      exact ⟨_, _, rfl⟩
    | WebSocket =>
      have := i4 hp
      simp only [if_true, this]
      exact ⟨_, _, rfl⟩


theorem drainFrames_fields (lib : OpusLib) :
    ∀ (fuel : Nat) (s s1 : ConversationManager) (ev ev1 : List ConvEvent),
      ConversationManager.drainFrames lib fuel s ev = some (s1, ev1) →
      s1.m_state = s.m_state ∧ s1.m_isRecording = s.m_isRecording ∧
      s1.m_protocolType = s.m_protocolType ∧ s1.m_mqttManager = s.m_mqttManager ∧
      s1.m_udpManager = s.m_udpManager ∧ s1.m_websocketManager = s.m_websocketManager ∧
      s1.m_targetFrameSize = s.m_targetFrameSize := by
  intro fuel
  induction fuel with
  | zero =>
    intro s s1 ev ev1 h
    unfold ConversationManager.drainFrames at h
    split at h
    · simp at h
    · simp only [Option.some.injEq, Prod.mk.injEq] at h
      obtain ⟨rfl, -⟩ := h
      exact ⟨rfl, rfl, rfl, rfl, rfl, rfl, rfl⟩
  | succ fuel ih =>
    intro s s1 ev ev1 h
    unfold ConversationManager.drainFrames at h
    split at h
    · simp only [] at h
      split at h
      · simp at h
      · rename_i s2 ev2 hsend
        obtain ⟨a1, a2, a3, a4, a5, a6, a7, -, -⟩ := sendEncodedAudio_fields lib _ s2 _ ev2 hsend
        obtain ⟨b1, b2, b3, b4, b5, b6, b7⟩ := ih s2 s1 _ ev1 h
        exact ⟨by rw [b1, a1], by rw [b2, a2], by rw [b3, a3], by rw [b4, a4], by rw [b5, a5],
          by rw [b6, a6], by rw [b7, a7]⟩
    · simp only [Option.some.injEq, Prod.mk.injEq] at h
      obtain ⟨rfl, -⟩ := h
      exact ⟨rfl, rfl, rfl, rfl, rfl, rfl, rfl⟩

theorem drainFrames_spec (lib : OpusLib) (n : Nat) (hn : 0 < n) :
    ∀ (fuel : Nat) (s : ConversationManager) (ev : List ConvEvent),
      s.m_targetFrameSize = (n : Int) → s.ManagersPresent →
      s.m_pcmBuffer.length / n ≤ fuel →
      ∃ s1 ev1, ConversationManager.drainFrames lib fuel s ev = some (s1, ev ++ ev1) ∧
        (encodedFrames ev1).length = s.m_pcmBuffer.length / n ∧
        (∀ f ∈ encodedFrames ev1, f.length = n) ∧
        (encodedFrames ev1).flatten ++ s1.m_pcmBuffer = s.m_pcmBuffer ∧
        s1.m_pcmBuffer.length = s.m_pcmBuffer.length % n := by
  intro fuel
  induction fuel with
  | zero =>
    intro s ev hF hM hfuel
    have hlt : s.m_pcmBuffer.length < n := by
      have := Nat.div_eq_zero_iff hn |>.mp (Nat.le_zero.mp hfuel)
      exact this
    refine ⟨s, [], ?_, ?_, ?_, ?_, ?_⟩
    · unfold ConversationManager.drainFrames
      rw [hF, if_neg (by omega)]
      simp
    · rw [Nat.div_eq_of_lt hlt]
      rfl
    · intro f hf
      simp [encodedFrames] at hf
    · simp [encodedFrames]
    · rw [Nat.mod_eq_of_lt hlt]
  | succ fuel ih =>
    intro s ev hF hM hfuel
    by_cases hge : n ≤ s.m_pcmBuffer.length
    · obtain ⟨s2, ev2, hsend⟩ := sendEncodedAudio_isSome lib
        { s with m_pcmBuffer := s.m_pcmBuffer.drop n } (s.m_pcmBuffer.take n) hM
      obtain ⟨a1, a2, a3, a4, a5, a6, a7, a8, a9⟩ :=
        sendEncodedAudio_fields lib _ s2 _ ev2 hsend
      have hM2 : s2.ManagersPresent := by
        unfold ConversationManager.ManagersPresent at hM ⊢
        rw [a3, a4, a5, a6]
        exact hM
      have hbuf2 : s2.m_pcmBuffer = s.m_pcmBuffer.drop n := a8
      have hlen2 : s2.m_pcmBuffer.length = s.m_pcmBuffer.length - n := by
        rw [hbuf2, List.length_drop]
      have hdiv : s.m_pcmBuffer.length / n = (s.m_pcmBuffer.length - n) / n + 1 := by
        have := Nat.div_eq_sub_div hn hge
        omega
      obtain ⟨s1, ev1, hrun, c1, c2, c3, c4⟩ := ih s2 (ev ++ ev2) (by rw [a7]; exact hF) hM2
        (by rw [hlen2]; omega)
      refine ⟨s1, ev2 ++ ev1, ?_, ?_, ?_, ?_, ?_⟩
      · unfold ConversationManager.drainFrames
        have hsend1 := hsend
        rw [hF] at hsend1
        rw [hF, if_pos (by omega)]
        simp only [Int.toNat_ofNat]
        rw [hsend1]
        simp only []
        rw [hrun, List.append_assoc]
      · rw [encodedFrames_append, List.length_append, a9, c1, hlen2, hdiv]
        simp
        omega
      · intro f hf
        rw [encodedFrames_append, a9] at hf
        simp only [List.singleton_append, List.mem_cons] at hf
        rcases hf with hf | hf
        · rw [hf, List.length_take]
          omega
        · exact c2 f hf
      · rw [encodedFrames_append, a9]
        simp only [List.singleton_append, List.flatten_cons, List.append_assoc]
        rw [c3, hbuf2, List.take_append_drop]
      · rw [c4, hlen2]
        exact (Nat.mod_eq_sub_mod hge).symm
    · have hlt : s.m_pcmBuffer.length < n := by omega
      refine ⟨s, [], ?_, ?_, ?_, ?_, ?_⟩
      · unfold ConversationManager.drainFrames
        rw [hF, if_neg (by omega)]
        simp
      · rw [Nat.div_eq_of_lt hlt]
        rfl
      · intro f hf
        simp [encodedFrames] at hf
      · simp [encodedFrames]
      · rw [Nat.mod_eq_of_lt hlt]


theorem inv_onAudioReady (lib : OpusLib) (fuel : Nat) (s s1 : ConversationManager)
    (pcm : QByteArray) (ev : List ConvEvent) (h : s.Inv)
    (hs : s.onAudioReady lib fuel pcm = some (s1, ev)) : s1.Inv := by
  unfold ConversationManager.onAudioReady at hs
  split at hs
  · simp only [Option.some.injEq, Prod.mk.injEq] at hs
    obtain ⟨rfl, -⟩ := hs
    exact h
  · rename_i hcond
    obtain ⟨b1, b2, b3, b4, b5, b6, -⟩ := drainFrames_fields lib fuel _ s1 _ ev hs
    simp only [] at b1 b2 b3 b4 b5 b6
    have hrec : s.m_isRecording = true := by
      by_contra hc
      apply hcond
      left
      simp [hc]
    have hst : s.m_state = ConversationState.Listening := by
      by_contra hc
      exact hcond (Or.inr hc)
    unfold ConversationManager.Inv ConversationManager.ManagersPresent at h ⊢
    obtain ⟨-, -, i3, i4⟩ := h
    rw [b1, b2, b3, b4, b5, b6, hrec, hst]
    exact ⟨by simp, by simp, i3, i4⟩

theorem inv_of_fields (s t : ConversationManager) (h : s.Inv)
    (h1 : t.m_state = s.m_state) (h2 : t.m_isRecording = s.m_isRecording)
    (h3 : t.m_pcmBuffer = s.m_pcmBuffer) (h4 : t.m_protocolType = s.m_protocolType)
    (h5 : t.m_mqttManager = s.m_mqttManager) (h6 : t.m_udpManager = s.m_udpManager)
    (h7 : t.m_websocketManager = s.m_websocketManager) : t.Inv := by
  unfold ConversationManager.Inv ConversationManager.ManagersPresent at h ⊢
  rw [h1, h2, h3, h4, h5, h6, h7]
  exact h

theorem inv_switchToSpeaking (s : ConversationManager) (h : s.Inv) :
    s.switchToSpeaking.1.Inv := by
  unfold ConversationManager.switchToSpeaking
  unfold ConversationManager.Inv ConversationManager.ManagersPresent at h ⊢
  obtain ⟨i1, i2, i3, i4⟩ := h
  by_cases hst : s.m_state = ConversationState.Speaking
  · rw [if_neg (by simpa using hst)]
    exact ⟨i1, i2, i3, i4⟩
  · rw [if_pos hst]
    by_cases hrec : s.m_isRecording = true
    · rw [if_pos hrec]
      exact ⟨fun _ => rfl, fun _ => rfl, i3, i4⟩
    · rw [if_neg hrec]
      have hrec' : s.m_isRecording = false := by simpa using hrec
      exact ⟨fun _ => hrec', i2, i3, i4⟩

theorem tts_tail (p : ConversationManager × List ConvEvent) (s1 : ConversationManager)
    (ev : List ConvEvent)
    (h : (match p.1.switchToSpeaking with
          | (self, ev1) => some (self, p.2 ++ ev1)) = some (s1, ev)) :
    s1 = p.1.switchToSpeaking.1 := by
  split at h
  rename_i t2 ev2 hsw
  simp only [Option.some.injEq, Prod.mk.injEq] at h
  obtain ⟨rfl, -⟩ := h
  rw [hsw]

theorem inv_onMqttMessageReceived (s s1 : ConversationManager) (m : ControlMessage)
    (now : Int) (b : Bool) (ev : List ConvEvent) (h : s.Inv)
    (hs : s.onMqttMessageReceived m now b = some (s1, ev)) : s1.Inv := by
  unfold ConversationManager.onMqttMessageReceived at hs
  split at hs
  · split at hs <;>
      (simp only [Option.some.injEq, Prod.mk.injEq] at hs; obtain ⟨rfl, -⟩ := hs; exact h)
  · split at hs
    · simp only [] at hs
      split at hs
      · have e := tts_tail (_, _) s1 ev hs
        rw [e]
        apply inv_switchToSpeaking
        exact inv_of_fields s _ h rfl rfl rfl rfl rfl rfl rfl
      · split at hs
        · have e := tts_tail (_, _) s1 ev hs
          rw [e]
          apply inv_switchToSpeaking
          exact inv_of_fields s _ h rfl rfl rfl rfl rfl rfl rfl
        · have e := tts_tail (_, _) s1 ev hs
          rw [e]
          exact inv_switchToSpeaking s h
    · split at hs
      · simp only [Option.some.injEq, Prod.mk.injEq] at hs
        obtain ⟨rfl, -⟩ := hs
        exact h
      · split at hs
        · split at hs
          · -- audio_end
            have hplay : ∀ t : ConversationManager, t.Inv →
                ({ t with m_isPlaying := false } : ConversationManager).Inv := fun t ht => ht
            split at hs
            · rename_i s2 ev2 hpl
              have h2 : s2.Inv := by
                split at hpl
                · simp only [Prod.mk.injEq] at hpl
                  obtain ⟨rfl, -⟩ := hpl
                  exact h
                · simp only [Prod.mk.injEq] at hpl
                  obtain ⟨rfl, -⟩ := hpl
                  exact h
              simp only [switchToListening_eq, switchToIdle_eq] at hs
              have h3 : ({ s2 with m_state := ConversationState.Listening }
                  : ConversationManager).Inv := by
                unfold ConversationManager.Inv ConversationManager.ManagersPresent at h2 ⊢
                obtain ⟨i1, i2, i3, i4⟩ := h2
                exact ⟨by simp, i2, i3, i4⟩
              have h4 : ({ s2 with m_state := ConversationState.Idle }
                  : ConversationManager).Inv := by
                unfold ConversationManager.Inv ConversationManager.ManagersPresent at h2 ⊢
                obtain ⟨i1, i2, i3, i4⟩ := h2
                exact ⟨by simp, i2, i3, i4⟩
              split at hs
              · split at hs
                · split at hs
                  · simp at hs
                  · rename_i s3 ev3 hstart
                    simp only [Option.some.injEq, Prod.mk.injEq] at hs
                    obtain ⟨rfl, -⟩ := hs
                    exact inv_startConversation _ _ _ _ h3 hstart
                · simp only [Option.some.injEq, Prod.mk.injEq] at hs
                  obtain ⟨rfl, -⟩ := hs
                  exact h3
              · simp only [Option.some.injEq, Prod.mk.injEq] at hs
                obtain ⟨rfl, -⟩ := hs
                exact h4
          · simp only [Option.some.injEq, Prod.mk.injEq] at hs
            obtain ⟨rfl, -⟩ := hs
            exact h
        · simp only [Option.some.injEq, Prod.mk.injEq] at hs
          obtain ⟨rfl, -⟩ := hs
          exact h


theorem inv_apply (lib : OpusLib) (s s1 : ConversationManager) (op : ConvOp)
    (ev : List ConvEvent) (h : s.Inv) (hs : s.apply lib op = some (s1, ev)) : s1.Inv := by
  cases op with
  | setMode mode =>
    simp only [ConversationManager.apply, Option.some.injEq] at hs
    have e : s1 = (s.setMode mode).1 := by rw [hs]
    rw [e]
    exact inv_setMode s mode h
  | startConversation b => exact inv_startConversation s s1 b ev h hs
  | stopRecording => exact inv_stopRecording s s1 ev h hs
  | abortSpeaking => exact inv_abortSpeaking s s1 ev h hs
  | closeAudioChannel => exact inv_closeAudioChannel s s1 ev h hs
  | onUdpConnected =>
    simp only [ConversationManager.apply, Option.some.injEq] at hs
    have e : s1 = s.onUdpConnected.1 := by rw [hs]
    rw [e]
    exact inv_of_fields s _ h rfl rfl rfl rfl rfl rfl rfl
  | onUdpAudioReceived d =>
    simp only [ConversationManager.apply, Option.some.injEq] at hs
    have e : s1 = (s.onUdpAudioReceived lib d).1 := by rw [hs]
    rw [e]
    unfold ConversationManager.onUdpAudioReceived
    split
    · exact h
    · exact inv_receiveDecodedAudio lib s d h
  | onAudioReady pcm fuel => exact inv_onAudioReady lib fuel s s1 pcm ev h hs
  | onMqttMessageReceived m now b => exact inv_onMqttMessageReceived s s1 m now b ev h hs
  | onWebSocketConnected =>
    simp only [ConversationManager.apply, Option.some.injEq] at hs
    have e : s1 = s.onWebSocketConnected.1 := by rw [hs]
    rw [e]
    exact inv_of_fields s _ h rfl rfl rfl rfl rfl rfl rfl
  | onWebSocketAudioReceived d =>
    simp only [ConversationManager.apply, Option.some.injEq] at hs
    have e : s1 = (s.onWebSocketAudioReceived lib d).1 := by rw [hs]
    rw [e]
    exact inv_receiveDecodedAudio lib s d h
  | onWebSocketJsonReceived doc now b =>
    simp only [ConversationManager.apply] at hs
    unfold ConversationManager.onWebSocketJsonReceived at hs
    cases doc with
    | none =>
      simp only [Option.some.injEq, Prod.mk.injEq] at hs
      obtain ⟨rfl, -⟩ := hs
      exact h
    | some m => exact inv_onMqttMessageReceived s s1 m now b ev h hs

/-- Every reachable state satisfies the invariant. -/
theorem reachable_inv (lib : OpusLib) (s : ConversationManager)
    (h : ConversationManager.Reachable lib s) : s.Inv := by
  induction h with
  | newMqttUdp sid r c => exact inv_newMqttUdp lib sid r c
  | newWebSocket sid r c b => exact inv_newWebSocket lib sid r c b
  | step s s1 op ev _ hs ih => exact inv_apply lib s s1 op ev ih hs

/-- A run of operations from a reachable state ends in a reachable state. -/
theorem reachable_run (lib : OpusLib) :
    ∀ (ops : List ConvOp) (s s1 : ConversationManager),
      ConversationManager.Reachable lib s → s.run lib ops = some s1 →
      ConversationManager.Reachable lib s1 := by
  intro ops
  induction ops with
  | nil =>
    intro s s1 h hr
    simp only [ConversationManager.run, Option.some.injEq] at hr
    rw [← hr]
    exact h
  | cons op ops ih =>
    intro s s1 h hr
    unfold ConversationManager.run at hr
    split at hr
    · simp at hr
    · rename_i s2 ev2 happ
      exact ih s2 s1 (ConversationManager.Reachable.step s s2 op ev2 h happ) hr

end audio
end xiaozhi

namespace xiaozhi
namespace audio

/-! ## Claims on the receive side of AudioEncryptor -/

theorem ntohl_loadU32_be (buf : QByteArray) (off : Nat)
    (h0 : buf.getD off 0 < 256) (h1 : buf.getD (off + 1) 0 < 256)
    (h2 : buf.getD (off + 2) 0 < 256) (h3 : buf.getD (off + 3) 0 < 256) :
    ntohl_custom (loadU32 buf off)
      = buf.getD off 0 * 2 ^ 24 + buf.getD (off + 1) 0 * 2 ^ 16 + buf.getD (off + 2) 0 * 2 ^ 8
        + buf.getD (off + 3) 0 := by
  unfold ntohl_custom loadU32
  rw [htonl_custom_eq]
  generalize buf.getD off 0 = b0 at *
  generalize buf.getD (off + 1) 0 = b1 at *
  generalize buf.getD (off + 2) 0 = b2 at *
  generalize buf.getD (off + 3) 0 = b3 at *
  have e : b0 + b1 * 2 ^ 8 + b2 * 2 ^ 16 + b3 * 2 ^ 24
      = b3 * 16777216 + b2 * 65536 + b1 * 256 + b0 := by ring
  rw [e]
  obtain ⟨s0, s1, s2, s3⟩ := split32 b3 b2 b1 b0 h3 h2 h1 h0
  norm_num at s0 s1 s2 s3 ⊢
  rw [s0, s1, s2, s3]

theorem getD_lt_of_forall (buf : QByteArray) (i : Nat) (h : ∀ b ∈ buf, b < 256) :
    buf.getD i 0 < 256 := by
  by_cases hi : i < buf.length
  · rw [List.getD_eq_getElem buf 0 hi]
    exact h _ (List.getElem_mem hi)
  · rw [List.getD_eq_default buf 0 (by omega)]
    norm_num

theorem decrypt_accepted (ks : Keystream) (e : AudioEncryptor) (packet : QByteArray)
    (t0 s0 : Nat) (hi : e.m_initialized = true) (hlen : 16 ≤ packet.length)
    (htype : packet.getD 0 0 = 0x01) :
    e.decrypt ks packet t0 s0 =
      { data := evpCtr ks e.m_key (packet.take 16) (packet.drop 16)
        timestamp := ntohl_custom (loadU32 packet 8)
        sequence := ntohl_custom (loadU32 packet 12)
        self := { e with m_remoteSequence := ntohl_custom (loadU32 packet 12) } } := by
  unfold AudioEncryptor.decrypt
  have hl : ¬ packet.length < 16 := by omega
  simp only [hi, Bool.not_true, Bool.false_eq_true, if_false, hl, htype, ne_eq,
    not_true_eq_false]
  have hd : (packet.drop 16).take (packet.length - 16) = packet.drop 16 :=
    List.take_of_length_le (by rw [List.length_drop])
  rw [hd]

theorem decrypt_rejected (ks : Keystream) (e : AudioEncryptor) (packet : QByteArray)
    (t0 s0 : Nat) (h : packet.length < 16 ∨ packet.getD 0 0 ≠ 0x01) :
    (e.decrypt ks packet t0 s0).data = [] ∧ (e.decrypt ks packet t0 s0).self = e := by
  unfold AudioEncryptor.decrypt
  by_cases hi : e.m_initialized = true
  · by_cases hl : packet.length < 16
    · simp [hi, hl]
    · rcases h with h | h
      · exact absurd h hl
      · simp only [hi, Bool.not_true, Bool.false_eq_true, if_false, hl]
        rw [if_pos h]
        exact ⟨rfl, rfl⟩
  · simp [hi]

/-- C19: for every initialised encryptor and every packet of `n >= 16` bytes whose type
byte is `0x01`, the result of `decrypt` has exactly `n - 16` bytes and is the CTR
transform of bytes `16..n-1` under the session key with the packet's own first 16
bytes as IV.  The packet is arbitrary, so this holds whatever the payload-length field
in bytes 2-3 says; and every initialised encryptor with the same key gives the same
result, whatever its stored nonce and sequence counters. -/
theorem C19_decrypt_uses_packet_header_as_iv (ks : Keystream) (e : AudioEncryptor)
    (packet : QByteArray) (t0 s0 : Nat) (hi : e.m_initialized = true)
    (hlen : 16 ≤ packet.length) (htype : packet.getD 0 0 = 0x01) :
    (e.decrypt ks packet t0 s0).data
      = evpCtr ks e.m_key (packet.take 16) (packet.drop 16) ∧
    (e.decrypt ks packet t0 s0).data.length = packet.length - 16 ∧
    (∀ (e2 : AudioEncryptor) (t2 s2 : Nat), e2.m_initialized = true → e2.m_key = e.m_key →
      (e2.decrypt ks packet t2 s2).data = (e.decrypt ks packet t0 s0).data) := by
  rw [decrypt_accepted ks e packet t0 s0 hi hlen htype]
  refine ⟨rfl, ?_, ?_⟩
  · simp only [evpCtr]
    rw [ctrXor_length, List.length_drop]
  · intro e2 t2 s2 hi2 hk
    rw [decrypt_accepted ks e2 packet t2 s2 hi2 hlen htype, hk]

/-- Witness for C19: the sample packet (payload-length field zero, three payload
bytes) on the sample encryptor. -/
theorem C19_decrypt_uses_packet_header_as_iv_witness :
    (sampleEncryptor.decrypt sampleKeystream samplePacket 0 0).data.length
      = samplePacket.length - 16 :=
  (C19_decrypt_uses_packet_header_as_iv sampleKeystream sampleEncryptor samplePacket 0 0
    (by decide) (by decide) (by decide)).2.1

/-- C20: `decrypt` returns an empty result and leaves the encryptor, so also its remote
sequence counter, unchanged for every packet shorter than 16 bytes and for every packet
whose type byte is not `0x01`; every packet of at least 16 bytes with type byte `0x01`
is accepted by an initialised encryptor whatever its sequence number and whatever the
counter held before: the payload is transformed and the remote sequence counter
afterwards equals the packet's sequence field. -/
theorem C20_decrypt_rejects_and_tracks_sequence (ks : Keystream) (e : AudioEncryptor)
    (packet : QByteArray) (t0 s0 : Nat) :
    (packet.length < 16 ∨ packet.getD 0 0 ≠ 0x01 →
      (e.decrypt ks packet t0 s0).data = [] ∧
      (e.decrypt ks packet t0 s0).self.m_remoteSequence = e.m_remoteSequence) ∧
    (e.m_initialized = true → 16 ≤ packet.length → packet.getD 0 0 = 0x01 →
      (∀ b ∈ packet, b < 256) →
      (e.decrypt ks packet t0 s0).data
        = evpCtr ks e.m_key (packet.take 16) (packet.drop 16) ∧
      (e.decrypt ks packet t0 s0).self.m_remoteSequence = sequenceField packet ∧
      (e.decrypt ks packet t0 s0).sequence = sequenceField packet) := by
  constructor
  · intro h
    obtain ⟨h1, h2⟩ := decrypt_rejected ks e packet t0 s0 h
    rw [h2]
    exact ⟨h1, rfl⟩
  · intro hi hlen htype hbytes
    rw [decrypt_accepted ks e packet t0 s0 hi hlen htype]
    have hseq : ntohl_custom (loadU32 packet 12) = sequenceField packet := by
      rw [ntohl_loadU32_be packet 12 (getD_lt_of_forall packet _ hbytes)
        (getD_lt_of_forall packet _ hbytes) (getD_lt_of_forall packet _ hbytes)
        (getD_lt_of_forall packet _ hbytes)]
      rfl
    exact ⟨rfl, hseq, hseq⟩

/-- Witness for C20: a 3-byte packet is dropped; the sample packet, sequence 7, is
accepted by an encryptor whose remote counter is 0 (a gap) and the counter becomes 7. -/
theorem C20_decrypt_rejects_and_tracks_sequence_witness :
    (sampleEncryptor.decrypt sampleKeystream [1, 2, 3] 0 0).data = [] ∧
    (sampleEncryptor.decrypt sampleKeystream samplePacket 0 0).self.m_remoteSequence = 7 :=
  ⟨((C20_decrypt_rejects_and_tracks_sequence sampleKeystream sampleEncryptor [1, 2, 3]
      0 0).1 (by decide)).1,
   ((C20_decrypt_rejects_and_tracks_sequence sampleKeystream sampleEncryptor samplePacket
      0 0).2 (by decide) (by decide) (by decide) (by decide)).2.1⟩

end audio
end xiaozhi

namespace xiaozhi
namespace audio

/-! ## Claims on the conversation state machine -/

/-- C15 (the code at the failing input): after the media path opens, a conversation is
started and `system/audio_end` arrives in Manual mode while listening, the manager is
in state Idle with capture still active: the handler switches to Idle without stopping
capture.  This state is reachable, and `stopRecording` is not a no-op in it: capture is
stopped, the recording flag changes and a listen/stop message is sent. -/
theorem C15_idle_with_capture_active :
    sampleManager.run sampleOpus idleRecordingOps = some idleRecordingState ∧
    ConversationManager.Reachable sampleOpus idleRecordingState ∧
    idleRecordingState.m_state = ConversationState.Idle ∧
    idleRecordingState.m_isRecording = true ∧
    idleRecordingState.stopRecording
      = some ({ idleRecordingState with m_isRecording := false },
          [ConvEvent.loggerInfo "⏹️ 停止录音", ConvEvent.deviceStopRecording,
           ConvEvent.isRecordingChanged false,
           ConvEvent.mqttSendStopListening "sid".toList]) :=
  ⟨by decide,
   reachable_run sampleOpus idleRecordingOps sampleManager idleRecordingState
     (ConversationManager.Reachable.newMqttUdp "sid".toList 24000 1) (by decide),
   by decide, by decide, by decide⟩

theorem type_system_ne :
    "system".toList ≠ "stt".toList ∧ "system".toList ≠ "tts".toList ∧
    "system".toList ≠ "llm".toList := by
  decide

theorem type_tts_ne : "tts".toList ≠ "stt".toList := by
  decide

/-- C16: from every reachable state Speaking, on a server message of type `system`
with action `audio_end`, the handler completes and playback is stopped (the device is
told to stop if it was playing, and the playing flag is false).  In Auto mode with the
media path ready and capture starting successfully the resulting state is Listening
with recording active, capture started on the device and a listen/start message
carrying mode `auto` handed to the active transport, with no user action; in Manual
mode the resulting state is Idle. -/
theorem C16_audio_end_from_speaking (lib : OpusLib) (s : ConversationManager)
    (message : ControlMessage) (now : Int) (captureOk : Bool)
    (hreach : ConversationManager.Reachable lib s)
    (hstate : s.m_state = ConversationState.Speaking)
    (htype : message.type = "system".toList)
    (haction : message.action = "audio_end".toList) :
    ∃ s1 ev, s.onMqttMessageReceived message now captureOk = some (s1, ev) ∧
      s1.m_isPlaying = false ∧
      (s.m_isPlaying = true → ConvEvent.deviceStopPlayback ∈ ev) ∧
      (s.m_mode = ConversationMode.Auto → s.m_udpChannelOpened = true → captureOk = true →
        s1.m_state = ConversationState.Listening ∧ s1.m_isRecording = true ∧
        ConvEvent.deviceStartRecording ∈ ev ∧
        (if s.m_protocolType = ProtocolType.WebSocket then
           ConvEvent.wsSendStartListening "auto" ∈ ev
         else ConvEvent.mqttSendStartListening s.m_sessionId "auto" ∈ ev)) ∧
      (s.m_mode = ConversationMode.Manual → s1.m_state = ConversationState.Idle) := by
  obtain ⟨i1, -, i3, i4⟩ := reachable_inv lib s hreach
  have hrec : s.m_isRecording = false := i1 hstate
  obtain ⟨n1, n2, n3⟩ := type_system_ne
  unfold ConversationManager.onMqttMessageReceived
  rw [htype, haction]
  simp only [n1, n2, n3, if_false, if_true, switchToListening_eq, switchToIdle_eq]
  unfold ConversationManager.startConversation
  simp only [switchToListening_eq]
  cases hproto : s.m_protocolType with
  | MqttUdp =>
    have hm := (i3 hproto).1
    cases hmode : s.m_mode <;> cases hplay : s.m_isPlaying <;>
      cases hopen : s.m_udpChannelOpened <;> cases captureOk <;>
      simp [hrec, hproto, hm, hmode, hplay, hopen, modeStr] <;>
      (refine ⟨_, _, ⟨rfl, rfl⟩, ?_⟩; simp [hstate])
  | WebSocket =>
    have hw := i4 hproto
    cases hmode : s.m_mode <;> cases hplay : s.m_isPlaying <;>
      cases hopen : s.m_udpChannelOpened <;> cases captureOk <;>
      simp [hrec, hproto, hw, hmode, hplay, hopen, modeStr] <;>
      (refine ⟨_, _, ⟨rfl, rfl⟩, ?_⟩; simp [hstate])


theorem speakingState_reachable : ConversationManager.Reachable sampleOpus speakingState :=
  reachable_run sampleOpus speakingOps sampleManager speakingState
    (ConversationManager.Reachable.newMqttUdp "sid".toList 24000 1) rfl

theorem listeningState_reachable : ConversationManager.Reachable sampleOpus listeningState :=
  reachable_run sampleOpus listeningOps sampleManager listeningState
    (ConversationManager.Reachable.newMqttUdp "sid".toList 24000 1) rfl

/-- Witness for C16: a Speaking state with playback active, reached by opening the
media path, starting a conversation, a `tts` start and one audio packet; the mode is
Manual, so `audio_end` leads to Idle with playback stopped. -/
theorem C16_audio_end_from_speaking_witness :
    speakingState.m_state = ConversationState.Speaking ∧
    speakingState.m_isPlaying = true ∧
    ∃ s1 ev, speakingState.onMqttMessageReceived audioEndMessage 9 true = some (s1, ev) ∧
      s1.m_isPlaying = false ∧ s1.m_state = ConversationState.Idle :=
  ⟨by decide, by decide,
   let ⟨s1, ev, h, hp, _, _, hm⟩ :=
     C16_audio_end_from_speaking sampleOpus speakingState audioEndMessage 9 true
       speakingState_reachable (by decide) (by decide) (by decide)
   ⟨s1, ev, h, hp, hm (by decide)⟩⟩

/-- C17: from every reachable state Idle or Listening, on a server `tts` message with
state `start`, the handler completes and the resulting state is Speaking; recording is
stopped (the device is told to stop if it was capturing) and the capture buffer is
empty; the media-path flag is unchanged and the transport is not disconnected; the
per-segment PCM accumulator is empty with accumulation enabled and tagged with the
message's text; and the decoder state is reset (`resetDecoderState` is called, and a
decoder that exists has an empty history afterwards). -/
theorem C17_tts_start_enters_speaking (lib : OpusLib) (s : ConversationManager)
    (message : ControlMessage) (now : Int) (captureOk : Bool)
    (hreach : ConversationManager.Reachable lib s)
    (hstate : s.m_state = ConversationState.Idle ∨ s.m_state = ConversationState.Listening)
    (htype : message.type = "tts".toList)
    (hstart : message.state = "start".toList) :
    ∃ s1 ev, s.onMqttMessageReceived message now captureOk = some (s1, ev) ∧
      s1.m_state = ConversationState.Speaking ∧
      s1.m_isRecording = false ∧
      (s.m_isRecording = true → ConvEvent.deviceStopRecording ∈ ev) ∧
      s1.m_pcmBuffer = [] ∧
      s1.m_udpChannelOpened = s.m_udpChannelOpened ∧
      ConvEvent.udpDisconnect ∉ ev ∧
      s1.m_currentTtsPcm = [] ∧
      s1.m_isTtsAccumulating = true ∧
      s1.m_currentTtsText = message.text ∧
      ConvEvent.codecResetDecoderState ∈ ev ∧
      (∀ d, s1.m_codec.decoder_ = some d → d.history = []) := by
  obtain ⟨-, i2, -, -⟩ := reachable_inv lib s hreach
  have hns : s.m_state ≠ ConversationState.Speaking := by
    rcases hstate with h | h <;> rw [h] <;> decide
  unfold ConversationManager.onMqttMessageReceived
  rw [htype, hstart]
  simp only [type_tts_ne, if_false, if_true, true_or]
  unfold ConversationManager.switchToSpeaking OpusCodec.resetDecoderState
  cases hrec : s.m_isRecording with
  | true =>
    cases hdec : s.m_codec.decoder_ with
    | none =>
      simp only [hns, ne_eq, not_false_eq_true, if_true, hrec, hdec]
      refine ⟨_, _, rfl, ?_⟩
      simp [hdec]
    | some d =>
      simp only [hns, ne_eq, not_false_eq_true, if_true, hrec, hdec]
      refine ⟨_, _, rfl, ?_⟩
      simp
  | false =>
    have hbuf := i2 hrec
    cases hdec : s.m_codec.decoder_ with
    | none =>
      simp only [hns, ne_eq, not_false_eq_true, if_true, hrec, hdec, Bool.false_eq_true,
        if_false]
      refine ⟨_, _, rfl, ?_⟩
      simp [hdec, hbuf, hrec]
    | some d =>
      simp only [hns, ne_eq, not_false_eq_true, if_true, hrec, hdec, Bool.false_eq_true,
        if_false]
      refine ⟨_, _, rfl, ?_⟩
      simp [hbuf, hrec]

/-- Witness for C17: the Listening state reached by opening the media path and
starting a conversation receives `tts`/`start` with text `hi`. -/
theorem C17_tts_start_enters_speaking_witness :
    listeningState.m_state = ConversationState.Listening ∧
    ∃ s1 ev, listeningState.onMqttMessageReceived ttsStartMessage 5 true = some (s1, ev) ∧
      s1.m_state = ConversationState.Speaking ∧ s1.m_isRecording = false :=
  ⟨by decide,
   let ⟨s1, ev, h, h1, h2, _⟩ :=
     C17_tts_start_enters_speaking sampleOpus listeningState ttsStartMessage 5 true
       listeningState_reachable (by decide) (by decide) (by decide)
   ⟨s1, ev, h, h1, h2⟩⟩

/-- C18: while recording in a reachable state Listening with target frame size `F > 0`
and `b` bytes already buffered, for every captured block `d` the loop of `onAudioReady`
finishes (any bound of at least `(b + |d|) / F` iterations suffices); exactly
`(b + |d|) / F` frames of exactly `F` bytes each are handed to the encoder in order,
`(b + |d|) mod F` bytes stay buffered, and the emitted frames followed by the remainder
equal the old buffer followed by `d`. -/
theorem C18_onAudioReady_slices_frames (lib : OpusLib) (s : ConversationManager)
    (pcm_data : QByteArray) (F fuel : Nat)
    (hreach : ConversationManager.Reachable lib s)
    (hrec : s.m_isRecording = true) (hstate : s.m_state = ConversationState.Listening)
    (hF : s.m_targetFrameSize = (F : Int)) (hpos : 0 < F)
    (hfuel : (s.m_pcmBuffer.length + pcm_data.length) / F ≤ fuel) :
    ∃ s1 ev, s.onAudioReady lib fuel pcm_data = some (s1, ev) ∧
      (encodedFrames ev).length = (s.m_pcmBuffer.length + pcm_data.length) / F ∧
      (∀ f ∈ encodedFrames ev, f.length = F) ∧
      s1.m_pcmBuffer.length = (s.m_pcmBuffer.length + pcm_data.length) % F ∧
      (encodedFrames ev).flatten ++ s1.m_pcmBuffer = s.m_pcmBuffer ++ pcm_data := by
  obtain ⟨-, -, hM⟩ := reachable_inv lib s hreach
  obtain ⟨s1, ev1, hrun, c1, c2, c3, c4⟩ := drainFrames_spec lib F hpos fuel
    { s with m_pcmBuffer := s.m_pcmBuffer ++ pcm_data } [] hF hM
    (by simpa [List.length_append] using hfuel)
  refine ⟨s1, ev1, ?_, ?_, c2, ?_, c3⟩
  · unfold ConversationManager.onAudioReady
    rw [if_neg (by simp [hrec, hstate])]
    simpa using hrun
  · simpa [List.length_append] using c1
  · simpa [List.length_append] using c4

/-- Witness for C18: the Listening state with 1920-byte frames receives a 3-byte
block: no frame is complete and the 3 bytes stay buffered. -/
theorem C18_onAudioReady_slices_frames_witness :
    listeningState.m_targetFrameSize = 1920 ∧
    ∃ s1 ev, listeningState.onAudioReady sampleOpus 1 [1, 2, 3] = some (s1, ev) ∧
      (encodedFrames ev).flatten ++ s1.m_pcmBuffer = listeningState.m_pcmBuffer ++ [1, 2, 3] :=
  ⟨by decide,
   let ⟨s1, ev, h, _, _, _, h4⟩ :=
     C18_onAudioReady_slices_frames sampleOpus listeningState [1, 2, 3] 1920 1
       listeningState_reachable (by decide) (by decide) (by decide) (by decide) (by decide)
   ⟨s1, ev, h, h4⟩⟩

end audio
end xiaozhi

namespace xiaozhi
namespace audio

/-! ## Claims on decoder reconfiguration and channel teardown -/

/-- C25: `setDecoderSampleRate(r)`: when a decoder exists and its current sample rate
equals `r`, the call returns false and changes nothing: the codec is as it was and no
library call is made, so the decoder is neither destroyed nor recreated.  Otherwise,
when the recreation succeeds, it returns true, the decoder sample rate is `r`, the
decoder frame size is `r * 60 / 1000` (integer division), a decoder exists and the
channel count is unchanged. -/
theorem C25_setDecoderSampleRate (lib : OpusLib) (codec : OpusCodec) (r : Int) :
    (codec.decoder_.isSome = true → codec.decoder_sample_rate_ = r →
      codec.setDecoderSampleRate lib r = (codec, [], false)) ∧
    (¬ (codec.decoder_.isSome = true ∧ codec.decoder_sample_rate_ = r) →
      lib.decoderCreate r codec.decoder_channels_ = true →
      (codec.setDecoderSampleRate lib r).2.2 = true ∧
      (codec.setDecoderSampleRate lib r).1.decoder_sample_rate_ = r ∧
      (codec.setDecoderSampleRate lib r).1.decoder_frame_size_ = Int.tdiv (r * 60) 1000 ∧
      (codec.setDecoderSampleRate lib r).1.decoder_.isSome = true ∧
      (codec.setDecoderSampleRate lib r).1.decoder_channels_ = codec.decoder_channels_ ∧
      CodecEvent.opusDecoderCreate r codec.decoder_channels_
        ∈ (codec.setDecoderSampleRate lib r).2.1) := by
  constructor
  · intro h1 h2
    unfold OpusCodec.setDecoderSampleRate
    rw [if_pos ⟨h1, h2⟩]
  · intro h1 h2
    unfold OpusCodec.setDecoderSampleRate
    rw [if_neg h1]
    simp [h2, FRAME_DURATION_MS]

/-- Witness for C25: the 24 kHz mono decoder asked for 24000 Hz is left alone; asked
for 16000 Hz it is recreated with a frame size of 960 samples. -/
theorem C25_setDecoderSampleRate_witness :
    sampleCodec.setDecoderSampleRate sampleOpus 24000 = (sampleCodec, [], false) ∧
    (sampleCodec.setDecoderSampleRate sampleOpus 16000).1.decoder_frame_size_ = 960 :=
  ⟨(C25_setDecoderSampleRate sampleOpus sampleCodec 24000).1 (by decide) (by decide),
   by
    have h := ((C25_setDecoderSampleRate sampleOpus sampleCodec 16000).2 (by decide)
      (by decide)).2.2.1
    rw [h]
    decide⟩

/-- C30 (the code at the failing input): for every manager built by the WebSocket
constructor, `closeAudioChannel` does not complete: after `stopRecording` it calls
`disconnect` on the UDP manager, which is null. -/
theorem C30_closeAudioChannel_null_udp (lib : OpusLib) (sessionId : QString)
    (serverSampleRate serverChannels : Int) (wsConnected : Bool) :
    (ConversationManager.newWebSocket lib sessionId serverSampleRate serverChannels
      wsConnected).1.m_udpManager = false ∧
    (ConversationManager.newWebSocket lib sessionId serverSampleRate serverChannels
      wsConnected).1.closeAudioChannel = none := by
  have hf := setup_fields lib
    { m_protocolType := ProtocolType.WebSocket, m_mqttManager := false, m_udpManager := false,
      m_websocketManager := true, m_sessionId := sessionId } serverSampleRate serverChannels
  obtain ⟨h1, h2, h3, h4, h5, h6, h7⟩ := hf
  have hu : (ConversationManager.newWebSocket lib sessionId serverSampleRate serverChannels
      wsConnected).1.m_udpManager = false := by
    unfold ConversationManager.newWebSocket
    cases wsConnected <;> simp only [Bool.false_eq_true, if_false, if_true] <;> rw [h6]
  have hr : (ConversationManager.newWebSocket lib sessionId serverSampleRate serverChannels
      wsConnected).1.m_isRecording = false := by
    unfold ConversationManager.newWebSocket
    cases wsConnected <;> simp only [Bool.false_eq_true, if_false, if_true] <;> rw [h2]
  refine ⟨hu, ?_⟩
  generalize (ConversationManager.newWebSocket lib sessionId serverSampleRate serverChannels
      wsConnected).1 = s at hu hr
  unfold ConversationManager.closeAudioChannel ConversationManager.stopRecording
  simp only [hr, Bool.not_false, if_true]
  by_cases hp : s.m_isPlaying = true
  · simp [hp, hu]
  · simp [hp, hu]

/-! ## Capture and the media path -/

theorem open_startConversation (s s1 : ConversationManager) (b : Bool) (ev : List ConvEvent)
    (h : s.RecordingOpen) (hs : s.startConversation b = some (s1, ev)) : s1.RecordingOpen := by
  unfold ConversationManager.startConversation at hs
  simp only [switchToListening_eq] at hs
  unfold ConversationManager.RecordingOpen at h ⊢
  repeat' split at hs
  all_goals simp only [Option.some.injEq, Prod.mk.injEq, reduceCtorEq] at hs
  all_goals (try obtain ⟨rfl, -⟩ := hs)
  all_goals simp_all

theorem open_stopRecording (s s1 : ConversationManager) (ev : List ConvEvent)
    (hs : s.stopRecording = some (s1, ev)) :
    s1.m_isRecording = false ∧ s1.m_udpChannelOpened = s.m_udpChannelOpened ∧
    s1.m_udpManager = s.m_udpManager := by
  unfold ConversationManager.stopRecording at hs
  simp only [switchToIdle_eq] at hs
  repeat' split at hs
  all_goals simp only [Option.some.injEq, Prod.mk.injEq, reduceCtorEq] at hs
  all_goals (try obtain ⟨rfl, -⟩ := hs)
  all_goals simp_all

theorem open_abortSpeaking (s s1 : ConversationManager) (ev : List ConvEvent)
    (h : s.RecordingOpen) (hs : s.abortSpeaking = some (s1, ev)) : s1.RecordingOpen := by
  unfold ConversationManager.abortSpeaking at hs
  simp only [switchToListening_eq] at hs
  unfold ConversationManager.RecordingOpen at h ⊢
  repeat' split at hs
  all_goals simp only [Option.some.injEq, Prod.mk.injEq, reduceCtorEq] at hs
  all_goals (try obtain ⟨rfl, -⟩ := hs)
  all_goals simp_all

theorem open_closeAudioChannel (s s1 : ConversationManager) (ev : List ConvEvent)
    (hs : s.closeAudioChannel = some (s1, ev)) : s1.RecordingOpen := by
  unfold ConversationManager.closeAudioChannel at hs
  cases hst : s.stopRecording with
  | none => simp [hst] at hs
  | some r =>
    obtain ⟨s2, ev2⟩ := r
    obtain ⟨h2, -, -⟩ := open_stopRecording s s2 ev2 hst
    simp only [hst, switchToIdle_eq] at hs
    unfold ConversationManager.RecordingOpen
    repeat' split at hs
    all_goals simp only [Option.some.injEq, Prod.mk.injEq, reduceCtorEq] at hs
    all_goals (try obtain ⟨rfl, -⟩ := hs)
    all_goals simp_all

theorem open_receiveDecodedAudio (lib : OpusLib) (s : ConversationManager) (d : QByteArray)
    (h : s.RecordingOpen) : (s.receiveDecodedAudio lib d).1.RecordingOpen := by
  unfold ConversationManager.receiveDecodedAudio
  unfold ConversationManager.RecordingOpen at h ⊢
  simp only []
  repeat' split
  all_goals exact h

theorem sendEncodedAudio_opened (lib : OpusLib) (s s1 : ConversationManager)
    (pcm : QByteArray) (ev : List ConvEvent) (hs : s.sendEncodedAudio lib pcm = some (s1, ev)) :
    s1.m_udpChannelOpened = s.m_udpChannelOpened := by
  unfold ConversationManager.sendEncodedAudio at hs
  simp only [] at hs
  repeat' split at hs
  all_goals simp only [Option.some.injEq, Prod.mk.injEq, reduceCtorEq] at hs
  all_goals obtain ⟨rfl, -⟩ := hs
  all_goals rfl

theorem drainFrames_opened (lib : OpusLib) :
    ∀ (fuel : Nat) (s s1 : ConversationManager) (ev ev1 : List ConvEvent),
      ConversationManager.drainFrames lib fuel s ev = some (s1, ev1) →
      s1.m_udpChannelOpened = s.m_udpChannelOpened := by
  intro fuel
  induction fuel with
  | zero =>
    intro s s1 ev ev1 h
    unfold ConversationManager.drainFrames at h
    split at h
    · simp at h
    · simp only [Option.some.injEq, Prod.mk.injEq] at h
      obtain ⟨rfl, -⟩ := h
      rfl
  | succ fuel ih =>
    intro s s1 ev ev1 h
    unfold ConversationManager.drainFrames at h
    split at h
    · simp only [] at h
      split at h
      · simp at h
      · rename_i s2 ev2 hsend
        rw [ih s2 s1 _ ev1 h, sendEncodedAudio_opened lib _ s2 _ ev2 hsend]
    · simp only [Option.some.injEq, Prod.mk.injEq] at h
      obtain ⟨rfl, -⟩ := h
      rfl

theorem open_onAudioReady (lib : OpusLib) (fuel : Nat) (s s1 : ConversationManager)
    (pcm : QByteArray) (ev : List ConvEvent) (h : s.RecordingOpen)
    (hs : s.onAudioReady lib fuel pcm = some (s1, ev)) : s1.RecordingOpen := by
  unfold ConversationManager.onAudioReady at hs
  split at hs
  · simp only [Option.some.injEq, Prod.mk.injEq] at hs
    obtain ⟨rfl, -⟩ := hs
    exact h
  · obtain ⟨-, b2, -⟩ := drainFrames_fields lib fuel _ s1 _ ev hs
    have b3 := drainFrames_opened lib fuel _ s1 _ ev hs
    simp only [] at b2 b3
    unfold ConversationManager.RecordingOpen at h ⊢
    rw [b2, b3]
    exact h

theorem open_of_fields (s t : ConversationManager) (h : s.RecordingOpen)
    (h1 : t.m_isRecording = s.m_isRecording)
    (h2 : t.m_udpChannelOpened = s.m_udpChannelOpened) : t.RecordingOpen := by
  unfold ConversationManager.RecordingOpen at h ⊢
  rw [h1, h2]
  exact h

theorem open_switchToSpeaking (s : ConversationManager) (h : s.RecordingOpen) :
    s.switchToSpeaking.1.RecordingOpen := by
  unfold ConversationManager.switchToSpeaking
  unfold ConversationManager.RecordingOpen at h ⊢
  by_cases hst : s.m_state = ConversationState.Speaking
  · rw [if_neg (by simpa using hst)]
    exact h
  · rw [if_pos hst]
    by_cases hrec : s.m_isRecording = true
    · rw [if_pos hrec]
      intro hc
      simp at hc
    · rw [if_neg hrec]
      exact h

theorem open_onMqttMessageReceived (s s1 : ConversationManager) (m : ControlMessage)
    (now : Int) (b : Bool) (ev : List ConvEvent) (h : s.RecordingOpen)
    (hs : s.onMqttMessageReceived m now b = some (s1, ev)) : s1.RecordingOpen := by
  unfold ConversationManager.onMqttMessageReceived at hs
  split at hs
  · split at hs <;>
      (simp only [Option.some.injEq, Prod.mk.injEq] at hs; obtain ⟨rfl, -⟩ := hs; exact h)
  · split at hs
    · simp only [] at hs
      split at hs
      · have e := tts_tail (_, _) s1 ev hs
        rw [e]
        apply open_switchToSpeaking
        exact open_of_fields s _ h rfl rfl
      · split at hs
        · have e := tts_tail (_, _) s1 ev hs
          rw [e]
          apply open_switchToSpeaking
          exact open_of_fields s _ h rfl rfl
        · have e := tts_tail (_, _) s1 ev hs
          rw [e]
          exact open_switchToSpeaking s h
    · split at hs
      · simp only [Option.some.injEq, Prod.mk.injEq] at hs
        obtain ⟨rfl, -⟩ := hs
        exact h
      · split at hs
        · split at hs
          · split at hs
            · rename_i s2 ev2 hpl
              have h2 : s2.RecordingOpen := by
                split at hpl
                · simp only [Prod.mk.injEq] at hpl
                  obtain ⟨rfl, -⟩ := hpl
                  exact h
                · simp only [Prod.mk.injEq] at hpl
                  obtain ⟨rfl, -⟩ := hpl
                  exact h
              simp only [switchToListening_eq, switchToIdle_eq] at hs
              split at hs
              · split at hs
                · split at hs
                  · simp at hs
                  · rename_i s3 ev3 hstart
                    simp only [Option.some.injEq, Prod.mk.injEq] at hs
                    obtain ⟨rfl, -⟩ := hs
                    have h3 : ({ s2 with m_state := ConversationState.Listening }
                        : ConversationManager).RecordingOpen := open_of_fields s2 _ h2 rfl rfl
                    exact open_startConversation _ _ _ _ h3 hstart
                · simp only [Option.some.injEq, Prod.mk.injEq] at hs
                  obtain ⟨rfl, -⟩ := hs
                  exact open_of_fields s2 _ h2 rfl rfl
              · simp only [Option.some.injEq, Prod.mk.injEq] at hs
                obtain ⟨rfl, -⟩ := hs
                exact open_of_fields s2 _ h2 rfl rfl
          · simp only [Option.some.injEq, Prod.mk.injEq] at hs
            obtain ⟨rfl, -⟩ := hs
            exact h
        · simp only [Option.some.injEq, Prod.mk.injEq] at hs
          obtain ⟨rfl, -⟩ := hs
          exact h

theorem open_apply (lib : OpusLib) (s s1 : ConversationManager) (op : ConvOp)
    (ev : List ConvEvent) (h : s.RecordingOpen) (hs : s.apply lib op = some (s1, ev)) :
    s1.RecordingOpen := by
  cases op with
  | setMode mode =>
    simp only [ConversationManager.apply, Option.some.injEq] at hs
    have e : s1 = (s.setMode mode).1 := by rw [hs]
    rw [e]
    unfold ConversationManager.setMode
    split
    · exact h
    · exact h
  | startConversation b => exact open_startConversation s s1 b ev h hs
  | stopRecording =>
    obtain ⟨h1, -, -⟩ := open_stopRecording s s1 ev hs
    intro hc
    rw [h1] at hc
    simp at hc
  | abortSpeaking => exact open_abortSpeaking s s1 ev h hs
  | closeAudioChannel => exact open_closeAudioChannel s s1 ev hs
  | onUdpConnected =>
    simp only [ConversationManager.apply, Option.some.injEq] at hs
    have e : s1 = s.onUdpConnected.1 := by rw [hs]
    rw [e]
    intro _
    rfl
  | onUdpAudioReceived d =>
    simp only [ConversationManager.apply, Option.some.injEq] at hs
    have e : s1 = (s.onUdpAudioReceived lib d).1 := by rw [hs]
    rw [e]
    unfold ConversationManager.onUdpAudioReceived
    split
    · exact h
    · exact open_receiveDecodedAudio lib s d h
  | onAudioReady pcm fuel => exact open_onAudioReady lib fuel s s1 pcm ev h hs
  | onMqttMessageReceived m now b => exact open_onMqttMessageReceived s s1 m now b ev h hs
  | onWebSocketConnected =>
    simp only [ConversationManager.apply, Option.some.injEq] at hs
    have e : s1 = s.onWebSocketConnected.1 := by rw [hs]
    rw [e]
    intro _
    rfl
  | onWebSocketAudioReceived d =>
    simp only [ConversationManager.apply, Option.some.injEq] at hs
    have e : s1 = (s.onWebSocketAudioReceived lib d).1 := by rw [hs]
    rw [e]
    exact open_receiveDecodedAudio lib s d h
  | onWebSocketJsonReceived doc now b =>
    simp only [ConversationManager.apply] at hs
    unfold ConversationManager.onWebSocketJsonReceived at hs
    cases doc with
    | none =>
      simp only [Option.some.injEq, Prod.mk.injEq] at hs
      obtain ⟨rfl, -⟩ := hs
      exact h
    | some m => exact open_onMqttMessageReceived s s1 m now b ev h hs

/-- In every reachable state capture is only active while the media path is open. -/
theorem reachable_recording_open (lib : OpusLib) (s : ConversationManager)
    (h : ConversationManager.Reachable lib s) : s.RecordingOpen := by
  induction h with
  | newMqttUdp sid r c =>
    intro hc
    have hf := (setup_fields lib
      { m_protocolType := ProtocolType.MqttUdp, m_mqttManager := true, m_udpManager := true,
        m_websocketManager := false, m_sessionId := sid } r c).2.1
    unfold ConversationManager.newMqttUdp at hc
    rw [hf] at hc
    simp at hc
  | newWebSocket sid r c b =>
    intro hc
    have hf := (setup_fields lib
      { m_protocolType := ProtocolType.WebSocket, m_mqttManager := false, m_udpManager := false,
        m_websocketManager := true, m_sessionId := sid } r c).2.1
    unfold ConversationManager.newWebSocket at hc
    cases b <;> simp only [Bool.false_eq_true, if_false, if_true] at hc <;> rw [hf] at hc <;>
      simp at hc
  | step s s1 op ev _ hs ih => exact open_apply lib s s1 op ev ih hs

/-- C23: in every reachable state, whenever the media path is not ready
(`m_udpChannelOpened` false) `startConversation` is rejected: the state is returned
unchanged and the only effects are a warning log and an `errorOccurred` signal, so no
capture is started and no listen message is sent.  When the path is ready, capture is
not already active and the device starts capturing, the result is state Listening with
recording active, and exactly one control message is sent: listen/start on the active
transport carrying the current mode as `manual`, `auto` or `realtime`. -/
theorem C23_startConversation_requires_media_path (lib : OpusLib) (s : ConversationManager)
    (captureOk : Bool) (hreach : ConversationManager.Reachable lib s) :
    (s.m_udpChannelOpened = false →
      s.startConversation captureOk
        = some (s, [ConvEvent.loggerWarn " UDP音频通道尚未建立，请稍候片刻后重试",
                    ConvEvent.errorOccurred "音频通道正在建立中，请稍候片刻后重试"])) ∧
    (s.m_udpChannelOpened = true → s.m_isRecording = false → captureOk = true →
      ∃ s1 ev, s.startConversation captureOk = some (s1, ev) ∧
        s1.m_state = ConversationState.Listening ∧ s1.m_isRecording = true ∧
        ConvEvent.deviceStartRecording ∈ ev ∧
        ev.filter ConvEvent.isControlMessage
          = [if s.m_protocolType = ProtocolType.WebSocket then
               ConvEvent.wsSendStartListening (modeStr s.m_mode)
             else ConvEvent.mqttSendStartListening s.m_sessionId (modeStr s.m_mode)]) ∧
    (modeStr ConversationMode.Manual = "manual" ∧ modeStr ConversationMode.Auto = "auto" ∧
      modeStr ConversationMode.Realtime = "realtime") := by
  have hopen := reachable_recording_open lib s hreach
  obtain ⟨-, -, i3, i4⟩ := reachable_inv lib s hreach
  refine ⟨?_, ?_, ⟨rfl, rfl, rfl⟩⟩
  · intro hclosed
    have hrec : s.m_isRecording = false := by
      cases hr : s.m_isRecording with
      | false => rfl
      | true =>
        have := hopen hr
        rw [hclosed] at this
        exact absurd this (by decide)
    unfold ConversationManager.startConversation
    simp [hrec, hclosed]
  · intro ho hrec hcap
    subst hcap
    unfold ConversationManager.startConversation
    simp only [switchToListening_eq]
    cases hproto : s.m_protocolType with
    | MqttUdp =>
      have hm := (i3 hproto).1
      by_cases hst : s.m_state = ConversationState.Listening
      · simp [hrec, ho, hproto, hm, hst]
        refine ⟨_, _, ⟨rfl, rfl⟩, ?_⟩
        simp [ConvEvent.isControlMessage]
      · simp [hrec, ho, hproto, hm, hst]
        refine ⟨_, _, ⟨rfl, rfl⟩, ?_⟩
        simp [ConvEvent.isControlMessage]
    | WebSocket =>
      have hw := i4 hproto
      by_cases hst : s.m_state = ConversationState.Listening
      · simp [hrec, ho, hproto, hw, hst]
        refine ⟨_, _, ⟨rfl, rfl⟩, ?_⟩
        simp [ConvEvent.isControlMessage]
      · simp [hrec, ho, hproto, hw, hst]
        refine ⟨_, _, ⟨rfl, rfl⟩, ?_⟩
        simp [ConvEvent.isControlMessage]

/-- Witness for C23: the manager right after construction, whose media path is not yet
open, rejects `startConversation` and is unchanged. -/
theorem C23_startConversation_requires_media_path_witness :
    sampleManager.m_udpChannelOpened = false ∧
    sampleManager.startConversation true
      = some (sampleManager, [ConvEvent.loggerWarn " UDP音频通道尚未建立，请稍候片刻后重试",
          ConvEvent.errorOccurred "音频通道正在建立中，请稍候片刻后重试"]) :=
  ⟨by decide,
   (C23_startConversation_requires_media_path sampleOpus sampleManager true
     (ConversationManager.Reachable.newMqttUdp "sid".toList 24000 1)).1 (by decide)⟩

/-! ## The capture loop with a zero frame size -/

theorem drainFrames_zero_frame (lib : OpusLib) :
    ∀ (fuel : Nat) (s : ConversationManager) (ev : List ConvEvent),
      s.m_targetFrameSize = 0 → s.m_codec.encoder_ = none →
      ConversationManager.drainFrames lib fuel s ev = none := by
  intro fuel
  induction fuel with
  | zero =>
    intro s ev hF _
    unfold ConversationManager.drainFrames
    rw [hF, if_pos (by omega)]
  | succ fuel ih =>
    intro s ev hF henc
    have hge : (s.m_pcmBuffer.length : Int) ≥ s.m_targetFrameSize := by
      rw [hF]
      omega
    unfold ConversationManager.drainFrames
    rw [if_pos hge]
    simp only [ConversationManager.sendEncodedAudio, OpusCodec.encode, henc]
    simp only [List.isEmpty_nil, if_true]
    exact ih _ _ hF henc

/-- C29 (the code at the failing input): the manager built while the Opus encoder
cannot be created has target frame size 0; after the media path opens and a
conversation starts it is Listening with capture active, a reachable state; and there
the loop of `onAudioReady` does not finish within any number of iterations, whatever
block is captured. -/
theorem C29_onAudioReady_zero_frame_never_ends :
    noEncoderManager.m_targetFrameSize = 0 ∧
    noEncoderManager.run noEncoderOpus listeningOps = some noEncoderListening ∧
    ConversationManager.Reachable noEncoderOpus noEncoderListening ∧
    ∀ (fuel : Nat) (pcm_data : QByteArray),
      noEncoderListening.onAudioReady noEncoderOpus fuel pcm_data = none := by
  have hrun : noEncoderManager.run noEncoderOpus listeningOps = some noEncoderListening := by
    decide
  refine ⟨by decide, hrun, ?_, ?_⟩
  · exact reachable_run noEncoderOpus listeningOps noEncoderManager noEncoderListening
      (ConversationManager.Reachable.newMqttUdp "sid".toList 24000 1) hrun
  · intro fuel pcm_data
    unfold ConversationManager.onAudioReady
    rw [if_neg (by decide)]
    have hF : noEncoderListening.m_targetFrameSize = 0 := by decide
    have henc : noEncoderListening.m_codec.encoder_ = none := by decide
    exact drainFrames_zero_frame noEncoderOpus fuel _ [] hF henc

end audio
end xiaozhi

namespace xiaozhi
namespace audio

/-! ## Claims on send-side sequence numbers -/

theorem sequenceField_sendHeader (nonce : QByteArray) (len ts seq : Nat) (c : QByteArray) :
    sequenceField (sendHeader nonce len ts seq ++ c) = seq % 2 ^ 32 := by
  unfold sequenceField sendHeader
  simp only [List.cons_append, List.getD_cons_succ, List.getD_cons_zero]
  omega

theorem encrypt_sequence (ks : Keystream) (e : AudioEncryptor) (p : QByteArray) (ts : Nat)
    (h : e.Ready) (hp : p ≠ []) :
    (e.encrypt ks p ts).1 ≠ [] ∧
    sequenceField (e.encrypt ks p ts).1 = (e.m_localSequence + 1) % 2 ^ 32 ∧
    (e.encrypt ks p ts).2.m_localSequence = (e.m_localSequence + 1) % 2 ^ 32 := by
  obtain ⟨hi, _, hn⟩ := h
  rw [encrypt_eq ks e p ts hi hn hp]
  refine ⟨?_, ?_, rfl⟩
  · simp [sendHeader]
  · rw [sequenceField_sendHeader]
    omega

theorem encrypt_rejected (ks : Keystream) (e : AudioEncryptor) (p : QByteArray) (ts : Nat)
    (h : e.m_initialized = false ∨ p = []) : e.encrypt ks p ts = ([], e) := by
  unfold AudioEncryptor.encrypt
  rcases h with h | h
  · simp [h]
  · subst h
    by_cases hi : e.m_initialized = true
    · simp [hi]
    · simp [hi]

theorem encryptRun_chain (ks : Keystream) :
    ∀ (calls : List (QByteArray × Nat)) (e : AudioEncryptor), e.Ready →
      e.m_localSequence < 2 ^ 32 →
      List.Chain (fun a b => b = (a + 1) % 2 ^ 32 ∧ (a ≠ 4294967295 → a < b))
        e.m_localSequence (producedSequences (encryptRun ks e calls)) := by
  intro calls
  induction calls with
  | nil =>
    intro e _ _
    exact List.Chain.nil
  | cons call rest ih =>
    intro e h hlt
    unfold encryptRun
    by_cases hp : call.1 = []
    · rw [encrypt_rejected ks e call.1 call.2 (Or.inr hp)]
      simpa [producedSequences] using ih e h hlt
    · obtain ⟨h1, h2, h3⟩ := encrypt_sequence ks e call.1 call.2 h hp
      have hne : (e.encrypt ks call.1 call.2).1.isEmpty = false := by
        cases hc : (e.encrypt ks call.1 call.2).1 with
        | nil => exact absurd hc h1
        | cons b bs => rfl
      have ih2 := ih (e.encrypt ks call.1 call.2).2 (encrypt_ready ks e call.1 call.2 h)
        (by rw [h3]; omega)
      unfold producedSequences at ih2 ⊢
      rw [List.filter_cons_of_pos (by simp [hne]), List.map_cons]
      refine List.Chain.cons ?_ ?_
      · refine ⟨h2, ?_⟩
        intro hmax
        rw [h2]
        omega
      · rw [h2, ← h3]
        exact ih2

theorem encryptRepeat_eq (ks : Keystream) (e : AudioEncryptor) (p : QByteArray) (ts : Nat)
    (h : e.Ready) (hlt : e.m_localSequence < 2 ^ 32) (hp : p ≠ []) :
    ∀ n : Nat, encryptRepeat ks e p ts n
      = { e with m_localSequence := (e.m_localSequence + n) % 2 ^ 32 } := by
  obtain ⟨hi, _, hn⟩ := h
  intro n
  induction n with
  | zero =>
    unfold encryptRepeat
    rw [Nat.add_zero, Nat.mod_eq_of_lt hlt]
  | succ n ih =>
    unfold encryptRepeat
    rw [ih]
    have he := encrypt_eq ks { e with m_localSequence := (e.m_localSequence + n) % 2 ^ 32 }
      p ts hi hn hp
    rw [he]
    simp only [AudioEncryptor.mk.injEq, true_and, and_true]
    omega

/-- C26 (as stated, refuted): after 4294967294 successful `encrypt` calls the local
sequence counter of the sample encryptor is 4294967294; the next two calls produce
packets with sequence fields 4294967295 and 0, and 0 is not greater than
4294967295. -/
theorem C26_counterexample :
    encryptRepeat sampleKeystream sampleEncryptor [1] 0 4294967294
      = { sampleEncryptor with m_localSequence := 4294967294 } ∧
    producedSequences (encryptRun sampleKeystream
        { sampleEncryptor with m_localSequence := 4294967294 } [([1], 0), ([1], 0)])
      = [4294967295, 0] ∧
    ¬ List.Chain' (fun a b => a < b) (producedSequences (encryptRun sampleKeystream
        { sampleEncryptor with m_localSequence := 4294967294 } [([1], 0), ([1], 0)])) := by
  have hseq : producedSequences (encryptRun sampleKeystream
      { sampleEncryptor with m_localSequence := 4294967294 } [([1], 0), ([1], 0)])
      = [4294967295, 0] := by
    decide
  refine ⟨?_, hseq, ?_⟩
  · rw [encryptRepeat_eq sampleKeystream sampleEncryptor [1] 0 (by decide) (by decide)
      (by decide)]
    decide
  · rw [hseq]
    simp

/-- C26 (amended): for every run of `encrypt` calls on one initialised encryptor, the
sequence field of each successfully produced packet is that of the previously produced
packet (for the first one, the counter the run started with) plus one modulo `2^32`:
strictly greater unless the previous value was `0xFFFFFFFF`, after which it is 0.  A
rejected call (empty payload or uninitialised encryptor) returns nothing and leaves the
encryptor, so also its counter, unchanged. -/
theorem C26_sequence_increments_mod (ks : Keystream) (e : AudioEncryptor)
    (calls : List (QByteArray × Nat)) (hready : e.Ready)
    (hcounter : e.m_localSequence < 2 ^ 32) :
    List.Chain (fun a b => b = (a + 1) % 2 ^ 32 ∧ (a ≠ 4294967295 → a < b))
      e.m_localSequence (producedSequences (encryptRun ks e calls)) ∧
    (∀ (e2 : AudioEncryptor) (p : QByteArray) (ts : Nat),
      e2.m_initialized = false ∨ p = [] → e2.encrypt ks p ts = ([], e2)) :=
  ⟨encryptRun_chain ks calls e hready hcounter, fun e2 p ts h => encrypt_rejected ks e2 p ts h⟩

/-- Witness for C26 (amended): on the sample encryptor right after `initialize`, a
payload, an empty payload (rejected) and another payload give sequence fields 1 and
2. -/
theorem C26_sequence_increments_mod_witness :
    producedSequences (encryptRun sampleKeystream sampleEncryptor
      [([1, 2], 10), ([], 20), ([3], 30)]) = [1, 2] ∧
    List.Chain (fun a b => b = (a + 1) % 2 ^ 32 ∧ (a ≠ 4294967295 → a < b)) 0
      (producedSequences (encryptRun sampleKeystream sampleEncryptor
        [([1, 2], 10), ([], 20), ([3], 30)])) :=
  ⟨by decide,
   (C26_sequence_increments_mod sampleKeystream sampleEncryptor
     [([1, 2], 10), ([], 20), ([3], 30)] (by decide) (by decide)).1⟩

end audio
end xiaozhi

namespace xiaozhi
namespace audio

/-! ## Claims on synthesized-speech segments -/

theorem segment_refl (s : ConversationManager) : s.SegmentStep s [] := by
  unfold ConversationManager.SegmentStep
  simp

theorem segment_trans (s s1 s2 : ConversationManager) (f1 f2 : List QByteArray)
    (h1 : s.SegmentStep s1 f1) (h2 : s1.SegmentStep s2 f2) : s.SegmentStep s2 (f1 ++ f2) := by
  unfold ConversationManager.SegmentStep at h1 h2 ⊢
  obtain ⟨a1, a2, a3, a4⟩ := h1
  obtain ⟨b1, b2, b3, b4⟩ := h2
  refine ⟨by rw [b1, a1], by rw [b2, a2], by rw [b3, a3], ?_⟩
  rw [b4, a4, a3]
  cases s.m_isTtsAccumulating <;> simp

theorem segment_startConversation (s s1 : ConversationManager) (b : Bool)
    (ev : List ConvEvent) (hs : s.startConversation b = some (s1, ev)) :
    s.SegmentStep s1 [] := by
  unfold ConversationManager.startConversation at hs
  simp only [switchToListening_eq] at hs
  unfold ConversationManager.SegmentStep
  repeat' split at hs
  all_goals simp only [Option.some.injEq, Prod.mk.injEq, reduceCtorEq] at hs
  all_goals (try obtain ⟨rfl, -⟩ := hs)
  all_goals simp

theorem segment_stopRecording (s s1 : ConversationManager)
    (ev : List ConvEvent) (hs : s.stopRecording = some (s1, ev)) :
    s.SegmentStep s1 [] := by
  unfold ConversationManager.stopRecording at hs
  simp only [switchToIdle_eq] at hs
  unfold ConversationManager.SegmentStep
  cases hp : s.m_protocolType <;> cases hw : s.m_websocketManager <;>
    cases hm : s.m_mqttManager <;> cases hr : s.m_isRecording <;>
    simp [hp, hw, hm, hr] at hs <;> (obtain ⟨rfl, -⟩ := hs) <;>
    simp

theorem segment_abortSpeaking (s s1 : ConversationManager)
    (ev : List ConvEvent) (hs : s.abortSpeaking = some (s1, ev)) :
    s.SegmentStep s1 [] := by
  unfold ConversationManager.abortSpeaking at hs
  simp only [switchToListening_eq] at hs
  unfold ConversationManager.SegmentStep
  by_cases hst : s.m_state = ConversationState.Speaking <;>
    cases hp : s.m_protocolType <;> cases hw : s.m_websocketManager <;>
    cases hm : s.m_mqttManager <;>
    simp [hp, hw, hm, hst] at hs <;> (obtain ⟨rfl, -⟩ := hs) <;>
    simp

theorem segment_closeAudioChannel (s s1 : ConversationManager)
    (ev : List ConvEvent) (hs : s.closeAudioChannel = some (s1, ev)) :
    s.SegmentStep s1 [] := by
  unfold ConversationManager.closeAudioChannel at hs
  cases hst : s.stopRecording with
  | none => simp [hst] at hs
  | some r =>
    obtain ⟨s2, ev2⟩ := r
    have h2 := segment_stopRecording s s2 ev2 hst
    simp only [hst, switchToIdle_eq] at hs
    have h3 : s2.SegmentStep s1 [] := by
      unfold ConversationManager.SegmentStep
      cases hpl : s2.m_isPlaying <;> cases hu : s2.m_udpManager <;>
        simp [hpl, hu] at hs <;> (obtain ⟨rfl, -⟩ := hs) <;>
        simp
    simpa using segment_trans s s2 s1 _ _ h2 h3

theorem segment_receiveDecodedAudio (lib : OpusLib) (s : ConversationManager)
    (d : QByteArray) :
    s.SegmentStep (s.receiveDecodedAudio lib d).1
      (if (s.m_codec.decode lib d).1.isEmpty then [] else [(s.m_codec.decode lib d).1]) := by
  unfold ConversationManager.receiveDecodedAudio ConversationManager.SegmentStep
  simp only []
  by_cases he : (s.m_codec.decode lib d).1.isEmpty = true
  · simp [he]
  · cases hacc : s.m_isTtsAccumulating <;> cases hpl : s.m_isPlaying <;>
      simp [he, hacc, hpl]

theorem segment_sendEncodedAudio (lib : OpusLib) (s s1 : ConversationManager)
    (pcm : QByteArray) (ev : List ConvEvent) (hs : s.sendEncodedAudio lib pcm = some (s1, ev)) :
    s.SegmentStep s1 [] := by
  unfold ConversationManager.sendEncodedAudio at hs
  simp only [] at hs
  unfold ConversationManager.SegmentStep
  repeat' split at hs
  all_goals simp only [Option.some.injEq, Prod.mk.injEq, reduceCtorEq] at hs
  all_goals obtain ⟨rfl, -⟩ := hs
  all_goals simp

theorem segment_drainFrames (lib : OpusLib) :
    ∀ (fuel : Nat) (s s1 : ConversationManager) (ev ev1 : List ConvEvent),
      ConversationManager.drainFrames lib fuel s ev = some (s1, ev1) →
      s.SegmentStep s1 [] := by
  intro fuel
  induction fuel with
  | zero =>
    intro s s1 ev ev1 h
    unfold ConversationManager.drainFrames at h
    split at h
    · simp at h
    · simp only [Option.some.injEq, Prod.mk.injEq] at h
      obtain ⟨rfl, -⟩ := h
      exact segment_refl s
  | succ fuel ih =>
    intro s s1 ev ev1 h
    unfold ConversationManager.drainFrames at h
    split at h
    · simp only [] at h
      split at h
      · simp at h
      · rename_i s2 ev2 hsend
        have a0 := segment_sendEncodedAudio lib _ s2 _ ev2 hsend
        have a1 : s.SegmentStep s2 [] := a0
        have b1 := ih s2 s1 _ ev1 h
        simpa using segment_trans s s2 s1 _ _ a1 b1
    · simp only [Option.some.injEq, Prod.mk.injEq] at h
      obtain ⟨rfl, -⟩ := h
      exact segment_refl s

theorem segment_onAudioReady (lib : OpusLib) (fuel : Nat) (s s1 : ConversationManager)
    (pcm : QByteArray) (ev : List ConvEvent)
    (hs : s.onAudioReady lib fuel pcm = some (s1, ev)) :
    s.SegmentStep s1 [] := by
  unfold ConversationManager.onAudioReady at hs
  split at hs
  · simp only [Option.some.injEq, Prod.mk.injEq] at hs
    obtain ⟨rfl, -⟩ := hs
    exact segment_refl s
  · have b1 := segment_drainFrames lib fuel _ s1 _ ev hs
    exact b1

theorem segment_onMqttMessageReceived (s s1 : ConversationManager) (m : ControlMessage)
    (now : Int) (b : Bool) (ev : List ConvEvent) (hnt : m.type ≠ "tts".toList)
    (hs : s.onMqttMessageReceived m now b = some (s1, ev)) :
    s.SegmentStep s1 [] := by
  unfold ConversationManager.onMqttMessageReceived at hs
  by_cases h1 : m.type = "stt".toList
  · rw [if_pos h1] at hs
    split at hs <;>
      (simp only [Option.some.injEq, Prod.mk.injEq] at hs; obtain ⟨rfl, -⟩ := hs
       exact segment_refl s)
  · rw [if_neg h1, if_neg hnt] at hs
    by_cases h2 : m.type = "llm".toList
    · rw [if_pos h2] at hs
      simp only [Option.some.injEq, Prod.mk.injEq] at hs
      obtain ⟨rfl, -⟩ := hs
      exact segment_refl s
    · rw [if_neg h2] at hs
      by_cases h3 : m.type = "system".toList
      · rw [if_pos h3] at hs
        by_cases h4 : m.action = "audio_end".toList
        · rw [if_pos h4] at hs
          simp only [switchToListening_eq, switchToIdle_eq] at hs
          cases hpl : s.m_isPlaying <;> cases hmode : s.m_mode <;>
            cases hrec : s.m_isRecording <;>
            simp only [hpl, hmode, hrec, if_true, if_false, Bool.false_eq_true, Bool.not_true,
              Bool.not_false, reduceCtorEq] at hs <;>
            first
            | (simp only [Option.some.injEq, Prod.mk.injEq] at hs
               obtain ⟨rfl, -⟩ := hs
               unfold ConversationManager.SegmentStep
               simp)
            | (split at hs
               next => simp at hs
               next s3 ev3 hstart =>
                 simp only [Option.some.injEq, Prod.mk.injEq] at hs
                 obtain ⟨rfl, -⟩ := hs
                 have h3 := segment_startConversation _ _ _ _ hstart
                 unfold ConversationManager.SegmentStep at h3 ⊢
                 simpa using h3)
        · rw [if_neg h4] at hs
          simp only [Option.some.injEq, Prod.mk.injEq] at hs
          obtain ⟨rfl, -⟩ := hs
          exact segment_refl s
      · rw [if_neg h3] at hs
        simp only [Option.some.injEq, Prod.mk.injEq] at hs
        obtain ⟨rfl, -⟩ := hs
        exact segment_refl s

theorem segment_apply (lib : OpusLib) (s s1 : ConversationManager) (op : ConvOp)
    (ev : List ConvEvent) (hop : op.isTtsMessage = false)
    (hs : s.apply lib op = some (s1, ev)) : s.SegmentStep s1 (s.deliveredFrame lib op) := by
  cases op with
  | setMode mode =>
    simp only [ConversationManager.apply, Option.some.injEq] at hs
    unfold ConversationManager.setMode at hs
    split at hs <;>
      (simp only [Prod.mk.injEq] at hs; obtain ⟨rfl, -⟩ := hs
       unfold ConversationManager.SegmentStep
       simp [ConversationManager.deliveredFrame])
  | startConversation b => exact segment_startConversation s s1 b ev hs
  | stopRecording => exact segment_stopRecording s s1 ev hs
  | abortSpeaking => exact segment_abortSpeaking s s1 ev hs
  | closeAudioChannel => exact segment_closeAudioChannel s s1 ev hs
  | onUdpConnected =>
    simp only [ConversationManager.apply, Option.some.injEq,
      ConversationManager.onUdpConnected, Prod.mk.injEq] at hs
    obtain ⟨rfl, -⟩ := hs
    exact segment_refl s
  | onUdpAudioReceived d =>
    simp only [ConversationManager.apply, Option.some.injEq] at hs
    unfold ConversationManager.onUdpAudioReceived at hs
    unfold ConversationManager.deliveredFrame
    by_cases hsp : s.m_state = ConversationState.Speaking
    · simp only [hsp, ne_eq, not_true_eq_false, if_false] at hs ⊢
      have h := segment_receiveDecodedAudio lib s d
      rw [hs] at h
      exact h
    · simp only [hsp, ne_eq, not_false_eq_true, if_true, Prod.mk.injEq] at hs ⊢
      obtain ⟨rfl, -⟩ := hs
      exact segment_refl s
  | onAudioReady pcm fuel => exact segment_onAudioReady lib fuel s s1 pcm ev hs
  | onMqttMessageReceived m now b =>
    have hnt : m.type ≠ "tts".toList := by
      simpa [ConvOp.isTtsMessage] using hop
    exact segment_onMqttMessageReceived s s1 m now b ev hnt hs
  | onWebSocketConnected =>
    simp only [ConversationManager.apply, Option.some.injEq,
      ConversationManager.onWebSocketConnected, Prod.mk.injEq] at hs
    obtain ⟨rfl, -⟩ := hs
    exact segment_refl s
  | onWebSocketAudioReceived d =>
    simp only [ConversationManager.apply, Option.some.injEq,
      ConversationManager.onWebSocketAudioReceived] at hs
    have h := segment_receiveDecodedAudio lib s d
    rw [hs] at h
    exact h
  | onWebSocketJsonReceived doc now b =>
    simp only [ConversationManager.apply] at hs
    unfold ConversationManager.onWebSocketJsonReceived at hs
    cases doc with
    | none =>
      simp only [Option.some.injEq, Prod.mk.injEq] at hs
      obtain ⟨rfl, -⟩ := hs
      exact segment_refl s
    | some m =>
      have hnt : m.type ≠ "tts".toList := by
        simpa [ConvOp.isTtsMessage] using hop
      exact segment_onMqttMessageReceived s s1 m now b ev hnt hs

theorem segment_runTrace (lib : OpusLib) :
    ∀ (ops : List ConvOp) (s s1 : ConversationManager) (ev : List ConvEvent),
      (∀ op ∈ ops, op.isTtsMessage = false) →
      s.runTrace lib ops = some (s1, ev) →
      s.SegmentStep s1 (ConversationManager.deliveredFrames lib s ops) := by
  intro ops
  induction ops with
  | nil =>
    intro s s1 ev _ h
    simp only [ConversationManager.runTrace, Option.some.injEq, Prod.mk.injEq] at h
    obtain ⟨rfl, -⟩ := h
    exact segment_refl s
  | cons op ops ih =>
    intro s s1 ev hops h
    unfold ConversationManager.runTrace at h
    split at h
    · simp at h
    · rename_i s2 ev2 happ
      split at h
      · simp at h
      · rename_i s3 ev3 hrun
        simp only [Option.some.injEq, Prod.mk.injEq] at h
        obtain ⟨rfl, -⟩ := h
        unfold ConversationManager.deliveredFrames
        rw [happ]
        exact segment_trans s s2 s3 _ _
          (segment_apply lib s s2 op ev2 (hops op (List.mem_cons_self _ _)) happ)
          (ih s2 s3 ev3 (fun o ho => hops o (List.mem_cons_of_mem _ ho)) hrun)

theorem tts_start_spec (s : ConversationManager) (m : ControlMessage) (now : Int) (b : Bool)
    (ht : m.type = "tts".toList)
    (hst : m.state = "start".toList ∨ m.state = "sentence_start".toList) :
    ∃ s1 ev, s.onMqttMessageReceived m now b = some (s1, ev) ∧
      s1.m_currentTtsText = m.text ∧ s1.m_currentTtsPcm = [] ∧
      s1.m_currentTtsStartTime = now ∧ s1.m_isTtsAccumulating = true ∧
      ConvEvent.ttsMessageStarted m.text now ∈ ev ∧
      (∀ t ts, ConvEvent.ttsMessageStarted t ts ∈ ev → t = m.text ∧ ts = now) := by
  unfold ConversationManager.onMqttMessageReceived
  rw [ht]
  simp only [type_tts_ne, if_false, if_true, hst]
  unfold ConversationManager.switchToSpeaking
  by_cases hsp : s.m_state = ConversationState.Speaking <;>
    cases hrec : s.m_isRecording <;>
    simp only [hsp, hrec, ne_eq, not_true_eq_false, not_false_eq_true, if_true, if_false,
      Bool.false_eq_true] <;>
    refine ⟨_, _, rfl, rfl, rfl, rfl, rfl, ?_, ?_⟩ <;>
    simp

theorem tts_end_spec (s : ConversationManager) (m : ControlMessage) (now : Int) (b : Bool)
    (ht : m.type = "tts".toList)
    (hst : m.state = "end".toList ∨ m.state = "sentence_end".toList ∨ m.state = "stop".toList) :
    ∃ s1 ev, s.onMqttMessageReceived m now b = some (s1, ev) ∧
      ConvEvent.ttsMessageCompleted s.m_currentTtsText s.m_currentTtsPcm
        s.m_currentTtsStartTime ∈ ev ∧
      (∀ t p ts, ConvEvent.ttsMessageCompleted t p ts ∈ ev →
        t = s.m_currentTtsText ∧ p = s.m_currentTtsPcm ∧ ts = s.m_currentTtsStartTime) := by
  have hns : ¬ (m.state = "start".toList ∨ m.state = "sentence_start".toList) := by
    rcases hst with h | h | h <;> rw [h] <;> decide
  unfold ConversationManager.onMqttMessageReceived
  rw [ht]
  simp only [type_tts_ne, if_false, if_true, hst, hns]
  unfold ConversationManager.switchToSpeaking
  by_cases hsp : s.m_state = ConversationState.Speaking <;>
    cases hrec : s.m_isRecording <;>
    simp only [hsp, hrec, ne_eq, not_true_eq_false, not_false_eq_true, if_true, if_false,
      Bool.false_eq_true] <;>
    refine ⟨_, _, rfl, ?_, ?_⟩ <;>
    simp

/-- C27: a `tts` message with state `start` or `sentence_start` is handled and emits
`ttsMessageStarted` with the message's text and the clock reading; after any
operations that deliver no `tts` message, a `tts` message with state `end`,
`sentence_end` or `stop` is handled and the `ttsMessageCompleted` it emits carries that
same text and timestamp, and as PCM the in-order concatenation of the non-empty frames
that the decoder yielded for the audio packets which reached `receiveDecodedAudio` in
between. -/
theorem C27_segment_correlation (lib : OpusLib) (s : ConversationManager)
    (startMsg endMsg : ControlMessage) (now0 now1 : Int) (b0 b1 : Bool) (mid : List ConvOp)
    (hstart : startMsg.type = "tts".toList)
    (hstartState : startMsg.state = "start".toList ∨ startMsg.state = "sentence_start".toList)
    (hmid : ∀ op ∈ mid, op.isTtsMessage = false)
    (hend : endMsg.type = "tts".toList)
    (hendState : endMsg.state = "end".toList ∨ endMsg.state = "sentence_end".toList ∨
      endMsg.state = "stop".toList) :
    ∃ s1 ev0, s.onMqttMessageReceived startMsg now0 b0 = some (s1, ev0) ∧
      ConvEvent.ttsMessageStarted startMsg.text now0 ∈ ev0 ∧
      (∀ t ts, ConvEvent.ttsMessageStarted t ts ∈ ev0 → t = startMsg.text ∧ ts = now0) ∧
      ∀ s2 evMid, s1.runTrace lib mid = some (s2, evMid) →
        ∃ s3 ev3, s2.onMqttMessageReceived endMsg now1 b1 = some (s3, ev3) ∧
          ConvEvent.ttsMessageCompleted startMsg.text
            (ConversationManager.deliveredFrames lib s1 mid).flatten now0 ∈ ev3 ∧
          (∀ t p ts, ConvEvent.ttsMessageCompleted t p ts ∈ ev3 →
            t = startMsg.text ∧
            p = (ConversationManager.deliveredFrames lib s1 mid).flatten ∧ ts = now0) := by
  obtain ⟨s1, ev0, h0, a1, a2, a3, a4, a5, a6⟩ :=
    tts_start_spec s startMsg now0 b0 hstart hstartState
  refine ⟨s1, ev0, h0, a5, a6, ?_⟩
  intro s2 evMid hrun
  obtain ⟨c1, c2, c3, c4⟩ := segment_runTrace lib mid s1 s2 evMid hmid hrun
  rw [a4, a2] at c4
  simp only [if_true, List.nil_append] at c4
  obtain ⟨s3, ev3, h3, d1, d2⟩ := tts_end_spec s2 endMsg now1 b1 hend hendState
  rw [c1, c2, c4, a1, a3] at d1 d2
  exact ⟨s3, ev3, h3, d1, d2⟩

theorem segmentStart_eq :
    ∃ ev0, listeningState.onMqttMessageReceived ttsStartMessage 5 true
      = some (segmentStartState, ev0) :=
  ⟨_, rfl⟩

theorem segmentRun_eq :
    segmentStartState.runTrace sampleOpus segmentOps = some segmentRun := rfl

theorem resize_outputBuffer (size : Int) (written : QByteArray)
    (h : (written.length : Int) ≤ size) :
    QByteArray.resize (outputBuffer size written) (written.length : Int) = written := by
  have hs : written.length ≤ size.toNat := by omega
  unfold QByteArray.resize outputBuffer
  rw [List.take_of_length_le hs]
  simp only [Int.toNat_ofNat, List.length_append, List.length_replicate]
  rw [List.take_left' rfl]
  have : written.length - (written.length + (size.toNat - written.length)) = 0 := by omega
  rw [this]
  simp

theorem decode_sample (codec : OpusCodec) (x : Nat) (rest : QByteArray)
    (hdec : codec.decoder_.map OpusDecoder.channels = some 1)
    (hc : codec.decoder_channels_ = 1) (hx : x ≠ 255) :
    (codec.decode sampleOpus (x :: rest)).1 = List.replicate 8 x := by
  have h8 : ((4 : Int) * 1 * 2).toNat = 8 := by decide
  have hlen : ((List.replicate 8 x).length : Int) = 4 * 1 * 2 := by
    rw [List.length_replicate]
    decide
  have hr := resize_outputBuffer (MAX_FRAME_SIZE * 1 * 2) (List.replicate 8 x)
    (by rw [List.length_replicate]; decide)
  rw [hlen] at hr
  cases hd : codec.decoder_ with
  | none => simp [hd] at hdec
  | some dec =>
    have hdc : dec.channels = 1 := by simpa [hd] using hdec
    unfold OpusCodec.decode
    simp only [hd, List.isEmpty_cons, Bool.false_eq_true, if_false, sampleOpus,
      List.head?_cons, Option.some.injEq, hx, hc, hdc, List.headD_cons, h8]
    rw [if_neg (by decide)]
    exact hr

theorem deliveredFrame_udp_sample (s : ConversationManager) (x : Nat)
    (rest : QByteArray) (hst : s.m_state = ConversationState.Speaking)
    (hdec : s.m_codec.decoder_.map OpusDecoder.channels = some 1)
    (hc : s.m_codec.decoder_channels_ = 1) (hx : x ≠ 255) :
    s.deliveredFrame sampleOpus (ConvOp.onUdpAudioReceived (x :: rest))
      = [List.replicate 8 x] := by
  simp only [ConversationManager.deliveredFrame]
  rw [decode_sample s.m_codec x rest hdec hc hx]
  simp [hst]

theorem deliveredFrames_cons (lib : OpusLib) (s s1 : ConversationManager) (op : ConvOp)
    (ops : List ConvOp) (ev : List ConvEvent) (h : s.apply lib op = some (s1, ev)) :
    ConversationManager.deliveredFrames lib s (op :: ops)
      = s.deliveredFrame lib op ++ ConversationManager.deliveredFrames lib s1 ops := by
  rw [ConversationManager.deliveredFrames, h]

theorem stt_apply (lib : OpusLib) (s : ConversationManager) :
    s.apply lib (ConvOp.onMqttMessageReceived { type := "stt".toList, text := "ok".toList }
        7 true)
      = some (s, [ConvEvent.loggerInfo "📝 STT: %1 (final=%2)",
          ConvEvent.sttTextReceived "ok".toList,
          ConvEvent.sttMessageCompleted "ok".toList 7]) := by
  simp [ConversationManager.apply, ConversationManager.onMqttMessageReceived]

theorem segmentFrames_eq :
    ConversationManager.deliveredFrames sampleOpus segmentStartState segmentOps
      = [[1, 1, 1, 1, 1, 1, 1, 1], [9, 9, 9, 9, 9, 9, 9, 9]] := by
  have h1 : segmentStartState.apply sampleOpus (ConvOp.onUdpAudioReceived [1, 2, 3])
      = some (segmentMidState,
          (segmentStartState.onUdpAudioReceived sampleOpus [1, 2, 3]).2) := rfl
  have h3 : segmentMidState.apply sampleOpus (ConvOp.onUdpAudioReceived [9, 9])
      = some ((segmentMidState.onUdpAudioReceived sampleOpus [9, 9]).1,
          (segmentMidState.onUdpAudioReceived sampleOpus [9, 9]).2) := rfl
  unfold segmentOps
  rw [deliveredFrames_cons sampleOpus segmentStartState segmentMidState _ _ _ h1,
    deliveredFrames_cons sampleOpus segmentMidState segmentMidState _ _ _
      (stt_apply sampleOpus segmentMidState),
    deliveredFrames_cons sampleOpus segmentMidState _ _ _ _ h3,
    deliveredFrame_udp_sample segmentStartState 1 [2, 3] (by decide) (by decide) (by decide)
      (by decide),
    deliveredFrame_udp_sample segmentMidState 9 [9] (by decide) (by decide) (by decide)
      (by decide)]
  rfl

/-- Witness for C27: the listening manager receives `tts`/`start` with text `hi` at
clock reading 5, then the audio packets `01 02 03` and `09 09` (which the sample
decoder turns into eight bytes `01` and eight bytes `09`) with a recognised-text
message between them, then `tts`/`stop`: the completed segment carries `hi`, those
sixteen bytes and the timestamp 5. -/
theorem C27_segment_correlation_witness :
    ∃ s3 ev3, segmentRun.1.onMqttMessageReceived ttsStopMessage 9 true = some (s3, ev3) ∧
      ConvEvent.ttsMessageCompleted "hi".toList
        [1, 1, 1, 1, 1, 1, 1, 1, 9, 9, 9, 9, 9, 9, 9, 9] 5 ∈ ev3 := by
  obtain ⟨s1, ev0, h0, -, -, h3⟩ :=
    C27_segment_correlation sampleOpus listeningState ttsStartMessage ttsStopMessage 5 9
      true true segmentOps (by decide) (by decide) (by decide) (by decide) (by decide)
  obtain ⟨ev0c, hc⟩ := segmentStart_eq
  rw [hc] at h0
  simp only [Option.some.injEq, Prod.mk.injEq] at h0
  obtain ⟨rfl, -⟩ := h0
  obtain ⟨s3, ev3, h4, h5, -⟩ := h3 segmentRun.1 segmentRun.2 segmentRun_eq
  rw [segmentFrames_eq] at h5
  exact ⟨s3, ev3, h4, h5⟩

end audio
end xiaozhi

namespace xiaozhi
namespace network

/-! ## Claims on building binary frames -/

theorem build_v2 (p : QByteArray) (ts : Nat) (h1 : p ≠ []) (h2 : p.length ≤ 1048576) :
    buildBinaryPacket 2 p ts = v2Header ts p.length ++ p := by
  have he : p.isEmpty = false := by
    cases p with
    | nil => exact absurd rfl h1
    | cons b bs => rfl
  have hsz : ((sizeofBinaryProtocol2 : Int) + (p.length : Int)).toNat = p.length + 16 := by
    simp only [sizeofBinaryProtocol2]
    omega
  have hnn : ¬ ((sizeofBinaryProtocol2 : Int) + (p.length : Int) < 0) := by
    simp only [sizeofBinaryProtocol2]
    omega
  unfold buildBinaryPacket
  rw [if_neg (by simp [he]; omega)]
  simp only [if_true, hnn, if_false, hsz]
  have hr : List.replicate (p.length + 16) 0
      = [0, 0, 0, 0, 0, 0, 0, 0, 0, 0, 0, 0, 0, 0, 0, 0] ++ List.replicate p.length 0 := by
    rw [Nat.add_comm, List.replicate_add]
    rfl
  rw [hr]
  have hm := audio.beBytes32_mod ts
  have hl := audio.beBytes32_mod p.length
  simp only [audio.beBytes32] at hm hl
  simp [memcpy, v2Header, audio.beBytes16, audio.beBytes32, bytesOfU32, sizeofBinaryProtocol2]
  simp only [List.cons.injEq, and_true] at hm hl
  obtain ⟨m1, m2, m3, m4⟩ := hm
  obtain ⟨l1, l2, l3, l4⟩ := hl
  refine ⟨?_, ?_, ?_, ?_, ?_, ?_, ?_, ?_⟩ <;> first | assumption | omega

theorem build_v3 (p : QByteArray) (ts : Nat) (h1 : p ≠ []) (h2 : p.length ≤ 65535) :
    buildBinaryPacket 3 p ts = v3Header p.length ++ p := by
  have he : p.isEmpty = false := by
    cases p with
    | nil => exact absurd rfl h1
    | cons b bs => rfl
  have hsz : ((sizeofBinaryProtocol3 : Int) + (p.length : Int)).toNat = p.length + 4 := by
    simp only [sizeofBinaryProtocol3]
    omega
  have hnn : ¬ ((sizeofBinaryProtocol3 : Int) + (p.length : Int) < 0) := by
    simp only [sizeofBinaryProtocol3]
    omega
  have h32 : ¬ ((3 : Int) = 2) := by decide
  unfold buildBinaryPacket
  rw [if_neg (by simp [he]; omega)]
  simp only [h32, if_true, hnn, if_false, hsz, if_neg (show ¬ p.length > 65535 by omega)]
  have hr : List.replicate (p.length + 4) 0 = [0, 0, 0, 0] ++ List.replicate p.length 0 := by
    rw [Nat.add_comm, List.replicate_add]
    rfl
  rw [hr]
  simp [memcpy, v3Header, audio.beBytes16, sizeofBinaryProtocol3]
  omega

theorem build_other (version : Int) (p : QByteArray) (ts : Nat) (h1 : p ≠ [])
    (h2 : p.length ≤ 1048576) (hv2 : version ≠ 2) (hv3 : version ≠ 3) :
    buildBinaryPacket version p ts = p := by
  have he : p.isEmpty = false := by
    cases p with
    | nil => exact absurd rfl h1
    | cons b bs => rfl
  unfold buildBinaryPacket
  rw [if_neg (by simp [he]; omega)]
  simp only [hv2, hv3, if_false]

theorem parse_v2_framed (p : QByteArray) (ts : Nat) (h1 : 1 ≤ p.length)
    (h2 : p.length ≤ 1048576) :
    parseBinaryPacket 2 (v2Header ts p.length ++ p) = some p := by
  have hdecl : readBE32 (v2Header ts p.length ++ p) 12 = some p.length := by
    simp only [readBE32, v2Header, audio.beBytes32]
    simp
    omega
  rw [parse_v2_of_declared _ p.length hdecl (by simp [v2Header, audio.beBytes32])]
  rw [if_neg (by omega), if_neg (by simp [v2Header, audio.beBytes32]; omega)]
  simp [QByteArray.mid, v2Header, audio.beBytes32]

theorem parse_v3_framed (p : QByteArray) (h1 : 1 ≤ p.length) (h2 : p.length ≤ 65535) :
    parseBinaryPacket 3 (v3Header p.length ++ p) = some p := by
  have hdecl : readBE16 (v3Header p.length ++ p) 2 = some p.length := by
    simp only [readBE16, v3Header, audio.beBytes16]
    simp
    omega
  rw [parse_v3_of_declared _ p.length hdecl (by simp [v3Header, audio.beBytes16])]
  rw [if_neg (by omega), if_neg (by simp [v3Header, audio.beBytes16]; omega)]
  simp [QByteArray.mid, v3Header, audio.beBytes16]

/-- C28: for every configured protocol version `v`, every timestamp and every Opus
payload `p` that `buildBinaryPacket` accepts (`1 <= |p| <= 1048576`, and
`|p| <= 65535` when `v = 3`), `parseBinaryPacket (buildBinaryPacket p ts)` is `p`.  The
built frame is `p` itself for every `v` other than 2 and 3; for `v = 2` it has
`16 + |p|` bytes, the header `00 02 | 00 00 | 00 00 00 00 | big-endian ts |
big-endian |p|` followed by `p`; for `v = 3` it has `4 + |p|` bytes, the header
`00 | 00 | big-endian |p|` followed by `p`. -/
theorem C28_build_parse_round_trip (version : Int) (p : QByteArray) (ts : Nat)
    (hmin : 1 ≤ p.length) (hmax : p.length ≤ 1048576)
    (hmax3 : version = 3 → p.length ≤ 65535) :
    parseBinaryPacket version (buildBinaryPacket version p ts) = some p ∧
    (version ≠ 2 → version ≠ 3 → buildBinaryPacket version p ts = p) ∧
    (version = 2 →
      buildBinaryPacket version p ts
        = [0, 2, 0, 0, 0, 0, 0, 0] ++ audio.beBytes32 ts ++ audio.beBytes32 p.length ++ p ∧
      (buildBinaryPacket version p ts).length = 16 + p.length) ∧
    (version = 3 →
      buildBinaryPacket version p ts = [0, 0] ++ audio.beBytes16 p.length ++ p ∧
      (buildBinaryPacket version p ts).length = 4 + p.length) := by
  have hne : p ≠ [] := by
    intro h
    rw [h] at hmin
    simp at hmin
  refine ⟨?_, ?_, ?_, ?_⟩
  · by_cases h2 : version = 2
    · subst h2
      rw [build_v2 p ts hne hmax]
      exact parse_v2_framed p ts hmin hmax
    · by_cases h3 : version = 3
      · subst h3
        rw [build_v3 p ts hne (hmax3 rfl)]
        exact parse_v3_framed p hmin (hmax3 rfl)
      · rw [build_other version p ts hne hmax h2 h3]
        simp [parseBinaryPacket, h2, h3]
  · intro h2 h3
    exact build_other version p ts hne hmax h2 h3
  · intro h2
    subst h2
    rw [build_v2 p ts hne hmax]
    refine ⟨rfl, ?_⟩
    simp [v2Header, audio.beBytes32]
    omega
  · intro h3
    subst h3
    rw [build_v3 p ts hne (hmax3 rfl)]
    refine ⟨rfl, ?_⟩
    simp [v3Header, audio.beBytes16]
    omega

/-- Witness for C28: a three-byte payload at timestamp 5 framed for version 2 and for
version 3. -/
theorem C28_build_parse_round_trip_witness :
    buildBinaryPacket 2 [7, 8, 9] 5
      = [0, 2, 0, 0, 0, 0, 0, 0, 0, 0, 0, 5, 0, 0, 0, 3, 7, 8, 9] ∧
    parseBinaryPacket 2 (buildBinaryPacket 2 [7, 8, 9] 5) = some [7, 8, 9] ∧
    parseBinaryPacket 3 (buildBinaryPacket 3 [7, 8, 9] 5) = some [7, 8, 9] :=
  ⟨by decide,
   (C28_build_parse_round_trip 2 [7, 8, 9] 5 (by decide) (by decide) (by decide)).1,
   (C28_build_parse_round_trip 3 [7, 8, 9] 5 (by decide) (by decide) (by decide)).1⟩

/-! ## Claims on the WebSocket hello handshake -/

theorem ws_disconnect_spec (self : WebSocketManager) :
    self.disconnect.1.m_webSocket = false ∧
    self.disconnect.1.m_helloReceived = false ∧
    self.disconnect.1.m_sessionId = [] ∧
    self.disconnect.1.helloTimerActive = false ∧
    WsEvent.helloTimerStop ∈ self.disconnect.2 ∧
    (self.m_webSocket = true → WsEvent.socketClose ∈ self.disconnect.2) ∧
    WsEvent.connected ∉ self.disconnect.2 := by
  unfold WebSocketManager.disconnect
  cases h : self.m_webSocket <;> simp [h]

/-- C24: on a server hello whose transport is not `websocket` the connection is torn
down (hello timer stopped, socket closed and released), an error is emitted, no
`connected` is emitted, and afterwards `helloReceived` is false and the session id is
empty.  On a server hello with transport `websocket` the session id becomes the
message's `session_id`, `helloReceived` becomes true, the hello timer is stopped and
`connected` is emitted, the socket staying open.  An expiry of the hello timer tears
the connection down and emits an error when no hello has been received
(`helloReceived` false), and does nothing when one has. -/
theorem C24_hello_handshake (self : WebSocketManager) (hello : ServerHello) :
    (hello.transport ≠ "websocket".toList →
      (self.parseServerHello hello).1.m_webSocket = false ∧
      (self.parseServerHello hello).1.m_helloReceived = false ∧
      (self.parseServerHello hello).1.m_sessionId = [] ∧
      (self.parseServerHello hello).1.helloTimerActive = false ∧
      (self.m_webSocket = true → WsEvent.socketClose ∈ (self.parseServerHello hello).2) ∧
      WsEvent.errorOccurred "不支持的transport" ∈ (self.parseServerHello hello).2 ∧
      WsEvent.connected ∉ (self.parseServerHello hello).2) ∧
    (hello.transport = "websocket".toList →
      (self.parseServerHello hello).1.m_sessionId = hello.session_id ∧
      (self.parseServerHello hello).1.m_helloReceived = true ∧
      (self.parseServerHello hello).1.helloTimerActive = false ∧
      (self.parseServerHello hello).1.m_webSocket = self.m_webSocket ∧
      (self.parseServerHello hello).2 = [WsEvent.helloTimerStop, WsEvent.connected]) ∧
    (self.m_helloReceived = false →
      self.onHelloTimeout.1.m_webSocket = false ∧
      self.onHelloTimeout.1.m_sessionId = [] ∧
      (self.m_webSocket = true → WsEvent.socketClose ∈ self.onHelloTimeout.2) ∧
      WsEvent.errorOccurred "服务器Hello响应超时" ∈ self.onHelloTimeout.2) ∧
    (self.m_helloReceived = true →
      self.onHelloTimeout = ({ self with helloTimerActive := false }, [])) ∧
    (self.m_webSocket = true →
      (WsEvent.socketClose ∈ self.onHelloTimeout.2 ↔ self.m_helloReceived = false)) := by
  refine ⟨?_, ?_, ?_, ?_, ?_⟩
  · intro ht
    obtain ⟨d1, d2, d3, d4, -, d6, d7⟩ := ws_disconnect_spec self
    unfold WebSocketManager.parseServerHello
    rw [if_pos ht]
    refine ⟨d1, d2, d3, d4, ?_, ?_, ?_⟩
    · intro hw
      exact List.mem_append_left _ (d6 hw)
    · simp
    · simp only [List.mem_append, List.mem_singleton, reduceCtorEq, or_false]
      exact d7
  · intro ht
    unfold WebSocketManager.parseServerHello
    rw [if_neg (by simp [ht])]
    cases hello.audio_params <;> simp
  · intro hh
    obtain ⟨d1, -, d3, -, -, d6, -⟩ :=
      ws_disconnect_spec { self with helloTimerActive := false }
    unfold WebSocketManager.onHelloTimeout
    rw [if_pos (by simp [hh])]
    refine ⟨d1, d3, ?_, ?_⟩
    · intro hw
      exact List.mem_append_left _ (d6 hw)
    · simp
  · intro hh
    unfold WebSocketManager.onHelloTimeout
    simp [hh]
  · intro hw
    unfold WebSocketManager.onHelloTimeout WebSocketManager.disconnect
    cases hh : self.m_helloReceived <;> simp [hh, hw]

/-- Witness for C24: a manager waiting for the hello receives one naming `udp` and is
torn down; receiving one naming `websocket` it takes the session id `ws-sid`; and its
hello timer expiring before any hello closes the socket. -/
theorem C24_hello_handshake_witness :
    (waitingManager.parseServerHello udpHello).1.m_sessionId = [] ∧
    (waitingManager.parseServerHello goodHello).1.m_sessionId = "ws-sid".toList ∧
    WsEvent.socketClose ∈ waitingManager.onHelloTimeout.2 :=
  ⟨((C24_hello_handshake waitingManager udpHello).1 (by decide)).2.2.1,
   ((C24_hello_handshake waitingManager goodHello).2.1 (by decide)).1,
   ((C24_hello_handshake waitingManager goodHello).2.2.1 (by decide)).2.2.1 (by decide)⟩

end network
end xiaozhi

namespace xiaozhi
namespace network

/-! ## Claims on the connection state of a session -/

theorem session_disconnect_eq (s : DeviceSession) :
    s.disconnect.1 = { s with m_mqttConnected := false, m_udpConnected := false } := by
  obtain ⟨a1, a2, a3, a4, a5, a6, a7, a8, m, u, a9, a10, a11, a12, a13, a14⟩ := s
  cases m <;> cases u <;> rfl

theorem reachable_session_run :
    ∀ (ops : List SessionOp) (s s1 : DeviceSession),
      DeviceSession.Reachable s → s.run ops = some s1 → DeviceSession.Reachable s1 := by
  intro ops
  induction ops with
  | nil =>
    intro s s1 h hr
    simp only [DeviceSession.run, Option.some.injEq] at hr
    rw [← hr]
    exact h
  | cons op ops ih =>
    intro s s1 h hr
    unfold DeviceSession.run at hr
    split at hr
    · simp at hr
    · rename_i s2 ev2 happ
      exact ih s2 s1 (DeviceSession.Reachable.step s s2 op ev2 h happ) hr

theorem mqttConnectedSession_reachable : DeviceSession.Reachable mqttConnectedSession :=
  reachable_session_run mqttConnectOps mqttSession mqttConnectedSession
    (DeviceSession.Reachable.new "dev".toList "name".toList "aa:bb".toList "http://ota".toList
      "uuid".toList true false) (by decide)

theorem wsConnectedSession_reachable : DeviceSession.Reachable wsConnectedSession :=
  reachable_session_run wsConnectOps wsSession wsConnectedSession
    (DeviceSession.Reachable.new "dev".toList "name".toList "aa:bb".toList "http://ota".toList
      "uuid".toList true true) (by decide)

/-- C21 (the code at the failing input): a session connected over WebSocket with
session id `ws-sid`, reached by the bootstrap and the server hello, is still connected
after `disconnect()` and still has that session id: the call touches neither the
WebSocket manager nor the WebSocket-connected flag, and yet announces the state
disconnected.  A session connected over MQTT+UDP with session id `sid` is disconnected
by the call but keeps its session id. -/
theorem C21_disconnect_leaves_websocket_connected :
    wsSession.run wsConnectOps = some wsConnectedSession ∧
    wsConnectedSession.isConnected = true ∧
    wsConnectedSession.sessionId = "ws-sid".toList ∧
    wsConnectedSession.disconnect.1.isConnected = true ∧
    wsConnectedSession.disconnect.1.sessionId = "ws-sid".toList ∧
    wsConnectedSession.disconnect.1.m_websocketManager = wsConnectedSession.m_websocketManager ∧
    wsConnectedSession.disconnect.2
      = [SessionEvent.connectionStateChanged "dev".toList false false,
         SessionEvent.logMessage "dev".toList "已断开连接".toList] ∧
    mqttSession.run mqttConnectOps = some mqttConnectedSession ∧
    mqttConnectedSession.isConnected = true ∧
    mqttConnectedSession.disconnect.1.isConnected = false ∧
    mqttConnectedSession.disconnect.1.sessionId = "sid".toList := by
  decide

/-- C22 (as stated, refuted): on a session with the WebSocket setting on, a bootstrap
response with both sections and the server hello connect the WebSocket transport; a
`connectMqtt` call followed by the broker's connected callback then leaves the
MQTT-connected and the WebSocket-connected flag both true.  And on a session with the
setting off and MQTT connected, switching the setting on, bootstrapping again and the
server hello do the same. -/
theorem C22_counterexample :
    (wsSession.run bothTransportsOps).map
        (fun s => (s.m_mqttConnected, s.m_websocketConnected)) = some (true, true) ∧
    (mqttSession.run rebootstrapOps).map
        (fun s => (s.m_mqttConnected, s.m_websocketConnected)) = some (true, true) := by
  decide

theorem started_onOtaConfigReceived (s : DeviceSession) (config : OtaConfig) (now : Int) :
    (s.onOtaConfigReceived config now).1.m_websocketConnected = s.m_websocketConnected ∧
    (s.onOtaConfigReceived config now).1.m_mqttConnected = s.m_mqttConnected ∧
    (s.onOtaConfigReceived config now).1.mqttConnectRequested = s.mqttConnectRequested ∧
    (s.m_websocketManager.isSome = true →
      (s.onOtaConfigReceived config now).1.m_websocketManager.isSome = true) := by
  unfold DeviceSession.onOtaConfigReceived
  by_cases hact : config.activation.code.isEmpty = true <;>
    by_cases hws : (s.m_websocketEnabled && config.hasWebSocket) = true <;>
    by_cases hm : config.hasMqtt = true <;>
    by_cases hv : config.mqtt.isValid = true <;>
    simp [hact, hws, hm, hv]

theorem started_apply (s s1 : DeviceSession) (op : SessionOp) (ev : List SessionEvent)
    (h : s.FlagsStarted) (hs : s.apply op = some (s1, ev)) : s1.FlagsStarted := by
  unfold DeviceSession.FlagsStarted at h ⊢
  cases op with
  | getOtaConfig =>
    simp only [DeviceSession.apply, DeviceSession.getOtaConfig, Option.some.injEq,
      Prod.mk.injEq] at hs
    obtain ⟨rfl, -⟩ := hs
    exact h
  | onOtaConfigReceived config now =>
    simp only [DeviceSession.apply, Option.some.injEq] at hs
    have e : s1 = (s.onOtaConfigReceived config now).1 := by rw [hs]
    obtain ⟨a1, a2, a3, a4⟩ := started_onOtaConfigReceived s config now
    rw [e, a1, a2, a3]
    exact ⟨fun hc => a4 (h.1 hc), h.2⟩
  | updateWebSocketEnabled enabled =>
    simp only [DeviceSession.apply, DeviceSession.updateWebSocketEnabled, Option.some.injEq,
      Prod.mk.injEq] at hs
    obtain ⟨rfl, -⟩ := hs
    exact h
  | connectMqtt =>
    simp only [DeviceSession.apply, DeviceSession.connectMqtt, Option.some.injEq] at hs
    split at hs
    · simp only [Prod.mk.injEq] at hs
      obtain ⟨rfl, -⟩ := hs
      exact h
    · simp only [Prod.mk.injEq] at hs
      obtain ⟨rfl, -⟩ := hs
      exact ⟨h.1, fun _ => rfl⟩
  | disconnect =>
    simp only [DeviceSession.apply, Option.some.injEq] at hs
    have e : s1 = s.disconnect.1 := by rw [hs]
    rw [e, session_disconnect_eq]
    refine ⟨h.1, ?_⟩
    intro hc
    simp at hc
  | onMqttConnected =>
    simp only [DeviceSession.apply] at hs
    by_cases hreq : s.mqttConnectRequested = true
    · simp only [hreq, if_true, DeviceSession.onMqttConnected, Option.some.injEq] at hs
      split at hs <;>
        (simp only [Prod.mk.injEq] at hs; obtain ⟨rfl, -⟩ := hs
         exact ⟨h.1, fun _ => by first | exact hreq | rfl⟩)
    · simp [hreq] at hs
  | onMqttDisconnected rc =>
    simp only [DeviceSession.apply, DeviceSession.onMqttDisconnected, Option.some.injEq,
      Prod.mk.injEq] at hs
    obtain ⟨rfl, -⟩ := hs
    refine ⟨h.1, ?_⟩
    intro hc
    simp at hc
  | onUdpConfigReceived config sessionId =>
    simp only [DeviceSession.apply, DeviceSession.onUdpConfigReceived, Option.some.injEq] at hs
    by_cases hc : (!s.m_conversationManager && s.m_audioDevice) = true
    · simp only [hc, if_true, Prod.mk.injEq] at hs
      obtain ⟨rfl, -⟩ := hs
      exact h
    · simp only [hc, if_false, Prod.mk.injEq] at hs
      obtain ⟨rfl, -⟩ := hs
      exact h
  | onUdpConnected =>
    simp only [DeviceSession.apply, DeviceSession.onUdpConnected, Option.some.injEq,
      Prod.mk.injEq] at hs
    obtain ⟨rfl, -⟩ := hs
    exact h
  | onWebSocketConnected =>
    simp only [DeviceSession.apply, DeviceSession.onWebSocketConnected] at hs
    cases hm : s.m_websocketManager with
    | none => simp [hm] at hs
    | some manager =>
      simp only [hm] at hs
      split at hs <;>
        (simp only [Option.some.injEq, Prod.mk.injEq] at hs; obtain ⟨rfl, -⟩ := hs
         refine ⟨fun _ => ?_, h.2⟩
         simp [hm])
  | onWebSocketDisconnected =>
    simp only [DeviceSession.apply, DeviceSession.onWebSocketDisconnected, Option.some.injEq,
      Prod.mk.injEq] at hs
    obtain ⟨rfl, -⟩ := hs
    refine ⟨?_, h.2⟩
    intro hc
    simp at hc
  | onWebSocketServerHello hello =>
    simp only [DeviceSession.apply, DeviceSession.onWebSocketServerHello] at hs
    cases hm : s.m_websocketManager with
    | none => simp [hm] at hs
    | some manager =>
      simp only [hm, DeviceSession.onWebSocketError, DeviceSession.onWebSocketConnected] at hs
      by_cases ht : hello.transport = "websocket".toList <;>
        by_cases hc : (!s.m_conversationManager && s.m_audioDevice) = true <;>
        simp only [ht, hc, ne_eq, not_true_eq_false, not_false_eq_true, if_true, if_false,
          Option.some.injEq, Prod.mk.injEq] at hs <;>
        (obtain ⟨rfl, -⟩ := hs) <;>
        exact ⟨fun _ => rfl, h.2⟩

/-- In every reachable state a connected flag is only set for a transport the session
has started. -/
theorem reachable_started (s : DeviceSession) (h : DeviceSession.Reachable s) :
    s.FlagsStarted := by
  induction h with
  | new deviceId deviceName macAddress otaUrl uuid audioDevice websocketEnabled =>
    constructor <;> (intro hc; simp [DeviceSession.new] at hc)
  | step s s1 op ev _ hs ih => exact started_apply s s1 op ev ih hs

theorem flags_apply (s s1 : DeviceSession) (op : SessionOp) (ev : List SessionEvent)
    (hs : s.apply op = some (s1, ev))
    (h1 : op ≠ SessionOp.onMqttConnected) (h2 : op ≠ SessionOp.onWebSocketConnected)
    (h3 : ∀ hello, op ≠ SessionOp.onWebSocketServerHello hello) :
    (s1.m_mqttConnected = true → s.m_mqttConnected = true) ∧
    (s1.m_websocketConnected = true → s.m_websocketConnected = true) := by
  cases op with
  | getOtaConfig =>
    simp only [DeviceSession.apply, DeviceSession.getOtaConfig, Option.some.injEq,
      Prod.mk.injEq] at hs
    obtain ⟨rfl, -⟩ := hs
    exact ⟨id, id⟩
  | onOtaConfigReceived config now =>
    simp only [DeviceSession.apply, Option.some.injEq] at hs
    have e : s1 = (s.onOtaConfigReceived config now).1 := by rw [hs]
    obtain ⟨a1, a2, -, -⟩ := started_onOtaConfigReceived s config now
    rw [e, a1, a2]
    exact ⟨id, id⟩
  | updateWebSocketEnabled enabled =>
    simp only [DeviceSession.apply, DeviceSession.updateWebSocketEnabled, Option.some.injEq,
      Prod.mk.injEq] at hs
    obtain ⟨rfl, -⟩ := hs
    exact ⟨id, id⟩
  | connectMqtt =>
    simp only [DeviceSession.apply, DeviceSession.connectMqtt, Option.some.injEq] at hs
    split at hs <;>
      (simp only [Prod.mk.injEq] at hs; obtain ⟨rfl, -⟩ := hs; exact ⟨id, id⟩)
  | disconnect =>
    simp only [DeviceSession.apply, Option.some.injEq] at hs
    have e : s1 = s.disconnect.1 := by rw [hs]
    rw [e, session_disconnect_eq]
    refine ⟨?_, id⟩
    intro hc
    simp at hc
  | onMqttConnected => exact absurd rfl h1
  | onMqttDisconnected rc =>
    simp only [DeviceSession.apply, DeviceSession.onMqttDisconnected, Option.some.injEq,
      Prod.mk.injEq] at hs
    obtain ⟨rfl, -⟩ := hs
    refine ⟨?_, id⟩
    intro hc
    simp at hc
  | onUdpConfigReceived config sessionId =>
    simp only [DeviceSession.apply, DeviceSession.onUdpConfigReceived, Option.some.injEq] at hs
    by_cases hc : (!s.m_conversationManager && s.m_audioDevice) = true
    · simp only [hc, if_true, Prod.mk.injEq] at hs
      obtain ⟨rfl, -⟩ := hs
      exact ⟨id, id⟩
    · simp only [hc, if_false, Prod.mk.injEq] at hs
      obtain ⟨rfl, -⟩ := hs
      exact ⟨id, id⟩
  | onUdpConnected =>
    simp only [DeviceSession.apply, DeviceSession.onUdpConnected, Option.some.injEq,
      Prod.mk.injEq] at hs
    obtain ⟨rfl, -⟩ := hs
    exact ⟨id, id⟩
  | onWebSocketConnected => exact absurd rfl h2
  | onWebSocketDisconnected =>
    simp only [DeviceSession.apply, DeviceSession.onWebSocketDisconnected, Option.some.injEq,
      Prod.mk.injEq] at hs
    obtain ⟨rfl, -⟩ := hs
    refine ⟨id, ?_⟩
    intro hc
    simp at hc
  | onWebSocketServerHello hello => exact absurd rfl (h3 hello)

/-- C22 (amended): in every state reachable through the operations and callbacks of a
session in which the session has started at most one of the two transports since its
construction (no WebSocket manager has been created, or the MQTT manager has never
been asked to connect), at most one transport is live: the MQTT-connected flag and the
WebSocket-connected flag are not both true, the transport that was not started having
its flag false.  Handling one bootstrap response never starts both transports; and in
any state the only steps that can set a connected flag are the connected callbacks of
the two transports (for WebSocket also as raised by the server hello): every other
operation or callback leaves the two flags not both true when they were not. -/
theorem C22_one_transport_while_one_started (s : DeviceSession)
    (hreach : DeviceSession.Reachable s)
    (hone : s.m_websocketManager = none ∨ s.mqttConnectRequested = false) :
    ¬ (s.m_mqttConnected = true ∧ s.m_websocketConnected = true) ∧
    (s.m_websocketManager = none → s.m_websocketConnected = false) ∧
    (s.mqttConnectRequested = false → s.m_mqttConnected = false) ∧
    (∀ (config : OtaConfig) (now : Int),
      ¬ ((s.onOtaConfigReceived config now).2.any SessionEvent.isWebSocketOpen = true ∧
         (s.onOtaConfigReceived config now).2.any SessionEvent.isMqttConnect = true)) ∧
    (∀ (t t1 : DeviceSession) (op : SessionOp) (ev : List SessionEvent),
      t.apply op = some (t1, ev) →
      op ≠ SessionOp.onMqttConnected → op ≠ SessionOp.onWebSocketConnected →
      (∀ hello, op ≠ SessionOp.onWebSocketServerHello hello) →
      ¬ (t.m_mqttConnected = true ∧ t.m_websocketConnected = true) →
      ¬ (t1.m_mqttConnected = true ∧ t1.m_websocketConnected = true)) := by
  obtain ⟨i1, i2⟩ := reachable_started s hreach
  have hw : s.m_websocketManager = none → s.m_websocketConnected = false := by
    intro hnone
    cases hc : s.m_websocketConnected with
    | false => rfl
    | true =>
      have := i1 hc
      rw [hnone] at this
      simp at this
  have hq : s.mqttConnectRequested = false → s.m_mqttConnected = false := by
    intro hreq
    cases hc : s.m_mqttConnected with
    | false => rfl
    | true =>
      have := i2 hc
      rw [hreq] at this
      simp at this
  refine ⟨?_, hw, hq, ?_, ?_⟩
  · rintro ⟨hm, hws⟩
    rcases hone with h | h
    · rw [hw h] at hws
      simp at hws
    · rw [hq h] at hm
      simp at hm
  · intro config now
    unfold DeviceSession.onOtaConfigReceived
    by_cases hact : config.activation.code.isEmpty = true <;>
      by_cases hws : (s.m_websocketEnabled && config.hasWebSocket) = true <;>
      by_cases hm : config.hasMqtt = true <;>
      by_cases hv : config.mqtt.isValid = true <;>
      simp [hact, hws, hm, hv, SessionEvent.isWebSocketOpen, SessionEvent.isMqttConnect,
        WebSocketManager.connectToServer]
  · intro t t1 op ev hs h1 h2 h3 hnot hboth
    obtain ⟨f1, f2⟩ := flags_apply t t1 op ev hs h1 h2 h3
    exact hnot ⟨f1 hboth.1, f2 hboth.2⟩

/-- Witness for C22 (amended): a session connected over WebSocket that never asked for
MQTT, and a session connected over MQTT+UDP in which no WebSocket manager exists. -/
theorem C22_one_transport_while_one_started_witness :
    wsConnectedSession.m_websocketConnected = true ∧
    wsConnectedSession.m_mqttConnected = false ∧
    mqttConnectedSession.m_mqttConnected = true ∧
    mqttConnectedSession.m_websocketConnected = false :=
  ⟨by decide,
   (C22_one_transport_while_one_started wsConnectedSession wsConnectedSession_reachable
     (Or.inr (by decide))).2.2.1 (by decide),
   by decide,
   (C22_one_transport_while_one_started mqttConnectedSession mqttConnectedSession_reachable
     (Or.inl (by decide))).2.1 (by decide)⟩

end network
end xiaozhi
